import Mathlib

/-!
# urdf_parser / joint.cpp : the joint element codec

A shallow embedding of `urdf_parser/src/joint.cpp` (the five sub-structure
decoders `parseJointDynamics` .. `parseJointMimic`, the joint decoder
`parseJoint`, and the encoders `exportJointDynamics` .. `exportJoint`),
followed by theorems about it.

The C++ functions fill a caller-provided record in place and return a `bool`;
here every such function takes the record and returns the flag together with
the record as it stands on return.  Early `return false` statements become the
corresponding `(false, _)` results.

The collaborators that live outside `joint.cpp` (text to number conversion,
vector and pose parsing and printing, and what `clear()` leaves in a vector, a
pose and each of the five sub-structure records) are fields of `Collab`; all
general theorems hold for every choice of them.  `Concrete.collab` fixes one
choice, with which the codec is evaluated on concrete elements.
-/

namespace urdf

/-! ## The attributed tree (tinyxml2) -/

/-- An element of the document tree: tag name, attributes in document order,
child elements in document order. -/
inductive XMLElement where
  | mk (name : String) (attrs : List (String × String)) (children : List XMLElement)

namespace XMLElement

/-- Tag name of an element. -/
def Name : XMLElement → String
  | mk n _ _ => n

/-- Attribute list of an element. -/
def attrs : XMLElement → List (String × String)
  | mk _ a _ => a

/-- Child elements of an element. -/
def children : XMLElement → List XMLElement
  | mk _ _ c => c

/-- The call `Attribute(name)`: the text of the first attribute called `name`,
or `none` where tinyxml2 returns a null pointer. -/
def Attribute (e : XMLElement) (name : String) : Option String :=
  (e.attrs.find? (fun a => a.1 == name)).map (fun a => a.2)

/-- The call `FirstChildElement(name)`: the first child whose tag is `name`. -/
def FirstChildElement (e : XMLElement) (name : String) : Option XMLElement :=
  e.children.find? (fun c => c.Name == name)

/-- Attribute update used by `SetAttribute`: overwrite the first attribute of
that name, or append a new one at the end. -/
def setAttr (name value : String) : List (String × String) → List (String × String)
  | [] => [(name, value)]
  | a :: rest => if a.1 == name then (name, value) :: rest else a :: setAttr name value rest

/-- The call `SetAttribute(name, value)`. -/
def SetAttribute (e : XMLElement) (name value : String) : XMLElement :=
  mk e.Name (setAttr name value e.attrs) e.children

/-- The call `LinkEndChild(child)`: `child` becomes the last child. -/
def LinkEndChild (e : XMLElement) (child : XMLElement) : XMLElement :=
  mk e.Name e.attrs (e.children ++ [child])

end XMLElement

/-- The call `GetDocument()->NewElement(name)`: a fresh element without
attributes or children. -/
def NewElement (name : String) : XMLElement :=
  XMLElement.mk name [] []

/-! ## The data model (urdf_model) -/

/-- A 3-vector of numbers. -/
structure Vector3 (D : Type) where
  x : D
  y : D
  z : D
deriving DecidableEq

/-- The joint kinds, `Joint::UNKNOWN` included. -/
inductive JointType where
  | UNKNOWN | REVOLUTE | CONTINUOUS | PRISMATIC | FLOATING | PLANAR | FIXED
deriving DecidableEq

/-- Record `JointDynamics`. -/
structure JointDynamics (D : Type) where
  damping : D
  friction : D
deriving DecidableEq

/-- Record `JointLimits`. -/
structure JointLimits (D : Type) where
  lower : D
  upper : D
  effort : D
  velocity : D
deriving DecidableEq

/-- Record `JointSafety`. -/
structure JointSafety (D : Type) where
  soft_upper_limit : D
  soft_lower_limit : D
  k_position : D
  k_velocity : D
deriving DecidableEq

/-- Record `JointCalibration`; `rising` and `falling` are owned pointers that
may be null. -/
structure JointCalibration (D : Type) where
  rising : Option D
  falling : Option D
deriving DecidableEq

/-- Record `JointMimic`. -/
structure JointMimic (D : Type) where
  offset : D
  multiplier : D
  joint_name : String
deriving DecidableEq

/-- Record `Joint`; the five sub-structures are owned pointers that may be
null. -/
structure Joint (D P : Type) where
  name : String
  type : JointType
  axis : Vector3 D
  child_link_name : String
  parent_link_name : String
  parent_to_joint_origin_transform : P
  dynamics : Option (JointDynamics D)
  limits : Option (JointLimits D)
  safety : Option (JointSafety D)
  calibration : Option (JointCalibration D)
  mimic : Option (JointMimic D)
deriving DecidableEq

/-- What `joint.cpp` calls but does not define.  `D` stands for `double`, `P`
for `Pose`. -/
structure Collab (D P : Type) where
  /-- The literal `0` / `0.0`. -/
  zero : D
  /-- The literal `1` / `1.0`. -/
  one : D
  /-- Conversion `strToDouble`; `none` where it throws `std::runtime_error`. -/
  strToDouble : String → Option D
  /-- Formatter `urdf_export_helpers::values2str(double)`. -/
  values2str : D → String
  /-- Method `Vector3::init(text)`; `none` where it throws `ParseError`. -/
  vecInit : String → Option (Vector3 D)
  /-- Formatter `urdf_export_helpers::values2str(Vector3)`. -/
  vec2str : Vector3 D → String
  /-- The vector that `Vector3::clear()` leaves. -/
  vecClear : Vector3 D
  /-- The record that `JointDynamics::clear()` leaves (also the constructor's). -/
  dynamicsClear : JointDynamics D
  /-- The record that `JointLimits::clear()` leaves (also the constructor's). -/
  limitsClear : JointLimits D
  /-- The record that `JointSafety::clear()` leaves (also the constructor's). -/
  safetyClear : JointSafety D
  /-- The record that `JointCalibration::clear()` leaves (also the constructor's). -/
  calibrationClear : JointCalibration D
  /-- The record that `JointMimic::clear()` leaves (also the constructor's). -/
  mimicClear : JointMimic D
  /-- The pose that `Pose::clear()` leaves (the identity pose). -/
  poseClear : P
  /-- Function `parsePoseInternal(pose, xml)`: flag and the pose on return. -/
  parsePoseInternal : P → XMLElement → Bool × P
  /-- Function `exportPose(pose, xml)`: the element `xml` on return. -/
  exportPose : P → XMLElement → XMLElement

/-- Modelled from the spec: `Joint::clear()` is declared in urdf_model/joint.h,
which is not part of joint.cpp.  It empties both link names, resets the origin
transform and the five owned pointers, clears the axis with `Vector3::clear()`
and sets the type to `UNKNOWN`; the name is not touched. -/
def Joint.clear {D P : Type} (c : Collab D P) (joint : Joint D P) : Joint D P :=
  { name := joint.name
    type := JointType.UNKNOWN
    axis := c.vecClear
    child_link_name := ""
    parent_link_name := ""
    parent_to_joint_origin_transform := c.poseClear
    dynamics := none
    limits := none
    safety := none
    calibration := none
    mimic := none }

/-! ## Decoders -/

section Decode

variable {D P : Type}

/-- The block repeated for every optional numeric attribute:
`if (str == NULL) field = dflt; else try field = strToDouble(str) catch return false`.
The result is the value to store, or `none` for the `return false`. -/
def readOr (c : Collab D P) (config : XMLElement) (attr : String) (dflt : D) : Option D :=
  match config.Attribute attr with
  | none => some dflt
  | some str => c.strToDouble str

/-- The block repeated for every mandatory numeric attribute:
`if (str == NULL) return false; else try field = strToDouble(str) catch return false`. -/
def readReq (c : Collab D P) (config : XMLElement) (attr : String) : Option D :=
  match config.Attribute attr with
  | none => none
  | some str => c.strToDouble str

/-- Function `parseJointDynamics(jd, config)`. -/
def parseJointDynamics (c : Collab D P) (_jd : JointDynamics D) (config : XMLElement) :
    Bool × JointDynamics D :=
  let jd := c.dynamicsClear
  match readOr c config "damping" c.zero with
  | none => (false, jd)
  | some damping =>
    let jd := { jd with damping := damping }
    match readOr c config "friction" c.zero with
    | none => (false, jd)
    | some friction =>
      let jd := { jd with friction := friction }
      if config.Attribute "damping" = none ∧ config.Attribute "friction" = none then
        (false, jd)
      else
        (true, jd)

/-- Function `parseJointLimits(jl, config)`. -/
def parseJointLimits (c : Collab D P) (_jl : JointLimits D) (config : XMLElement) :
    Bool × JointLimits D :=
  let jl := c.limitsClear
  match readOr c config "lower" c.zero with
  | none => (false, jl)
  | some lower =>
    let jl := { jl with lower := lower }
    match readOr c config "upper" c.zero with
    | none => (false, jl)
    | some upper =>
      let jl := { jl with upper := upper }
      match readReq c config "effort" with
      | none => (false, jl)
      | some effort =>
        let jl := { jl with effort := effort }
        match readReq c config "velocity" with
        | none => (false, jl)
        | some velocity => (true, { jl with velocity := velocity })

/-- Function `parseJointSafety(js, config)`. -/
def parseJointSafety (c : Collab D P) (_js : JointSafety D) (config : XMLElement) :
    Bool × JointSafety D :=
  let js := c.safetyClear
  match readOr c config "soft_lower_limit" c.zero with
  | none => (false, js)
  | some lo =>
    let js := { js with soft_lower_limit := lo }
    match readOr c config "soft_upper_limit" c.zero with
    | none => (false, js)
    | some hi =>
      let js := { js with soft_upper_limit := hi }
      match readOr c config "k_position" c.zero with
      | none => (false, js)
      | some kp =>
        let js := { js with k_position := kp }
        match readReq c config "k_velocity" with
        | none => (false, js)
        | some kv => (true, { js with k_velocity := kv })

/-- The block repeated for `rising` and `falling`:
`if (str == NULL) field.reset(); else try field.reset(new double(strToDouble(str))) catch return false`.
The outer `none` is the `return false`. -/
def readPtr (c : Collab D P) (config : XMLElement) (attr : String) : Option (Option D) :=
  match config.Attribute attr with
  | none => some none
  | some str =>
    match c.strToDouble str with
    | none => none
    | some v => some (some v)

/-- Function `parseJointCalibration(jc, config)`. -/
def parseJointCalibration (c : Collab D P) (_jc : JointCalibration D) (config : XMLElement) :
    Bool × JointCalibration D :=
  let jc := c.calibrationClear
  match readPtr c config "rising" with
  | none => (false, jc)
  | some rising =>
    let jc := { jc with rising := rising }
    match readPtr c config "falling" with
    | none => (false, jc)
    | some falling => (true, { jc with falling := falling })

/-- Function `parseJointMimic(jm, config)`. -/
def parseJointMimic (c : Collab D P) (_jm : JointMimic D) (config : XMLElement) :
    Bool × JointMimic D :=
  let jm := c.mimicClear
  match config.Attribute "joint" with
  | none => (false, jm)
  | some joint_name_str =>
    let jm := { jm with joint_name := joint_name_str }
    match readOr c config "multiplier" c.one with
    | none => (false, jm)
    | some multiplier =>
      let jm := { jm with multiplier := multiplier }
      match readOr c config "offset" c.zero with
      | none => (false, jm)
      | some offset => (true, { jm with offset := offset })

/-- Sequencing of two blocks of a decoder: once a block has executed
`return false`, nothing after it runs. -/
def andThen {σ : Type} (r : Bool × σ) (next : σ → Bool × σ) : Bool × σ :=
  if r.1 then next r.2 else r

/-- Block "Get Joint Name" of `parseJoint`. -/
def parseJoint.getName (joint : Joint D P) (config : XMLElement) : Bool × Joint D P :=
  match config.Attribute "name" with
  | none => (false, joint)
  | some name => (true, { joint with name := name })

/-- Block "Get transform from Parent Link to Joint Frame" of `parseJoint`. -/
def parseJoint.getOrigin (c : Collab D P) (joint : Joint D P) (config : XMLElement) :
    Bool × Joint D P :=
  match config.FirstChildElement "origin" with
  | none => (true, { joint with parent_to_joint_origin_transform := c.poseClear })
  | some origin_xml =>
    let r := c.parsePoseInternal joint.parent_to_joint_origin_transform origin_xml
    if !r.1 then
      (false, { joint with parent_to_joint_origin_transform := c.poseClear })
    else
      (true, { joint with parent_to_joint_origin_transform := r.2 })

/-- Block "Get Parent Link" of `parseJoint`. -/
def parseJoint.getParent (joint : Joint D P) (config : XMLElement) : Bool × Joint D P :=
  match config.FirstChildElement "parent" with
  | some parent_xml =>
    match parent_xml.Attribute "link" with
    | none => (true, joint)
    | some pname => (true, { joint with parent_link_name := pname })
  | none => (true, joint)

/-- Block "Get Child Link" of `parseJoint`. -/
def parseJoint.getChild (joint : Joint D P) (config : XMLElement) : Bool × Joint D P :=
  match config.FirstChildElement "child" with
  | some child_xml =>
    match child_xml.Attribute "link" with
    | none => (true, joint)
    | some pname => (true, { joint with child_link_name := pname })
  | none => (true, joint)

/-- Block "Get Joint type" of `parseJoint`. -/
def parseJoint.getType (joint : Joint D P) (config : XMLElement) : Bool × Joint D P :=
  match config.Attribute "type" with
  | none => (false, joint)
  | some type_str =>
    if type_str = "planar" then (true, { joint with type := JointType.PLANAR })
    else if type_str = "floating" then (true, { joint with type := JointType.FLOATING })
    else if type_str = "revolute" then (true, { joint with type := JointType.REVOLUTE })
    else if type_str = "continuous" then (true, { joint with type := JointType.CONTINUOUS })
    else if type_str = "prismatic" then (true, { joint with type := JointType.PRISMATIC })
    else if type_str = "fixed" then (true, { joint with type := JointType.FIXED })
    else (false, joint)

/-- Block "Get Joint Axis" of `parseJoint`. -/
def parseJoint.getAxis (c : Collab D P) (joint : Joint D P) (config : XMLElement) :
    Bool × Joint D P :=
  if joint.type ≠ JointType.FLOATING ∧ joint.type ≠ JointType.FIXED then
    match config.FirstChildElement "axis" with
    | none => (true, { joint with axis := Vector3.mk c.one c.zero c.zero })
    | some axis_xml =>
      match axis_xml.Attribute "xyz" with
      | some xyz =>
        match c.vecInit xyz with
        | some v => (true, { joint with axis := v })
        | none => (false, { joint with axis := c.vecClear })
      | none => (true, joint)
  else
    (true, joint)

/-- Block "Get limit" of `parseJoint`. -/
def parseJoint.getLimit (c : Collab D P) (joint : Joint D P) (config : XMLElement) :
    Bool × Joint D P :=
  match config.FirstChildElement "limit" with
  | some limit_xml =>
    let r := parseJointLimits c c.limitsClear limit_xml
    if !r.1 then (false, { joint with limits := none })
    else (true, { joint with limits := some r.2 })
  | none =>
    if joint.type = JointType.REVOLUTE then (false, joint)
    else if joint.type = JointType.PRISMATIC then (false, joint)
    else (true, joint)

/-- Block "Get safety" of `parseJoint`. -/
def parseJoint.getSafety (c : Collab D P) (joint : Joint D P) (config : XMLElement) :
    Bool × Joint D P :=
  match config.FirstChildElement "safety_controller" with
  | some safety_xml =>
    let r := parseJointSafety c c.safetyClear safety_xml
    if !r.1 then (false, { joint with safety := none })
    else (true, { joint with safety := some r.2 })
  | none => (true, joint)

/-- Block "Get calibration" of `parseJoint`. -/
def parseJoint.getCalibration (c : Collab D P) (joint : Joint D P) (config : XMLElement) :
    Bool × Joint D P :=
  match config.FirstChildElement "calibration" with
  | some calibration_xml =>
    let r := parseJointCalibration c c.calibrationClear calibration_xml
    if !r.1 then (false, { joint with calibration := none })
    else (true, { joint with calibration := some r.2 })
  | none => (true, joint)

/-- Block "Get Joint Mimic" of `parseJoint`. -/
def parseJoint.getMimic (c : Collab D P) (joint : Joint D P) (config : XMLElement) :
    Bool × Joint D P :=
  match config.FirstChildElement "mimic" with
  | some mimic_xml =>
    let r := parseJointMimic c c.mimicClear mimic_xml
    if !r.1 then (false, { joint with mimic := none })
    else (true, { joint with mimic := some r.2 })
  | none => (true, joint)

/-- Block "Get Dynamics" of `parseJoint`. -/
def parseJoint.getDynamics (c : Collab D P) (joint : Joint D P) (config : XMLElement) :
    Bool × Joint D P :=
  match config.FirstChildElement "dynamics" with
  | some prop_xml =>
    let r := parseJointDynamics c c.dynamicsClear prop_xml
    if !r.1 then (false, { joint with dynamics := none })
    else (true, { joint with dynamics := some r.2 })
  | none => (true, joint)

/-- Function `parseJoint(joint, config)`: `joint.clear()` followed by the eleven
blocks in source order; the result is the returned flag and the caller's joint
as it stands on return. -/
def parseJoint (c : Collab D P) (joint : Joint D P) (config : XMLElement) : Bool × Joint D P :=
  andThen (andThen (andThen (andThen (andThen (andThen (andThen (andThen (andThen (andThen
    (parseJoint.getName (Joint.clear c joint) config)
    (fun j => parseJoint.getOrigin c j config))
    (fun j => parseJoint.getParent j config))
    (fun j => parseJoint.getChild j config))
    (fun j => parseJoint.getType j config))
    (fun j => parseJoint.getAxis c j config))
    (fun j => parseJoint.getLimit c j config))
    (fun j => parseJoint.getSafety c j config))
    (fun j => parseJoint.getCalibration c j config))
    (fun j => parseJoint.getMimic c j config))
    (fun j => parseJoint.getDynamics c j config)

end Decode

/-! ## Encoders -/

section Encode

variable {D P : Type}

/-- Function `exportJointDynamics(jd, xml)`: flag and `xml` on return. -/
def exportJointDynamics (c : Collab D P) (jd : JointDynamics D) (xml : XMLElement) :
    Bool × XMLElement :=
  let dynamics_xml := NewElement "dynamics"
  let dynamics_xml := dynamics_xml.SetAttribute "damping" (c.values2str jd.damping)
  let dynamics_xml := dynamics_xml.SetAttribute "friction" (c.values2str jd.friction)
  (true, xml.LinkEndChild dynamics_xml)

/-- Function `exportJointLimits(jl, xml)`. -/
def exportJointLimits (c : Collab D P) (jl : JointLimits D) (xml : XMLElement) :
    Bool × XMLElement :=
  let limit_xml := NewElement "limit"
  let limit_xml := limit_xml.SetAttribute "effort" (c.values2str jl.effort)
  let limit_xml := limit_xml.SetAttribute "velocity" (c.values2str jl.velocity)
  let limit_xml := limit_xml.SetAttribute "lower" (c.values2str jl.lower)
  let limit_xml := limit_xml.SetAttribute "upper" (c.values2str jl.upper)
  (true, xml.LinkEndChild limit_xml)

/-- Function `exportJointSafety(js, xml)`. -/
def exportJointSafety (c : Collab D P) (js : JointSafety D) (xml : XMLElement) :
    Bool × XMLElement :=
  let safety_xml := NewElement "safety_controller"
  let safety_xml := safety_xml.SetAttribute "k_position" (c.values2str js.k_position)
  let safety_xml := safety_xml.SetAttribute "k_velocity" (c.values2str js.k_velocity)
  let safety_xml := safety_xml.SetAttribute "soft_lower_limit" (c.values2str js.soft_lower_limit)
  let safety_xml := safety_xml.SetAttribute "soft_upper_limit" (c.values2str js.soft_upper_limit)
  (true, xml.LinkEndChild safety_xml)

/-- Function `exportJointCalibration(jc, xml)`. -/
def exportJointCalibration (c : Collab D P) (jc : JointCalibration D) (xml : XMLElement) :
    Bool × XMLElement :=
  if jc.falling.isSome ∨ jc.rising.isSome then
    let calibration_xml := NewElement "calibration"
    let calibration_xml :=
      match jc.falling with
      | some falling => calibration_xml.SetAttribute "falling" (c.values2str falling)
      | none => calibration_xml
    let calibration_xml :=
      match jc.rising with
      | some rising => calibration_xml.SetAttribute "rising" (c.values2str rising)
      | none => calibration_xml
    (true, xml.LinkEndChild calibration_xml)
  else
    (true, xml)

/-- Function `exportJointMimic(jm, xml)`. -/
def exportJointMimic (c : Collab D P) (jm : JointMimic D) (xml : XMLElement) :
    Bool × XMLElement :=
  if jm.joint_name ≠ "" then
    let mimic_xml := NewElement "mimic"
    let mimic_xml := mimic_xml.SetAttribute "offset" (c.values2str jm.offset)
    let mimic_xml := mimic_xml.SetAttribute "multiplier" (c.values2str jm.multiplier)
    let mimic_xml := mimic_xml.SetAttribute "joint" jm.joint_name
    (true, xml.LinkEndChild mimic_xml)
  else
    (true, xml)

/-- The part of `exportJoint` after the type chain and its `else`: the `axis`,
`parent` and `child` elements and the five conditional sub-structure encoders,
applied to the joint element built so far. -/
def exportJoint.rest (c : Collab D P) (joint : Joint D P) (joint_xml : XMLElement) : XMLElement :=
  let axis_xml := NewElement "axis"
  let axis_xml := axis_xml.SetAttribute "xyz" (c.vec2str joint.axis)
  let joint_xml := joint_xml.LinkEndChild axis_xml
  let parent_xml := NewElement "parent"
  let parent_xml := parent_xml.SetAttribute "link" joint.parent_link_name
  let joint_xml := joint_xml.LinkEndChild parent_xml
  let child_xml := NewElement "child"
  let child_xml := child_xml.SetAttribute "link" joint.child_link_name
  let joint_xml := joint_xml.LinkEndChild child_xml
  let joint_xml :=
    match joint.dynamics with
    | some jd => (exportJointDynamics c jd joint_xml).2
    | none => joint_xml
  let joint_xml :=
    match joint.limits with
    | some jl => (exportJointLimits c jl joint_xml).2
    | none => joint_xml
  let joint_xml :=
    match joint.safety with
    | some js => (exportJointSafety c js joint_xml).2
    | none => joint_xml
  let joint_xml :=
    match joint.calibration with
    | some jc => (exportJointCalibration c jc joint_xml).2
    | none => joint_xml
  let joint_xml :=
    match joint.mimic with
    | some jm => (exportJointMimic c jm joint_xml).2
    | none => joint_xml
  joint_xml

/-- The joint element that `exportJoint` builds before linking it under `xml`.
The final `else` of the type chain has no statement of its own before the
`// origin` comment, so the statement it governs is the `exportPose` call. -/
def exportJoint.element (c : Collab D P) (joint : Joint D P) : XMLElement :=
  let joint_xml := NewElement "joint"
  let joint_xml := joint_xml.SetAttribute "name" joint.name
  let joint_xml :=
    if joint.type = JointType.PLANAR then joint_xml.SetAttribute "type" "planar"
    else if joint.type = JointType.FLOATING then joint_xml.SetAttribute "type" "floating"
    else if joint.type = JointType.REVOLUTE then joint_xml.SetAttribute "type" "revolute"
    else if joint.type = JointType.CONTINUOUS then joint_xml.SetAttribute "type" "continuous"
    else if joint.type = JointType.PRISMATIC then joint_xml.SetAttribute "type" "prismatic"
    else if joint.type = JointType.FIXED then joint_xml.SetAttribute "type" "fixed"
    else c.exportPose joint.parent_to_joint_origin_transform joint_xml
  exportJoint.rest c joint joint_xml

/-- Function `exportJoint(joint, xml)`: flag and `xml` on return. -/
def exportJoint (c : Collab D P) (joint : Joint D P) (xml : XMLElement) : Bool × XMLElement :=
  (true, xml.LinkEndChild (exportJoint.element c joint))

/-- The encoder the specification describes: `exportJoint` with the trailing
`else` of the type chain removed, so that the pose is encoded after the chain
for every joint. -/
def exportJointNoElse.element (c : Collab D P) (joint : Joint D P) : XMLElement :=
  let joint_xml := NewElement "joint"
  let joint_xml := joint_xml.SetAttribute "name" joint.name
  let joint_xml :=
    if joint.type = JointType.PLANAR then joint_xml.SetAttribute "type" "planar"
    else if joint.type = JointType.FLOATING then joint_xml.SetAttribute "type" "floating"
    else if joint.type = JointType.REVOLUTE then joint_xml.SetAttribute "type" "revolute"
    else if joint.type = JointType.CONTINUOUS then joint_xml.SetAttribute "type" "continuous"
    else if joint.type = JointType.PRISMATIC then joint_xml.SetAttribute "type" "prismatic"
    else if joint.type = JointType.FIXED then joint_xml.SetAttribute "type" "fixed"
    else joint_xml
  let joint_xml := c.exportPose joint.parent_to_joint_origin_transform joint_xml
  exportJoint.rest c joint joint_xml

/-- The specification's encoder as a function of `(joint, xml)`. -/
def exportJointNoElse (c : Collab D P) (joint : Joint D P) (xml : XMLElement) :
    Bool × XMLElement :=
  (true, xml.LinkEndChild (exportJointNoElse.element c joint))

end Encode

/-! ## A concrete choice of collaborators

Numbers are natural numbers written in decimal, a vector is three of them
separated by blanks, a pose is a position and a roll-pitch-yaw triple carried by
the `xyz` and `rpy` attributes of an `origin` element.  `clear()` zeroes numbers,
vectors and records, as the urdf_model headers do.  This instance is used to
evaluate the codec on concrete elements. -/

namespace Concrete

/-- Decimal digits to a number, most significant first. -/
def digits : List Char → Nat → Option Nat
  | [], acc => some acc
  | ch :: rest, acc =>
    if 48 ≤ ch.toNat ∧ ch.toNat ≤ 57 then digits rest (10 * acc + (ch.toNat - 48)) else none

/-- Text to number: a non-empty run of decimal digits. -/
def strToDouble (s : String) : Option Nat :=
  match s.data with
  | [] => none
  | cs => digits cs 0

/-- Number to text. -/
def values2str (n : Nat) : String :=
  Nat.repr n

/-- Pieces of a text between blanks; the accumulator holds the current piece. -/
def pieces : List Char → List Char → List (List Char)
  | [], cur => [cur]
  | ch :: rest, cur => if ch = ' ' then cur :: pieces rest [] else pieces rest (cur ++ [ch])

/-- Text to vector: exactly three numbers between blanks, empty pieces skipped. -/
def vecInit (s : String) : Option (Vector3 Nat) :=
  match ((pieces s.data []).filter (fun p => !p.isEmpty)).map (fun p => digits p 0) with
  | [some x, some y, some z] => some (Vector3.mk x y z)
  | _ => none

/-- Vector to text. -/
def vec2str (v : Vector3 Nat) : String :=
  Nat.repr v.x ++ " " ++ Nat.repr v.y ++ " " ++ Nat.repr v.z

/-- Pose: position and roll-pitch-yaw. -/
abbrev Pose : Type := Vector3 Nat × Vector3 Nat

/-- Pose decoder: `xyz` and `rpy` are optional, malformed text fails. -/
def parsePoseInternal (_pose : Pose) (xml : XMLElement) : Bool × Pose :=
  let zero : Vector3 Nat := Vector3.mk 0 0 0
  match (match xml.Attribute "xyz" with
         | none => some zero
         | some t => vecInit t) with
  | none => (false, (zero, zero))
  | some pos =>
    match (match xml.Attribute "rpy" with
           | none => some zero
           | some t => vecInit t) with
    | none => (false, (pos, zero))
    | some rot => (true, (pos, rot))

/-- Pose encoder: appends an `origin` element with `xyz` and `rpy`. -/
def exportPose (pose : Pose) (xml : XMLElement) : XMLElement :=
  let origin := NewElement "origin"
  let origin := origin.SetAttribute "xyz" (vec2str pose.1)
  let origin := origin.SetAttribute "rpy" (vec2str pose.2)
  xml.LinkEndChild origin

/-- The concrete collaborators. -/
def collab : Collab Nat Pose :=
  { zero := 0
    one := 1
    strToDouble := strToDouble
    values2str := values2str
    vecInit := vecInit
    vec2str := vec2str
    vecClear := Vector3.mk 0 0 0
    dynamicsClear := JointDynamics.mk 0 0
    limitsClear := JointLimits.mk 0 0 0 0
    safetyClear := JointSafety.mk 0 0 0 0
    calibrationClear := JointCalibration.mk none none
    mimicClear := JointMimic.mk 0 0 ""
    poseClear := (Vector3.mk 0 0 0, Vector3.mk 0 0 0)
    parsePoseInternal := parsePoseInternal
    exportPose := exportPose }

/-- A joint value as a default constructor followed by `clear()` leaves it. -/
def joint0 : Joint Nat Pose :=
  Joint.clear collab
    { name := ""
      type := JointType.UNKNOWN
      axis := Vector3.mk 0 0 0
      child_link_name := ""
      parent_link_name := ""
      parent_to_joint_origin_transform := (Vector3.mk 0 0 0, Vector3.mk 0 0 0)
      dynamics := none
      limits := none
      safety := none
      calibration := none
      mimic := none }

end Concrete

/-! ## Conditions and values used to state the theorems

These are not part of the program: they name, per block of `parseJoint`, the
condition under which the block does not return `false` and the value the block
leaves in the field it writes. -/

section Conditions

variable {D P : Type}

/-- The six type spellings and their enum values. -/
def typeSpellings : List (String × JointType) :=
  [("planar", JointType.PLANAR), ("floating", JointType.FLOATING),
   ("revolute", JointType.REVOLUTE), ("continuous", JointType.CONTINUOUS),
   ("prismatic", JointType.PRISMATIC), ("fixed", JointType.FIXED)]

/-- The enum value of the `type` attribute of an element, if the attribute is
present and is one of the six spellings. -/
def typeOfAttr (e : XMLElement) : Option JointType :=
  match e.Attribute "type" with
  | none => none
  | some s => typeSpellings.lookup s

/-- The `origin` child is absent or the pose parser accepts it. -/
def originOk (c : Collab D P) (e : XMLElement) : Bool :=
  match e.FirstChildElement "origin" with
  | none => true
  | some o => (c.parsePoseInternal c.poseClear o).1

/-- For a type other than fixed and floating, an `axis` child with an `xyz`
attribute holds text that the vector parser accepts. -/
def axisOk (c : Collab D P) (ty : JointType) (e : XMLElement) : Bool :=
  if ty = JointType.FLOATING ∨ ty = JointType.FIXED then true
  else
    match e.FirstChildElement "axis" with
    | none => true
    | some a =>
      match a.Attribute "xyz" with
      | none => true
      | some t => (c.vecInit t).isSome

/-- The `limit` child decodes if present, and is present when the type is
revolute or prismatic. -/
def limitOk (c : Collab D P) (ty : JointType) (e : XMLElement) : Bool :=
  match e.FirstChildElement "limit" with
  | some l => (parseJointLimits c c.limitsClear l).1
  | none => decide (ty ≠ JointType.REVOLUTE ∧ ty ≠ JointType.PRISMATIC)

/-- The `safety_controller` child is absent or decodes. -/
def safetyOk (c : Collab D P) (e : XMLElement) : Bool :=
  match e.FirstChildElement "safety_controller" with
  | some x => (parseJointSafety c c.safetyClear x).1
  | none => true

/-- The `calibration` child is absent or decodes. -/
def calibrationOk (c : Collab D P) (e : XMLElement) : Bool :=
  match e.FirstChildElement "calibration" with
  | some x => (parseJointCalibration c c.calibrationClear x).1
  | none => true

/-- The `mimic` child is absent or decodes. -/
def mimicOk (c : Collab D P) (e : XMLElement) : Bool :=
  match e.FirstChildElement "mimic" with
  | some x => (parseJointMimic c c.mimicClear x).1
  | none => true

/-- The `dynamics` child is absent or decodes. -/
def dynamicsOk (c : Collab D P) (e : XMLElement) : Bool :=
  match e.FirstChildElement "dynamics" with
  | some x => (parseJointDynamics c c.dynamicsClear x).1
  | none => true

/-- Everything `parseJoint` requires of an element of type `ty` beyond the
`name` and `type` attributes. -/
def otherwiseValid (c : Collab D P) (ty : JointType) (e : XMLElement) : Bool :=
  originOk c e && axisOk c ty e && limitOk c ty e && safetyOk c e &&
    calibrationOk c e && mimicOk c e && dynamicsOk c e

/-- The pose a successful decode stores. -/
def originOf (c : Collab D P) (e : XMLElement) : P :=
  match e.FirstChildElement "origin" with
  | none => c.poseClear
  | some o => (c.parsePoseInternal c.poseClear o).2

/-- The link name a successful decode stores for the child tagged `tag`
(`parent` or `child`). -/
def linkOf (e : XMLElement) (tag : String) : String :=
  match e.FirstChildElement tag with
  | none => ""
  | some x =>
    match x.Attribute "link" with
    | none => ""
    | some l => l

/-- The axis a successful decode of an element of type `ty` stores. -/
def axisOf (c : Collab D P) (ty : JointType) (e : XMLElement) : Vector3 D :=
  if ty = JointType.FLOATING ∨ ty = JointType.FIXED then c.vecClear
  else
    match e.FirstChildElement "axis" with
    | none => Vector3.mk c.one c.zero c.zero
    | some a =>
      match a.Attribute "xyz" with
      | none => c.vecClear
      | some t =>
        match c.vecInit t with
        | some v => v
        | none => c.vecClear

/-- The dynamics a successful decode stores. -/
def dynamicsOf (c : Collab D P) (e : XMLElement) : Option (JointDynamics D) :=
  (e.FirstChildElement "dynamics").map (fun x => (parseJointDynamics c c.dynamicsClear x).2)

/-- The limits a successful decode stores. -/
def limitsOf (c : Collab D P) (e : XMLElement) : Option (JointLimits D) :=
  (e.FirstChildElement "limit").map (fun x => (parseJointLimits c c.limitsClear x).2)

/-- The safety record a successful decode stores. -/
def safetyOf (c : Collab D P) (e : XMLElement) : Option (JointSafety D) :=
  (e.FirstChildElement "safety_controller").map
    (fun x => (parseJointSafety c c.safetyClear x).2)

/-- The calibration a successful decode stores. -/
def calibrationOf (c : Collab D P) (e : XMLElement) : Option (JointCalibration D) :=
  (e.FirstChildElement "calibration").map
    (fun x => (parseJointCalibration c c.calibrationClear x).2)

/-- The mimic record a successful decode stores. -/
def mimicOf (c : Collab D P) (e : XMLElement) : Option (JointMimic D) :=
  (e.FirstChildElement "mimic").map (fun x => (parseJointMimic c c.mimicClear x).2)

/-- The joint a successful decode of `e` leaves, given the text `n` of the
`name` attribute and the resolved type `ty`. -/
def decoded (c : Collab D P) (e : XMLElement) (n : String) (ty : JointType) : Joint D P :=
  { name := n
    type := ty
    axis := axisOf c ty e
    child_link_name := linkOf e "child"
    parent_link_name := linkOf e "parent"
    parent_to_joint_origin_transform := originOf c e
    dynamics := dynamicsOf c e
    limits := limitsOf c e
    safety := safetyOf c e
    calibration := calibrationOf c e
    mimic := mimicOf c e }

/-- The text `exportJoint` writes for a joint kind; `none` for `UNKNOWN`. -/
def spellingOf : JointType → Option String
  | JointType.PLANAR => some "planar"
  | JointType.FLOATING => some "floating"
  | JointType.REVOLUTE => some "revolute"
  | JointType.CONTINUOUS => some "continuous"
  | JointType.PRISMATIC => some "prismatic"
  | JointType.FIXED => some "fixed"
  | JointType.UNKNOWN => none

/-- The `axis` element the encoder emits. -/
def axisElement (c : Collab D P) (v : Vector3 D) : XMLElement :=
  XMLElement.mk "axis" [("xyz", c.vec2str v)] []

/-- The `parent` or `child` element the encoder emits. -/
def linkElement (tag link : String) : XMLElement :=
  XMLElement.mk tag [("link", link)] []

/-- The `dynamics` element the encoder emits. -/
def dynamicsElement (c : Collab D P) (jd : JointDynamics D) : XMLElement :=
  XMLElement.mk "dynamics"
    [("damping", c.values2str jd.damping), ("friction", c.values2str jd.friction)] []

/-- The `limit` element the encoder emits. -/
def limitElement (c : Collab D P) (jl : JointLimits D) : XMLElement :=
  XMLElement.mk "limit"
    [("effort", c.values2str jl.effort), ("velocity", c.values2str jl.velocity),
     ("lower", c.values2str jl.lower), ("upper", c.values2str jl.upper)] []

/-- The `safety_controller` element the encoder emits. -/
def safetyElement (c : Collab D P) (js : JointSafety D) : XMLElement :=
  XMLElement.mk "safety_controller"
    [("k_position", c.values2str js.k_position), ("k_velocity", c.values2str js.k_velocity),
     ("soft_lower_limit", c.values2str js.soft_lower_limit),
     ("soft_upper_limit", c.values2str js.soft_upper_limit)] []

/-- The `calibration` element the encoder emits, if it emits one. -/
def calibrationElement (c : Collab D P) (jc : JointCalibration D) : Option XMLElement :=
  if jc.falling.isSome ∨ jc.rising.isSome then
    some (XMLElement.mk "calibration"
      ((match jc.falling with
        | some f => [("falling", c.values2str f)]
        | none => []) ++
       (match jc.rising with
        | some r => [("rising", c.values2str r)]
        | none => [])) [])
  else none

/-- The `mimic` element the encoder emits, if it emits one. -/
def mimicElement (c : Collab D P) (jm : JointMimic D) : Option XMLElement :=
  if jm.joint_name ≠ "" then
    some (XMLElement.mk "mimic"
      [("offset", c.values2str jm.offset), ("multiplier", c.values2str jm.multiplier),
       ("joint", jm.joint_name)] [])
  else none

/-- The children `exportJoint.rest` appends, in order. -/
def emittedChildren (c : Collab D P) (joint : Joint D P) : List XMLElement :=
  [axisElement c joint.axis, linkElement "parent" joint.parent_link_name,
   linkElement "child" joint.child_link_name] ++
  (joint.dynamics.map (dynamicsElement c)).toList ++
  (joint.limits.map (limitElement c)).toList ++
  (joint.safety.map (safetyElement c)).toList ++
  (joint.calibration.bind (calibrationElement c)).toList ++
  (joint.mimic.bind (mimicElement c)).toList

/-- The numbers held by the sub-structures of a joint that are set. -/
def Joint.numbers (joint : Joint D P) : List D :=
  (match joint.dynamics with
   | some jd => [jd.damping, jd.friction]
   | none => []) ++
  (match joint.limits with
   | some jl => [jl.effort, jl.velocity, jl.lower, jl.upper]
   | none => []) ++
  (match joint.safety with
   | some js => [js.k_position, js.k_velocity, js.soft_lower_limit, js.soft_upper_limit]
   | none => []) ++
  (match joint.calibration with
   | some jc => jc.falling.toList ++ jc.rising.toList
   | none => []) ++
  (match joint.mimic with
   | some jm => [jm.offset, jm.multiplier]
   | none => [])

/-- Closed form of what `parseJoint` returns, by the first block that returns
`false`: the fields written by the blocks before it hold the values read from
the element, the others are as `joint.clear()` left them. -/
def parseJointOutcome (c : Collab D P) (joint : Joint D P) (e : XMLElement) :
    Bool × Joint D P :=
  let s0 := Joint.clear c joint
  match e.Attribute "name" with
  | none => (false, s0)
  | some n =>
    let s1 := { s0 with name := n }
    if originOk c e = false then (false, s1)
    else
      let s4 := { s1 with parent_to_joint_origin_transform := originOf c e
                          parent_link_name := linkOf e "parent"
                          child_link_name := linkOf e "child" }
      match typeOfAttr e with
      | none => (false, s4)
      | some ty =>
        let s5 := { s4 with type := ty }
        if axisOk c ty e = false then (false, s5)
        else
          let s6 := { s5 with axis := axisOf c ty e }
          if limitOk c ty e = false then (false, s6)
          else
            let s7 := { s6 with limits := limitsOf c e }
            if safetyOk c e = false then (false, s7)
            else
              let s8 := { s7 with safety := safetyOf c e }
              if calibrationOk c e = false then (false, s8)
              else
                let s9 := { s8 with calibration := calibrationOf c e }
                if mimicOk c e = false then (false, s9)
                else
                  let s10 := { s9 with mimic := mimicOf c e }
                  if dynamicsOk c e = false then (false, s10)
                  else (true, { s10 with dynamics := dynamicsOf c e })

/-- The nine child tags `parseJoint` looks for. -/
def recognisedTags : List String :=
  ["origin", "parent", "child", "axis", "limit", "safety_controller", "calibration", "mimic",
   "dynamics"]

end Conditions

/-! ## Concrete elements -/

namespace Examples

/-- The element `<limit lower="0" upper="1" effort="10" velocity="2"/>`. -/
def limit0_1_10_2 : XMLElement :=
  XMLElement.mk "limit" [("lower", "0"), ("upper", "1"), ("effort", "10"), ("velocity", "2")] []

/-- The element
`<joint name="j1" type="revolute"><limit lower="0" upper="1" effort="10" velocity="2"/></joint>`. -/
def revoluteWithLimit : XMLElement :=
  XMLElement.mk "joint" [("name", "j1"), ("type", "revolute")] [limit0_1_10_2]

/-- The element `<joint name="j1" type="revolute"/>`. -/
def revoluteNoLimit : XMLElement :=
  XMLElement.mk "joint" [("name", "j1"), ("type", "revolute")] []

/-- The element `<joint name="j1" type="continuous"/>`. -/
def continuousBare : XMLElement :=
  XMLElement.mk "joint" [("name", "j1"), ("type", "continuous")] []

/-- The element `<joint name="j1" type="Fixed"/>` (capital F). -/
def capitalFixed : XMLElement :=
  XMLElement.mk "joint" [("name", "j1"), ("type", "Fixed")] []

/-- The element `<joint name="j1"/>`. -/
def noType : XMLElement :=
  XMLElement.mk "joint" [("name", "j1")] []

/-- The element `<dynamics/>`. -/
def dynamicsEmpty : XMLElement :=
  XMLElement.mk "dynamics" [] []

/-- The element `<dynamics damping="3"/>`. -/
def dynamicsDamping3 : XMLElement :=
  XMLElement.mk "dynamics" [("damping", "3")] []

/-- The element `<dynamics damping="3" friction="x"/>`. -/
def dynamicsBadFriction : XMLElement :=
  XMLElement.mk "dynamics" [("damping", "3"), ("friction", "x")] []

/-- The element `<limit lower="0" upper="1" velocity="2"/>`, without `effort`. -/
def limitNoEffort : XMLElement :=
  XMLElement.mk "limit" [("lower", "0"), ("upper", "1"), ("velocity", "2")] []

/-- The element `<limit effort="10" velocity="2"/>`. -/
def limitEffortVelocity : XMLElement :=
  XMLElement.mk "limit" [("effort", "10"), ("velocity", "2")] []

/-- The element `<joint name="j1" type="fixed"><limit lower="0" upper="1" velocity="2"/></joint>`. -/
def fixedLimitNoEffort : XMLElement :=
  XMLElement.mk "joint" [("name", "j1"), ("type", "fixed")] [limitNoEffort]

/-- The element `<calibration rising="5"/>`. -/
def calibrationRising5 : XMLElement :=
  XMLElement.mk "calibration" [("rising", "5")] []

/-- The element `<robot/>`, a parent to export under. -/
def robot : XMLElement :=
  XMLElement.mk "robot" [] []

/-- The element `<mimic joint="j0"/>`. -/
def mimicJ0 : XMLElement :=
  XMLElement.mk "mimic" [("joint", "j0")] []

/-- The element `<mimic multiplier="2"/>`, without `joint`. -/
def mimicNoJoint : XMLElement :=
  XMLElement.mk "mimic" [("multiplier", "2")] []

/-- The element `<joint name="j1" type="fixed"/>`. -/
def fixedBare : XMLElement :=
  XMLElement.mk "joint" [("name", "j1"), ("type", "fixed")] []

/-- The element `<joint name="j1" type="fixed"><axis xyz="up"/></joint>`, whose
`xyz` text is not a vector. -/
def fixedBadAxis : XMLElement :=
  XMLElement.mk "joint" [("name", "j1"), ("type", "fixed")]
    [XMLElement.mk "axis" [("xyz", "up")] []]

/-- The element `<joint name="j1" type="continuous"><axis/></joint>`: an `axis`
child without `xyz`. -/
def continuousAxisNoXyz : XMLElement :=
  XMLElement.mk "joint" [("name", "j1"), ("type", "continuous")]
    [XMLElement.mk "axis" [] []]

/-- The element `<joint name="j1" type="continuous"><axis xyz="0 0 1"/></joint>`. -/
def continuousAxisZ : XMLElement :=
  XMLElement.mk "joint" [("name", "j1"), ("type", "continuous")]
    [XMLElement.mk "axis" [("xyz", "0 0 1")] []]

/-- The element `<joint name="j1" type="fixed"><origin xyz="1 2 3"/></joint>`. -/
def fixedWithOrigin : XMLElement :=
  XMLElement.mk "joint" [("name", "j1"), ("type", "fixed")]
    [XMLElement.mk "origin" [("xyz", "1 2 3")] []]

/-- The element
`<joint name="j1" type="fixed"><calibration/><mimic joint=""/></joint>`. -/
def fixedEmptyCalibrationMimic : XMLElement :=
  XMLElement.mk "joint" [("name", "j1"), ("type", "fixed")]
    [XMLElement.mk "calibration" [] [], XMLElement.mk "mimic" [("joint", "")] []]

/-- The element
`<joint name="j1" type="revolute"><parent link="a"/><child link="b"/>
<limit lower="0" upper="1" effort="10" velocity="2"/><dynamics damping="3"/>
<calibration rising="5"/><mimic joint="j0"/></joint>`. -/
def revoluteFull : XMLElement :=
  XMLElement.mk "joint" [("name", "j1"), ("type", "revolute")]
    [XMLElement.mk "parent" [("link", "a")] [], XMLElement.mk "child" [("link", "b")] [],
     limit0_1_10_2, dynamicsDamping3, calibrationRising5, mimicJ0]

/-- The joint that decoding `fixedWithOrigin` leaves. -/
def jointFixedWithOrigin : Joint Nat Concrete.Pose :=
  (parseJoint Concrete.collab Concrete.joint0 fixedWithOrigin).2

/-- The joint that decoding `fixedEmptyCalibrationMimic` leaves. -/
def jointEmptyCalibrationMimic : Joint Nat Concrete.Pose :=
  (parseJoint Concrete.collab Concrete.joint0 fixedEmptyCalibrationMimic).2

/-- The joint that decoding `revoluteFull` leaves. -/
def jointRevoluteFull : Joint Nat Concrete.Pose :=
  (parseJoint Concrete.collab Concrete.joint0 revoluteFull).2

/-- The element `<safety_controller k_velocity="2"/>`. -/
def safetyKv2 : XMLElement :=
  XMLElement.mk "safety_controller" [("k_velocity", "2")] []

/-- The element `<safety_controller k_position="1"/>`, without `k_velocity`. -/
def safetyNoKv : XMLElement :=
  XMLElement.mk "safety_controller" [("k_position", "1")] []

/-- The element
`<joint name="j1" type="fixed"><parent/><child link="b"/></joint>`: a `parent`
child without `link`. -/
def fixedParentNoLink : XMLElement :=
  XMLElement.mk "joint" [("name", "j1"), ("type", "fixed")]
    [XMLElement.mk "parent" [] [], XMLElement.mk "child" [("link", "b")] []]

/-- The element `<joint name="j1" type="fixed"><origin xyz="up"/></joint>`, whose
origin the pose parser rejects. -/
def fixedBadOrigin : XMLElement :=
  XMLElement.mk "joint" [("name", "j1"), ("type", "fixed")]
    [XMLElement.mk "origin" [("xyz", "up")] []]

/-- The element `<joint name="j1" type="fixed"><dynamics/></joint>`, whose
dynamics child has neither attribute. -/
def fixedEmptyDynamics : XMLElement :=
  XMLElement.mk "joint" [("name", "j1"), ("type", "fixed")] [dynamicsEmpty]

/-- The element
`<joint name="j1"><parent link="a"/><child link="b"/></joint>`, without `type`. -/
def linksNoType : XMLElement :=
  XMLElement.mk "joint" [("name", "j1")]
    [XMLElement.mk "parent" [("link", "a")] [], XMLElement.mk "child" [("link", "b")] []]

/-- The element
`<joint name="j1" type="revolute"><parent link="a"/><child link="b"/></joint>`,
without `limit`. -/
def revoluteLinksNoLimit : XMLElement :=
  XMLElement.mk "joint" [("name", "j1"), ("type", "revolute")]
    [XMLElement.mk "parent" [("link", "a")] [], XMLElement.mk "child" [("link", "b")] []]

/-- The element
`<joint name="j1" type="continuous"><origin xyz="up"/><limit lower="0" upper="1" velocity="2"/>
<dynamics/></joint>`: every sub-element is rejected by its decoder. -/
def continuousAllBad : XMLElement :=
  XMLElement.mk "joint" [("name", "j1"), ("type", "continuous")]
    [XMLElement.mk "origin" [("xyz", "up")] [], limitNoEffort, dynamicsEmpty]

/-- The element
`<joint name="j1" type="continuous"><axis xyz="up"/><limit effort="10" velocity="2"/></joint>`:
the `xyz` text is not a vector. -/
def continuousBadAxis : XMLElement :=
  XMLElement.mk "joint" [("name", "j1"), ("type", "continuous")]
    [XMLElement.mk "axis" [("xyz", "up")] [], limitEffortVelocity]

/-- The element
`<joint name="j1" type="fixed"><limit effort="10" velocity="2"/><dynamics/></joint>`:
the limit decodes, the dynamics child is rejected. -/
def fixedLimitBadDynamics : XMLElement :=
  XMLElement.mk "joint" [("name", "j1"), ("type", "fixed")] [limitEffortVelocity, dynamicsEmpty]

/-- The element `<joint name="j1" type="revolute"><limit lower="0" upper="1" velocity="2"/>
<limit lower="0" upper="1" effort="10" velocity="2"/></joint>`: a well-formed second
`limit` after a first one that lacks `effort`. -/
def revoluteBadLimitThenGood : XMLElement :=
  XMLElement.mk "joint" [("name", "j1"), ("type", "revolute")] [limitNoEffort, limit0_1_10_2]

/-- The element
`<joint name="j1" type="revolute"><limit lower="0" upper="1" velocity="2"/></joint>`. -/
def revoluteBadLimit : XMLElement :=
  XMLElement.mk "joint" [("name", "j1"), ("type", "revolute")] [limitNoEffort]

/-- The element `revoluteWithLimit` with an unrecognised `note` child in front
and an unread `id` attribute between `name` and `type`. -/
def revoluteWithExtras : XMLElement :=
  XMLElement.mk "joint" [("name", "j1"), ("id", "7"), ("type", "revolute")]
    [XMLElement.mk "note" [] [], limit0_1_10_2]

/-- A fixed joint whose calibration is present with neither `rising` nor
`falling` set. -/
def jointEmptyCalibration : Joint Nat Concrete.Pose :=
  { Concrete.joint0 with
    name := "j1"
    type := JointType.FIXED
    calibration := some (JointCalibration.mk none none) }

/-- The `origin` element the concrete pose encoder appends. -/
def originElement (pose : Concrete.Pose) : XMLElement :=
  XMLElement.mk "origin"
    [("xyz", Concrete.vec2str pose.1), ("rpy", Concrete.vec2str pose.2)] []

/-- The element
`<joint name="j1" type="fixed"><parent link="a"/><child link="b"/><dynamics/></joint>`:
the decode fails at the last block, on the `dynamics` child. -/
def fixedLinksBadDynamics : XMLElement :=
  XMLElement.mk "joint" [("name", "j1"), ("type", "fixed")]
    [XMLElement.mk "parent" [("link", "a")] [], XMLElement.mk "child" [("link", "b")] [],
     dynamicsEmpty]

/-- The element
`<joint name="j1" type="continuous"><parent link="a"/><child link="b"/><axis xyz="up"/></joint>`:
the decode fails at the axis block. -/
def continuousLinksBadAxis : XMLElement :=
  XMLElement.mk "joint" [("name", "j1"), ("type", "continuous")]
    [XMLElement.mk "parent" [("link", "a")] [], XMLElement.mk "child" [("link", "b")] [],
     XMLElement.mk "axis" [("xyz", "up")] []]

end Examples

/-! ## Lemmas on the blocks of `parseJoint` -/

section BlockLemmas

variable {D P : Type}

theorem andThen_eq_true_iff {σ : Type} (r : Bool × σ) (f : σ → Bool × σ) (s : σ) :
    andThen r f = (true, s) ↔ ∃ s1, r = (true, s1) ∧ f s1 = (true, s) := by
  obtain ⟨b, t⟩ := r
  cases b <;> simp [andThen]

theorem getName_eq_true_iff (j j' : Joint D P) (e : XMLElement) :
    parseJoint.getName j e = (true, j') ↔
      ∃ n, e.Attribute "name" = some n ∧ j' = { j with name := n } := by
  unfold parseJoint.getName
  cases e.Attribute "name" <;> simp [eq_comm]

theorem getOrigin_eq_true_iff (c : Collab D P) (j j' : Joint D P) (e : XMLElement)
    (hj : j.parent_to_joint_origin_transform = c.poseClear) :
    parseJoint.getOrigin c j e = (true, j') ↔
      originOk c e = true ∧
        j' = { j with parent_to_joint_origin_transform := originOf c e } := by
  unfold parseJoint.getOrigin originOk originOf
  cases e.FirstChildElement "origin" with
  | none => simp [eq_comm]
  | some o =>
    simp only [hj]
    cases h : (c.parsePoseInternal c.poseClear o).1 <;> simp [h, eq_comm]

theorem getParent_eq_true_iff (j j' : Joint D P) (e : XMLElement)
    (hj : j.parent_link_name = "") :
    parseJoint.getParent j e = (true, j') ↔
      j' = { j with parent_link_name := linkOf e "parent" } := by
  cases j
  simp only at hj
  subst hj
  unfold parseJoint.getParent linkOf
  cases e.FirstChildElement "parent" with
  | none => simp [eq_comm]
  | some x =>
    dsimp only
    cases x.Attribute "link" <;> simp [eq_comm]

theorem getChild_eq_true_iff (j j' : Joint D P) (e : XMLElement)
    (hj : j.child_link_name = "") :
    parseJoint.getChild j e = (true, j') ↔
      j' = { j with child_link_name := linkOf e "child" } := by
  cases j
  simp only at hj
  subst hj
  unfold parseJoint.getChild linkOf
  cases e.FirstChildElement "child" with
  | none => simp [eq_comm]
  | some x =>
    dsimp only
    cases x.Attribute "link" <;> simp [eq_comm]

theorem getType_eq_true_iff (j j' : Joint D P) (e : XMLElement) :
    parseJoint.getType j e = (true, j') ↔
      ∃ ty, typeOfAttr e = some ty ∧ j' = { j with type := ty } := by
  unfold parseJoint.getType typeOfAttr typeSpellings
  cases e.Attribute "type" with
  | none => simp
  | some s =>
    simp only [List.lookup_cons, List.lookup_nil]
    by_cases h1 : s = "planar"
    · subst h1; simp [eq_comm]
    by_cases h2 : s = "floating"
    · subst h2; simp [eq_comm]
    by_cases h3 : s = "revolute"
    · subst h3; simp [eq_comm]
    by_cases h4 : s = "continuous"
    · subst h4; simp [eq_comm]
    by_cases h5 : s = "prismatic"
    · subst h5; simp [eq_comm]
    by_cases h6 : s = "fixed"
    · subst h6; simp [eq_comm]
    have b1 : (s == "planar") = false := by simpa using h1
    have b2 : (s == "floating") = false := by simpa using h2
    have b3 : (s == "revolute") = false := by simpa using h3
    have b4 : (s == "continuous") = false := by simpa using h4
    have b5 : (s == "prismatic") = false := by simpa using h5
    have b6 : (s == "fixed") = false := by simpa using h6
    simp [h1, h2, h3, h4, h5, h6, b1, b2, b3, b4, b5, b6]

theorem getAxis_eq_true_iff (c : Collab D P) (j j' : Joint D P) (e : XMLElement)
    (hj : j.axis = c.vecClear) :
    parseJoint.getAxis c j e = (true, j') ↔
      axisOk c j.type e = true ∧ j' = { j with axis := axisOf c j.type e } := by
  cases j
  simp only at hj
  subst hj
  unfold parseJoint.getAxis axisOk axisOf
  dsimp only
  rename_i ty _ _ _ _ _ _ _ _
  by_cases ht : ty = JointType.FLOATING ∨ ty = JointType.FIXED
  · have ht2 : ¬ (ty ≠ JointType.FLOATING ∧ ty ≠ JointType.FIXED) := by tauto
    simp [ht, ht2, eq_comm]
  · have ht2 : ty ≠ JointType.FLOATING ∧ ty ≠ JointType.FIXED := by tauto
    rw [if_pos ht2, if_neg ht, if_neg ht]
    cases e.FirstChildElement "axis" with
    | none => simp [eq_comm]
    | some a =>
      dsimp only
      cases a.Attribute "xyz" with
      | none => simp [eq_comm]
      | some t =>
        dsimp only
        cases c.vecInit t <;> simp [eq_comm]

theorem getLimit_eq_true_iff (c : Collab D P) (j j' : Joint D P) (e : XMLElement)
    (hj : j.limits = none) :
    parseJoint.getLimit c j e = (true, j') ↔
      limitOk c j.type e = true ∧ j' = { j with limits := limitsOf c e } := by
  cases j
  simp only at hj
  subst hj
  unfold parseJoint.getLimit limitOk limitsOf
  dsimp only
  rename_i ty _ _ _ _ _ _ _ _
  cases e.FirstChildElement "limit" with
  | none =>
    by_cases h1 : ty = JointType.REVOLUTE
    · simp [h1]
    · by_cases h2 : ty = JointType.PRISMATIC
      · simp [h2]
      · simp [h1, h2, eq_comm]
  | some l => cases h : (parseJointLimits c c.limitsClear l).1 <;> simp [h, eq_comm]

theorem getSafety_eq_true_iff (c : Collab D P) (j j' : Joint D P) (e : XMLElement)
    (hj : j.safety = none) :
    parseJoint.getSafety c j e = (true, j') ↔
      safetyOk c e = true ∧ j' = { j with safety := safetyOf c e } := by
  cases j
  simp only at hj
  subst hj
  unfold parseJoint.getSafety safetyOk safetyOf
  cases e.FirstChildElement "safety_controller" with
  | none => simp [eq_comm]
  | some l => cases h : (parseJointSafety c c.safetyClear l).1 <;> simp [h, eq_comm]

theorem getCalibration_eq_true_iff (c : Collab D P) (j j' : Joint D P) (e : XMLElement)
    (hj : j.calibration = none) :
    parseJoint.getCalibration c j e = (true, j') ↔
      calibrationOk c e = true ∧ j' = { j with calibration := calibrationOf c e } := by
  cases j
  simp only at hj
  subst hj
  unfold parseJoint.getCalibration calibrationOk calibrationOf
  cases e.FirstChildElement "calibration" with
  | none => simp [eq_comm]
  | some l => cases h : (parseJointCalibration c c.calibrationClear l).1 <;> simp [h, eq_comm]

theorem getMimic_eq_true_iff (c : Collab D P) (j j' : Joint D P) (e : XMLElement)
    (hj : j.mimic = none) :
    parseJoint.getMimic c j e = (true, j') ↔
      mimicOk c e = true ∧ j' = { j with mimic := mimicOf c e } := by
  cases j
  simp only at hj
  subst hj
  unfold parseJoint.getMimic mimicOk mimicOf
  cases e.FirstChildElement "mimic" with
  | none => simp [eq_comm]
  | some l => cases h : (parseJointMimic c c.mimicClear l).1 <;> simp [h, eq_comm]

theorem getDynamics_eq_true_iff (c : Collab D P) (j j' : Joint D P) (e : XMLElement)
    (hj : j.dynamics = none) :
    parseJoint.getDynamics c j e = (true, j') ↔
      dynamicsOk c e = true ∧ j' = { j with dynamics := dynamicsOf c e } := by
  cases j
  simp only at hj
  subst hj
  unfold parseJoint.getDynamics dynamicsOk dynamicsOf
  cases e.FirstChildElement "dynamics" with
  | none => simp [eq_comm]
  | some l => cases h : (parseJointDynamics c c.dynamicsClear l).1 <;> simp [h, eq_comm]

/-- Characterisation of a successful `parseJoint`: the `name` attribute is
present, the `type` attribute resolves, every other block passes, and the joint
on return is `decoded`. -/
theorem parseJoint_eq_true_iff (c : Collab D P) (j j' : Joint D P) (e : XMLElement) :
    parseJoint c j e = (true, j') ↔
      ∃ n ty, e.Attribute "name" = some n ∧ typeOfAttr e = some ty ∧
        otherwiseValid c ty e = true ∧ j' = decoded c e n ty := by
  unfold parseJoint
  simp only [andThen_eq_true_iff]
  constructor
  · rintro ⟨s10, ⟨s9, ⟨s8, ⟨s7, ⟨s6, ⟨s5, ⟨s4, ⟨s3, ⟨s2, ⟨s1, h1, h2⟩, h3⟩, h4⟩, h5⟩, h6⟩,
      h7⟩, h8⟩, h9⟩, h10⟩, h11⟩
    obtain ⟨n, hn, rfl⟩ := (getName_eq_true_iff _ _ _).1 h1
    obtain ⟨ho, rfl⟩ := (getOrigin_eq_true_iff c _ _ _ rfl).1 h2
    have hp := (getParent_eq_true_iff _ _ _ rfl).1 h3
    subst hp
    have hc := (getChild_eq_true_iff _ _ _ rfl).1 h4
    subst hc
    obtain ⟨ty, hty, rfl⟩ := (getType_eq_true_iff _ _ _).1 h5
    obtain ⟨ha, rfl⟩ := (getAxis_eq_true_iff c _ _ _ rfl).1 h6
    obtain ⟨hl, rfl⟩ := (getLimit_eq_true_iff c _ _ _ rfl).1 h7
    obtain ⟨hs, rfl⟩ := (getSafety_eq_true_iff c _ _ _ rfl).1 h8
    obtain ⟨hk, rfl⟩ := (getCalibration_eq_true_iff c _ _ _ rfl).1 h9
    obtain ⟨hm, rfl⟩ := (getMimic_eq_true_iff c _ _ _ rfl).1 h10
    obtain ⟨hd, rfl⟩ := (getDynamics_eq_true_iff c _ _ _ rfl).1 h11
    refine ⟨n, ty, hn, hty, ?_, rfl⟩
    simp only [Joint.clear] at ha hl
    simp [otherwiseValid, ho, ha, hl, hs, hk, hm, hd]
  · rintro ⟨n, ty, hn, hty, hv, rfl⟩
    simp only [otherwiseValid, Bool.and_eq_true] at hv
    obtain ⟨⟨⟨⟨⟨⟨ho, ha⟩, hl⟩, hs⟩, hk⟩, hm⟩, hd⟩ := hv
    refine ⟨_, ⟨_, ⟨_, ⟨_, ⟨_, ⟨_, ⟨_, ⟨_, ⟨_, ⟨_,
      (getName_eq_true_iff _ _ _).2 ⟨n, hn, rfl⟩,
      (getOrigin_eq_true_iff c _ _ _ rfl).2 ⟨ho, rfl⟩⟩,
      (getParent_eq_true_iff _ _ _ rfl).2 rfl⟩,
      (getChild_eq_true_iff _ _ _ rfl).2 rfl⟩,
      (getType_eq_true_iff _ _ _).2 ⟨ty, hty, rfl⟩⟩,
      (getAxis_eq_true_iff c _ _ _ rfl).2 ⟨ha, rfl⟩⟩,
      (getLimit_eq_true_iff c _ _ _ rfl).2 ⟨hl, rfl⟩⟩,
      (getSafety_eq_true_iff c _ _ _ rfl).2 ⟨hs, rfl⟩⟩,
      (getCalibration_eq_true_iff c _ _ _ rfl).2 ⟨hk, rfl⟩⟩,
      (getMimic_eq_true_iff c _ _ _ rfl).2 ⟨hm, rfl⟩⟩,
      (getDynamics_eq_true_iff c _ _ _ rfl).2 ⟨hd, rfl⟩⟩

/-- The flag of `parseJoint` alone. -/
theorem parseJoint_fst_eq_true_iff (c : Collab D P) (j : Joint D P) (e : XMLElement) :
    (parseJoint c j e).1 = true ↔
      ∃ n ty, e.Attribute "name" = some n ∧ typeOfAttr e = some ty ∧
        otherwiseValid c ty e = true := by
  constructor
  · intro h
    have h2 : parseJoint c j e = (true, (parseJoint c j e).2) := by
      rw [← h]
    obtain ⟨n, ty, hn, hty, hv, _⟩ := (parseJoint_eq_true_iff c j _ e).1 h2
    exact ⟨n, ty, hn, hty, hv⟩
  · rintro ⟨n, ty, hn, hty, hv⟩
    rw [(parseJoint_eq_true_iff c j _ e).2 ⟨n, ty, hn, hty, hv, rfl⟩]

end BlockLemmas

/-! ## Joint type resolution and the limits requirement -/

section TypeAndLimits

variable {D P : Type}

theorem lookup_typeSpellings_eq_some_iff (s : String) (ty : JointType) :
    typeSpellings.lookup s = some ty ↔ (s, ty) ∈ typeSpellings := by
  unfold typeSpellings
  simp only [List.lookup_cons, List.lookup_nil, List.mem_cons, Prod.mk.injEq,
    List.mem_singleton]
  by_cases h1 : s = "planar"
  · subst h1; simp [eq_comm]
  by_cases h2 : s = "floating"
  · subst h2; simp [eq_comm]
  by_cases h3 : s = "revolute"
  · subst h3; simp [eq_comm]
  by_cases h4 : s = "continuous"
  · subst h4; simp [eq_comm]
  by_cases h5 : s = "prismatic"
  · subst h5; simp [eq_comm]
  by_cases h6 : s = "fixed"
  · subst h6; simp [eq_comm]
  have b1 : (s == "planar") = false := by simpa using h1
  have b2 : (s == "floating") = false := by simpa using h2
  have b3 : (s == "revolute") = false := by simpa using h3
  have b4 : (s == "continuous") = false := by simpa using h4
  have b5 : (s == "prismatic") = false := by simpa using h5
  have b6 : (s == "fixed") = false := by simpa using h6
  simp [h1, h2, h3, h4, h5, h6, b1, b2, b3, b4, b5, b6]

theorem typeOfAttr_eq_some_iff (e : XMLElement) (ty : JointType) :
    typeOfAttr e = some ty ↔ ∃ s, e.Attribute "type" = some s ∧ (s, ty) ∈ typeSpellings := by
  unfold typeOfAttr
  cases e.Attribute "type" with
  | none => simp
  | some s => simp [lookup_typeSpellings_eq_some_iff]

theorem typeOfAttr_eq_none_of_absent (e : XMLElement) (h : e.Attribute "type" = none) :
    typeOfAttr e = none := by
  simp [typeOfAttr, h]

theorem typeOfAttr_eq_none_of_other (e : XMLElement) (s : String)
    (h : e.Attribute "type" = some s) (hs : s ∉ typeSpellings.map Prod.fst) :
    typeOfAttr e = none := by
  cases hty : typeOfAttr e with
  | none => rfl
  | some ty =>
    obtain ⟨s2, h2, hmem⟩ := (typeOfAttr_eq_some_iff e ty).1 hty
    rw [h] at h2
    cases h2
    exact absurd (List.mem_map_of_mem Prod.fst hmem) hs

theorem parseJoint_fst_eq_false_of_type (c : Collab D P) (j : Joint D P) (e : XMLElement)
    (h : typeOfAttr e = none) : (parseJoint c j e).1 = false := by
  cases hb : (parseJoint c j e).1 with
  | false => rfl
  | true =>
    obtain ⟨n, ty, _, hty, _⟩ := (parseJoint_fst_eq_true_iff c j e).1 hb
    rw [h] at hty
    cases hty

/-- C1: joint type resolution.  For every element with a `name` attribute that
is valid apart from its type (`otherwiseValid`: origin, axis, limit where the
type needs one, and the other children decode), `parseJoint` succeeds and sets
the type to the matching enum value when the `type` attribute is one of the six
spellings; it fails for every other text and when the attribute is absent. -/
theorem C1_type_resolution (c : Collab D P) (j : Joint D P) (e : XMLElement) :
    (∀ n s ty, e.Attribute "name" = some n → e.Attribute "type" = some s →
        (s, ty) ∈ typeSpellings → otherwiseValid c ty e = true →
        (parseJoint c j e).1 = true ∧ (parseJoint c j e).2.type = ty) ∧
    (∀ s, e.Attribute "type" = some s → s ∉ typeSpellings.map Prod.fst →
        (parseJoint c j e).1 = false) ∧
    (e.Attribute "type" = none → (parseJoint c j e).1 = false) := by
  refine ⟨?_, ?_, ?_⟩
  · intro n s ty hn hs hmem hv
    have hty : typeOfAttr e = some ty := (typeOfAttr_eq_some_iff e ty).2 ⟨s, hs, hmem⟩
    have h := (parseJoint_eq_true_iff c j (decoded c e n ty) e).2 ⟨n, ty, hn, hty, hv, rfl⟩
    rw [h]
    exact ⟨rfl, rfl⟩
  · intro s hs hnot
    exact parseJoint_fst_eq_false_of_type c j e (typeOfAttr_eq_none_of_other e s hs hnot)
  · intro h
    exact parseJoint_fst_eq_false_of_type c j e (typeOfAttr_eq_none_of_absent e h)

/-- Witness for C1 on `<joint name="j1" type="revolute"><limit .../></joint>`,
`<joint name="j1" type="Fixed"/>` and `<joint name="j1"/>`. -/
theorem C1_type_resolution_witness :
    ((parseJoint Concrete.collab Concrete.joint0 Examples.revoluteWithLimit).1 = true ∧
      (parseJoint Concrete.collab Concrete.joint0 Examples.revoluteWithLimit).2.type
        = JointType.REVOLUTE) ∧
    (parseJoint Concrete.collab Concrete.joint0 Examples.capitalFixed).1 = false ∧
    (parseJoint Concrete.collab Concrete.joint0 Examples.noType).1 = false :=
  ⟨(C1_type_resolution Concrete.collab Concrete.joint0 Examples.revoluteWithLimit).1
      "j1" "revolute" JointType.REVOLUTE (by decide) (by decide) (by decide) (by decide),
    (C1_type_resolution Concrete.collab Concrete.joint0 Examples.capitalFixed).2.1
      "Fixed" (by decide) (by decide),
    (C1_type_resolution Concrete.collab Concrete.joint0 Examples.noType).2.2 (by decide)⟩

theorem otherwiseValid_of_parts (c : Collab D P) (ty : JointType) (e : XMLElement)
    (ho : originOk c e = true) (ha : axisOk c ty e = true) (hl : limitOk c ty e = true)
    (hs : safetyOk c e = true) (hk : calibrationOk c e = true) (hm : mimicOk c e = true)
    (hd : dynamicsOk c e = true) : otherwiseValid c ty e = true := by
  simp [otherwiseValid, ho, ha, hl, hs, hk, hm, hd]

/-- C2: the limits requirement.  With no `limit` child, `parseJoint` fails for
revolute and prismatic; for continuous, planar, fixed and floating an element
whose other blocks pass decodes with limits unset.  The element
`<joint name="j1" type="revolute"><limit lower="0" upper="1" effort="10" velocity="2"/></joint>`
decodes to name `j1`, type REVOLUTE, axis (1,0,0) and limits built from the four
parsed numbers, and the same element without `<limit>` fails. -/
theorem C2_limits_requirement (c : Collab D P) (j : Joint D P) :
    (∀ e s, e.FirstChildElement "limit" = none → e.Attribute "type" = some s →
        s = "revolute" ∨ s = "prismatic" → (parseJoint c j e).1 = false) ∧
    (∀ e n s ty, e.FirstChildElement "limit" = none → e.Attribute "name" = some n →
        e.Attribute "type" = some s →
        (s, ty) ∈ [("continuous", JointType.CONTINUOUS), ("planar", JointType.PLANAR),
                    ("fixed", JointType.FIXED), ("floating", JointType.FLOATING)] →
        originOk c e = true → axisOk c ty e = true → safetyOk c e = true →
        calibrationOk c e = true → mimicOk c e = true → dynamicsOk c e = true →
        (parseJoint c j e).1 = true ∧ (parseJoint c j e).2.type = ty ∧
          (parseJoint c j e).2.limits = none) ∧
    (∀ d0 d1 d10 d2, c.strToDouble "0" = some d0 → c.strToDouble "1" = some d1 →
        c.strToDouble "10" = some d10 → c.strToDouble "2" = some d2 →
        parseJoint c j Examples.revoluteWithLimit =
          (true,
            { name := "j1"
              type := JointType.REVOLUTE
              axis := Vector3.mk c.one c.zero c.zero
              child_link_name := ""
              parent_link_name := ""
              parent_to_joint_origin_transform := c.poseClear
              dynamics := none
              limits := some (JointLimits.mk d0 d1 d10 d2)
              safety := none
              calibration := none
              mimic := none })) ∧
    (parseJoint c j Examples.revoluteNoLimit).1 = false := by
  have hfail : ∀ e s, e.FirstChildElement "limit" = none → e.Attribute "type" = some s →
      s = "revolute" ∨ s = "prismatic" → (parseJoint c j e).1 = false := by
    intro e s hl hs hrp
    cases hb : (parseJoint c j e).1 with
    | false => rfl
    | true =>
      obtain ⟨n, ty, _, hty, hv⟩ := (parseJoint_fst_eq_true_iff c j e).1 hb
      obtain ⟨s2, hs2, hmem⟩ := (typeOfAttr_eq_some_iff e ty).1 hty
      rw [hs] at hs2
      cases hs2
      simp only [otherwiseValid, Bool.and_eq_true] at hv
      obtain ⟨⟨⟨⟨⟨⟨_, _⟩, hlim⟩, _⟩, _⟩, _⟩, _⟩ := hv
      rcases hrp with rfl | rfl <;>
        simp [typeSpellings] at hmem <;> subst hmem <;> simp [limitOk, hl] at hlim
  refine ⟨hfail, ?_, ?_, ?_⟩
  · intro e n s ty hl hn hs hmem ho ha hsf hk hm hd
    have hmem2 : (s, ty) ∈ typeSpellings := by
      simp only [List.mem_cons, Prod.mk.injEq, List.mem_singleton, List.mem_nil_iff,
        or_false] at hmem
      rcases hmem with ⟨rfl, rfl⟩ | ⟨rfl, rfl⟩ | ⟨rfl, rfl⟩ | ⟨rfl, rfl⟩ <;>
        simp [typeSpellings]
    have hlim : limitOk c ty e = true := by
      simp only [List.mem_cons, Prod.mk.injEq, List.mem_singleton, List.mem_nil_iff,
        or_false] at hmem
      rcases hmem with ⟨rfl, rfl⟩ | ⟨rfl, rfl⟩ | ⟨rfl, rfl⟩ | ⟨rfl, rfl⟩ <;>
        simp [limitOk, hl]
    have hty : typeOfAttr e = some ty := (typeOfAttr_eq_some_iff e ty).2 ⟨s, hs, hmem2⟩
    have h := (parseJoint_eq_true_iff c j (decoded c e n ty) e).2
      ⟨n, ty, hn, hty, otherwiseValid_of_parts c ty e ho ha hlim hsf hk hm hd, rfl⟩
    rw [h]
    exact ⟨rfl, rfl, by simp [decoded, limitsOf, hl]⟩
  · intro d0 d1 d10 d2 h0 h1 h10 h2
    rw [parseJoint_eq_true_iff]
    refine ⟨"j1", JointType.REVOLUTE, by decide, by decide, ?_, ?_⟩
    · simp [otherwiseValid, originOk, axisOk, limitOk, safetyOk, calibrationOk, mimicOk,
        dynamicsOk, Examples.revoluteWithLimit, XMLElement.FirstChildElement,
        XMLElement.children, Examples.limit0_1_10_2, XMLElement.Name, parseJointLimits,
        readOr, readReq, XMLElement.Attribute, XMLElement.attrs, h0, h1, h10, h2]
    · simp [decoded, originOf, axisOf, linkOf, dynamicsOf, limitsOf, safetyOf, calibrationOf,
        mimicOf, Examples.revoluteWithLimit, XMLElement.FirstChildElement,
        XMLElement.children, Examples.limit0_1_10_2, XMLElement.Name, parseJointLimits,
        readOr, readReq, XMLElement.Attribute, XMLElement.attrs, h0, h1, h10, h2]
  · exact hfail Examples.revoluteNoLimit "revolute" rfl (by decide) (Or.inl rfl)

/-- Witness for C2 with the concrete collaborators. -/
theorem C2_limits_requirement_witness :
    (parseJoint Concrete.collab Concrete.joint0 Examples.revoluteNoLimit).1 = false ∧
    ((parseJoint Concrete.collab Concrete.joint0 Examples.continuousBare).1 = true ∧
      (parseJoint Concrete.collab Concrete.joint0 Examples.continuousBare).2.type
        = JointType.CONTINUOUS ∧
      (parseJoint Concrete.collab Concrete.joint0 Examples.continuousBare).2.limits = none) ∧
    parseJoint Concrete.collab Concrete.joint0 Examples.revoluteWithLimit =
      (true,
        { name := "j1"
          type := JointType.REVOLUTE
          axis := Vector3.mk 1 0 0
          child_link_name := ""
          parent_link_name := ""
          parent_to_joint_origin_transform := (Vector3.mk 0 0 0, Vector3.mk 0 0 0)
          dynamics := none
          limits := some (JointLimits.mk 0 1 10 2)
          safety := none
          calibration := none
          mimic := none }) :=
  ⟨(C2_limits_requirement Concrete.collab Concrete.joint0).1 Examples.revoluteNoLimit
      "revolute" rfl (by decide) (by decide),
    (C2_limits_requirement Concrete.collab Concrete.joint0).2.1 Examples.continuousBare
      "j1" "continuous" JointType.CONTINUOUS rfl (by decide) (by decide) (by decide)
      (by decide) (by decide) (by decide) (by decide) (by decide) (by decide),
    (C2_limits_requirement Concrete.collab Concrete.joint0).2.2.1 0 1 10 2
      (by decide) (by decide) (by decide) (by decide)⟩

end TypeAndLimits

/-! ## The sub-structure codecs -/

section SubCodecs

variable {D P : Type}

/-- C7: `parseJointDynamics` succeeds exactly when at least one of `damping` and
`friction` is present and every present one parses; on success an absent
attribute yields 0 and a present one its parsed value.  An element with neither
attribute fails; one with only a parseable `damping` succeeds with friction 0. -/
theorem C7_dynamics_decode (c : Collab D P) (jd : JointDynamics D) (e : XMLElement) :
    ((parseJointDynamics c jd e).1 = true ↔
      (e.Attribute "damping" ≠ none ∨ e.Attribute "friction" ≠ none) ∧
      (∀ s, e.Attribute "damping" = some s → c.strToDouble s ≠ none) ∧
      (∀ s, e.Attribute "friction" = some s → c.strToDouble s ≠ none)) ∧
    ((parseJointDynamics c jd e).1 = true →
      (e.Attribute "damping" = none → (parseJointDynamics c jd e).2.damping = c.zero) ∧
      (∀ s, e.Attribute "damping" = some s →
        c.strToDouble s = some (parseJointDynamics c jd e).2.damping) ∧
      (e.Attribute "friction" = none → (parseJointDynamics c jd e).2.friction = c.zero) ∧
      (∀ s, e.Attribute "friction" = some s →
        c.strToDouble s = some (parseJointDynamics c jd e).2.friction)) ∧
    (e.Attribute "damping" = none → e.Attribute "friction" = none →
      (parseJointDynamics c jd e).1 = false) ∧
    (∀ s d, e.Attribute "damping" = some s → c.strToDouble s = some d →
      e.Attribute "friction" = none →
      parseJointDynamics c jd e = (true, JointDynamics.mk d c.zero)) := by
  unfold parseJointDynamics readOr
  cases hd : e.Attribute "damping" with
  | none =>
    cases hf : e.Attribute "friction" with
    | none => simp
    | some sf => cases hpf : c.strToDouble sf <;> simp [hpf]
  | some sd =>
    cases hpd : c.strToDouble sd with
    | none =>
      simp [hpd]
      intro s d hs
      subst hs
      simp [hpd]
    | some d =>
      cases hf : e.Attribute "friction" with
      | none =>
        simp [hpd]
        intro s d2 hs
        subst hs
        simp [hpd]
      | some sf => cases hpf : c.strToDouble sf <;> simp [hpd, hpf]

/-- Witness for C7 on `<dynamics/>`, `<dynamics damping="3"/>` and
`<dynamics damping="3" friction="x"/>`. -/
theorem C7_dynamics_decode_witness :
    (parseJointDynamics Concrete.collab Concrete.collab.dynamicsClear
        Examples.dynamicsEmpty).1 = false ∧
    parseJointDynamics Concrete.collab Concrete.collab.dynamicsClear
        Examples.dynamicsDamping3 = (true, JointDynamics.mk 3 0) ∧
    ¬ (parseJointDynamics Concrete.collab Concrete.collab.dynamicsClear
        Examples.dynamicsBadFriction).1 = true :=
  ⟨(C7_dynamics_decode Concrete.collab Concrete.collab.dynamicsClear
      Examples.dynamicsEmpty).2.2.1 (by decide) (by decide),
    (C7_dynamics_decode Concrete.collab Concrete.collab.dynamicsClear
      Examples.dynamicsDamping3).2.2.2 "3" 3 (by decide) (by decide) (by decide),
    fun h => ((C7_dynamics_decode Concrete.collab Concrete.collab.dynamicsClear
      Examples.dynamicsBadFriction).1.1 h).2.2 "x" (by decide) (by decide)⟩

theorem readOr_eq_some_iff (c : Collab D P) (e : XMLElement) (a : String) (dflt v : D) :
    readOr c e a dflt = some v ↔
      (e.Attribute a = none ∧ v = dflt) ∨ ∃ s, e.Attribute a = some s ∧ c.strToDouble s = some v := by
  unfold readOr
  cases e.Attribute a <;> simp [eq_comm]

theorem readOr_eq_none_iff (c : Collab D P) (e : XMLElement) (a : String) (dflt : D) :
    readOr c e a dflt = none ↔ ∃ s, e.Attribute a = some s ∧ c.strToDouble s = none := by
  unfold readOr
  cases e.Attribute a <;> simp

theorem readReq_eq_some_iff (c : Collab D P) (e : XMLElement) (a : String) (v : D) :
    readReq c e a = some v ↔ ∃ s, e.Attribute a = some s ∧ c.strToDouble s = some v := by
  unfold readReq
  cases e.Attribute a <;> simp

theorem readReq_eq_none_iff (c : Collab D P) (e : XMLElement) (a : String) :
    readReq c e a = none ↔
      e.Attribute a = none ∨ ∃ s, e.Attribute a = some s ∧ c.strToDouble s = none := by
  unfold readReq
  cases e.Attribute a <;> simp

/-- The result of `parseJointLimits` in terms of the four attribute reads. -/
theorem parseJointLimits_eq_true_iff (c : Collab D P) (jl r : JointLimits D) (e : XMLElement) :
    parseJointLimits c jl e = (true, r) ↔
      readOr c e "lower" c.zero = some r.lower ∧ readOr c e "upper" c.zero = some r.upper ∧
      readReq c e "effort" = some r.effort ∧ readReq c e "velocity" = some r.velocity := by
  unfold parseJointLimits
  cases r
  cases readOr c e "lower" c.zero <;> cases readOr c e "upper" c.zero <;>
    cases readReq c e "effort" <;> cases readReq c e "velocity" <;> simp

theorem parseJointLimits_fst_eq_true_iff (c : Collab D P) (jl : JointLimits D) (e : XMLElement) :
    (parseJointLimits c jl e).1 = true ↔
      (readOr c e "lower" c.zero).isSome ∧ (readOr c e "upper" c.zero).isSome ∧
      (readReq c e "effort").isSome ∧ (readReq c e "velocity").isSome := by
  unfold parseJointLimits
  cases readOr c e "lower" c.zero <;> cases readOr c e "upper" c.zero <;>
    cases readReq c e "effort" <;> cases readReq c e "velocity" <;> simp

theorem readOr_isSome_iff (c : Collab D P) (e : XMLElement) (a : String) (dflt : D) :
    (readOr c e a dflt).isSome ↔ ∀ s, e.Attribute a = some s → c.strToDouble s ≠ none := by
  unfold readOr
  cases e.Attribute a <;> simp [Option.isSome_iff_ne_none]

theorem readReq_isSome_iff (c : Collab D P) (e : XMLElement) (a : String) :
    (readReq c e a).isSome ↔
      e.Attribute a ≠ none ∧ ∀ s, e.Attribute a = some s → c.strToDouble s ≠ none := by
  unfold readReq
  cases e.Attribute a <;> simp [Option.isSome_iff_ne_none]

/-- C8: `parseJointLimits` succeeds exactly when `effort` and `velocity` are
both present and every present attribute among lower, upper, effort, velocity
parses; on success absent lower/upper are 0 and present attributes give their
parsed values.  Hence `parseJoint` fails on every element whose first `limit`
child lacks `effort` or lacks `velocity`. -/
theorem C8_limits_decode (c : Collab D P) :
    (∀ (jl : JointLimits D) (e : XMLElement),
      ((parseJointLimits c jl e).1 = true ↔
        e.Attribute "effort" ≠ none ∧ e.Attribute "velocity" ≠ none ∧
        ∀ a ∈ ["lower", "upper", "effort", "velocity"],
          ∀ s, e.Attribute a = some s → c.strToDouble s ≠ none)) ∧
    (∀ (jl : JointLimits D) (e : XMLElement), (parseJointLimits c jl e).1 = true →
      (e.Attribute "lower" = none → (parseJointLimits c jl e).2.lower = c.zero) ∧
      (e.Attribute "upper" = none → (parseJointLimits c jl e).2.upper = c.zero) ∧
      (∀ s, e.Attribute "lower" = some s →
        c.strToDouble s = some (parseJointLimits c jl e).2.lower) ∧
      (∀ s, e.Attribute "upper" = some s →
        c.strToDouble s = some (parseJointLimits c jl e).2.upper) ∧
      (∀ s, e.Attribute "effort" = some s →
        c.strToDouble s = some (parseJointLimits c jl e).2.effort) ∧
      (∀ s, e.Attribute "velocity" = some s →
        c.strToDouble s = some (parseJointLimits c jl e).2.velocity)) ∧
    (∀ (j : Joint D P) (e l : XMLElement), e.FirstChildElement "limit" = some l →
      l.Attribute "effort" = none ∨ l.Attribute "velocity" = none →
      (parseJoint c j e).1 = false) := by
  have hiff : ∀ (jl : JointLimits D) (e : XMLElement),
      ((parseJointLimits c jl e).1 = true ↔
        e.Attribute "effort" ≠ none ∧ e.Attribute "velocity" ≠ none ∧
        ∀ a ∈ ["lower", "upper", "effort", "velocity"],
          ∀ s, e.Attribute a = some s → c.strToDouble s ≠ none) := by
    intro jl e
    rw [parseJointLimits_fst_eq_true_iff, readOr_isSome_iff, readOr_isSome_iff,
      readReq_isSome_iff, readReq_isSome_iff]
    simp only [List.mem_cons, List.mem_singleton, List.mem_nil_iff, or_false, forall_eq_or_imp,
      forall_eq]
    tauto
  refine ⟨hiff, ?_, ?_⟩
  · intro jl e h
    have h2 : parseJointLimits c jl e = (true, (parseJointLimits c jl e).2) := by
      rw [← h]
    obtain ⟨h1, h2, h3, h4⟩ := (parseJointLimits_eq_true_iff c jl _ e).1 h2
    rw [readOr_eq_some_iff] at h1 h2
    rw [readReq_eq_some_iff] at h3 h4
    refine ⟨?_, ?_, ?_, ?_, ?_, ?_⟩
    · intro hn
      rcases h1 with ⟨_, hv⟩ | ⟨s, hs, _⟩
      · exact hv
      · rw [hn] at hs; cases hs
    · intro hn
      rcases h2 with ⟨_, hv⟩ | ⟨s, hs, _⟩
      · exact hv
      · rw [hn] at hs; cases hs
    · intro s hs
      rcases h1 with ⟨hn, _⟩ | ⟨s2, hs2, hv⟩
      · rw [hn] at hs; cases hs
      · rw [hs] at hs2; cases hs2; exact hv
    · intro s hs
      rcases h2 with ⟨hn, _⟩ | ⟨s2, hs2, hv⟩
      · rw [hn] at hs; cases hs
      · rw [hs] at hs2; cases hs2; exact hv
    · intro s hs
      obtain ⟨s2, hs2, hv⟩ := h3
      rw [hs] at hs2; cases hs2; exact hv
    · intro s hs
      obtain ⟨s2, hs2, hv⟩ := h4
      rw [hs] at hs2; cases hs2; exact hv
  · intro j e l hl hmiss
    cases hb : (parseJoint c j e).1 with
    | false => rfl
    | true =>
      obtain ⟨n, ty, _, _, hv⟩ := (parseJoint_fst_eq_true_iff c j e).1 hb
      simp only [otherwiseValid, Bool.and_eq_true] at hv
      obtain ⟨⟨⟨⟨⟨⟨_, _⟩, hlim⟩, _⟩, _⟩, _⟩, _⟩ := hv
      simp only [limitOk, hl] at hlim
      obtain ⟨he, hvel, _⟩ := (hiff c.limitsClear l).1 hlim
      rcases hmiss with h | h
      · exact absurd h he
      · exact absurd h hvel

/-- Witness for C8 on `<limit effort="10" velocity="2"/>`,
`<limit lower="0" upper="1" velocity="2"/>` and a fixed joint holding the
latter. -/
theorem C8_limits_decode_witness :
    (parseJointLimits Concrete.collab Concrete.collab.limitsClear
        Examples.limitEffortVelocity).1 = true ∧
    (parseJointLimits Concrete.collab Concrete.collab.limitsClear
        Examples.limitEffortVelocity).2.lower = 0 ∧
    (parseJoint Concrete.collab Concrete.joint0 Examples.fixedLimitNoEffort).1 = false :=
  ⟨((C8_limits_decode Concrete.collab).1 Concrete.collab.limitsClear
      Examples.limitEffortVelocity).2 (by decide),
    ((C8_limits_decode Concrete.collab).2.1 Concrete.collab.limitsClear
      Examples.limitEffortVelocity (by decide)).1 (by decide),
    (C8_limits_decode Concrete.collab).2.2 Concrete.joint0 Examples.fixedLimitNoEffort
      Examples.limitNoEffort rfl (Or.inl (by decide))⟩

theorem readPtr_eq_some_iff (c : Collab D P) (e : XMLElement) (a : String) (v : Option D) :
    readPtr c e a = some v ↔
      (e.Attribute a = none ∧ v = none) ∨
        ∃ s d, e.Attribute a = some s ∧ c.strToDouble s = some d ∧ v = some d := by
  unfold readPtr
  cases e.Attribute a with
  | none => simp [eq_comm]
  | some s =>
    dsimp only
    cases h : c.strToDouble s <;> simp [h, eq_comm]

theorem readPtr_isSome_iff (c : Collab D P) (e : XMLElement) (a : String) :
    (readPtr c e a).isSome ↔ ∀ s, e.Attribute a = some s → c.strToDouble s ≠ none := by
  unfold readPtr
  cases e.Attribute a with
  | none => simp
  | some s =>
    dsimp only
    cases h : c.strToDouble s <;> simp [h]

/-- The result of `parseJointCalibration` in terms of the two attribute reads. -/
theorem parseJointCalibration_eq_true_iff (c : Collab D P) (jc r : JointCalibration D)
    (e : XMLElement) :
    parseJointCalibration c jc e = (true, r) ↔
      readPtr c e "rising" = some r.rising ∧ readPtr c e "falling" = some r.falling := by
  unfold parseJointCalibration
  cases r
  cases readPtr c e "rising" <;> cases readPtr c e "falling" <;> simp

theorem parseJointCalibration_fst_eq_true_iff (c : Collab D P) (jc : JointCalibration D)
    (e : XMLElement) :
    (parseJointCalibration c jc e).1 = true ↔
      (readPtr c e "rising").isSome ∧ (readPtr c e "falling").isSome := by
  unfold parseJointCalibration
  cases readPtr c e "rising" <;> cases readPtr c e "falling" <;> simp

/-- C9: the calibration codec.  `parseJointCalibration` succeeds exactly when
every present attribute among `rising`, `falling` parses; on success `rising`
(resp. `falling`) is unset when its attribute is absent and holds the parsed
value when it is present.  `exportJointCalibration` appends a `calibration`
element exactly when at least one of the two is set, with exactly the
attributes that are set (`falling` before `rising`), and otherwise leaves the
parent unchanged. -/
theorem C9_calibration_codec (c : Collab D P) :
    (∀ (jc : JointCalibration D) (e : XMLElement),
      ((parseJointCalibration c jc e).1 = true ↔
        ∀ a ∈ ["rising", "falling"], ∀ s, e.Attribute a = some s → c.strToDouble s ≠ none)) ∧
    (∀ (jc : JointCalibration D) (e : XMLElement), (parseJointCalibration c jc e).1 = true →
      (e.Attribute "rising" = none → (parseJointCalibration c jc e).2.rising = none) ∧
      (∀ s, e.Attribute "rising" = some s →
        (parseJointCalibration c jc e).2.rising ≠ none ∧
        c.strToDouble s = (parseJointCalibration c jc e).2.rising) ∧
      (e.Attribute "falling" = none → (parseJointCalibration c jc e).2.falling = none) ∧
      (∀ s, e.Attribute "falling" = some s →
        (parseJointCalibration c jc e).2.falling ≠ none ∧
        c.strToDouble s = (parseJointCalibration c jc e).2.falling)) ∧
    (∀ (jc : JointCalibration D) (xml : XMLElement),
      (jc.rising = none ∧ jc.falling = none →
        exportJointCalibration c jc xml = (true, xml)) ∧
      (jc.rising ≠ none ∨ jc.falling ≠ none →
        exportJointCalibration c jc xml =
          (true, xml.LinkEndChild (XMLElement.mk "calibration"
            ((match jc.falling with
              | some f => [("falling", c.values2str f)]
              | none => []) ++
             (match jc.rising with
              | some r => [("rising", c.values2str r)]
              | none => [])) [])))) := by
  refine ⟨?_, ?_, ?_⟩
  · intro jc e
    rw [parseJointCalibration_fst_eq_true_iff, readPtr_isSome_iff, readPtr_isSome_iff]
    simp only [List.mem_cons, List.mem_singleton, List.mem_nil_iff, or_false, forall_eq_or_imp,
      forall_eq]
  · intro jc e h
    have h2 : parseJointCalibration c jc e = (true, (parseJointCalibration c jc e).2) := by
      rw [← h]
    obtain ⟨h1, h2⟩ := (parseJointCalibration_eq_true_iff c jc _ e).1 h2
    rw [readPtr_eq_some_iff] at h1 h2
    refine ⟨?_, ?_, ?_, ?_⟩
    · intro hn
      rcases h1 with ⟨_, hv⟩ | ⟨s, d, hs, _, _⟩
      · exact hv
      · rw [hn] at hs; cases hs
    · intro s hs
      rcases h1 with ⟨hn, _⟩ | ⟨s2, d, hs2, hp, hv⟩
      · rw [hn] at hs; cases hs
      · rw [hs] at hs2; cases hs2
        rw [hv, hp]
        exact ⟨by simp, rfl⟩
    · intro hn
      rcases h2 with ⟨_, hv⟩ | ⟨s, d, hs, _, _⟩
      · exact hv
      · rw [hn] at hs; cases hs
    · intro s hs
      rcases h2 with ⟨hn, _⟩ | ⟨s2, d, hs2, hp, hv⟩
      · rw [hn] at hs; cases hs
      · rw [hs] at hs2; cases hs2
        rw [hv, hp]
        exact ⟨by simp, rfl⟩
  · intro jc xml
    obtain ⟨rising, falling⟩ := jc
    unfold exportJointCalibration
    cases rising <;> cases falling <;>
      simp [NewElement, XMLElement.SetAttribute, XMLElement.setAttr, XMLElement.attrs,
        XMLElement.Name, XMLElement.children]

/-- Witness for C9: `<calibration rising="5"/>` decodes to rising 5 and falling
unset, and encoding that record under `<robot/>` appends
`<calibration rising="5"/>`. -/
theorem C9_calibration_codec_witness :
    (parseJointCalibration Concrete.collab Concrete.collab.calibrationClear
        Examples.calibrationRising5).1 = true ∧
    ((parseJointCalibration Concrete.collab Concrete.collab.calibrationClear
        Examples.calibrationRising5).2.rising ≠ none ∧
      Concrete.collab.strToDouble "5" =
        (parseJointCalibration Concrete.collab Concrete.collab.calibrationClear
          Examples.calibrationRising5).2.rising) ∧
    (parseJointCalibration Concrete.collab Concrete.collab.calibrationClear
        Examples.calibrationRising5).2.falling = none ∧
    exportJointCalibration Concrete.collab (JointCalibration.mk (some 5) none) Examples.robot =
      (true, XMLElement.mk "robot" [] [XMLElement.mk "calibration" [("rising", "5")] []]) :=
  ⟨((C9_calibration_codec Concrete.collab).1 Concrete.collab.calibrationClear
      Examples.calibrationRising5).2 (by decide),
    ((C9_calibration_codec Concrete.collab).2.1 Concrete.collab.calibrationClear
      Examples.calibrationRising5 (by decide)).2.1 "5" (by decide),
    ((C9_calibration_codec Concrete.collab).2.1 Concrete.collab.calibrationClear
      Examples.calibrationRising5 (by decide)).2.2.1 (by decide),
    ((C9_calibration_codec Concrete.collab).2.2 (JointCalibration.mk (some 5) none)
      Examples.robot).2 (Or.inl (by decide))⟩

/-- The result of `parseJointMimic` in terms of the three attribute reads. -/
theorem parseJointMimic_eq_true_iff (c : Collab D P) (jm r : JointMimic D) (e : XMLElement) :
    parseJointMimic c jm e = (true, r) ↔
      e.Attribute "joint" = some r.joint_name ∧
      readOr c e "multiplier" c.one = some r.multiplier ∧
      readOr c e "offset" c.zero = some r.offset := by
  unfold parseJointMimic
  cases r
  cases e.Attribute "joint" <;> cases readOr c e "multiplier" c.one <;>
    cases readOr c e "offset" c.zero <;> simp
  tauto

theorem parseJointMimic_fst_eq_true_iff (c : Collab D P) (jm : JointMimic D) (e : XMLElement) :
    (parseJointMimic c jm e).1 = true ↔
      (e.Attribute "joint").isSome ∧ (readOr c e "multiplier" c.one).isSome ∧
      (readOr c e "offset" c.zero).isSome := by
  unfold parseJointMimic
  cases e.Attribute "joint" <;> cases readOr c e "multiplier" c.one <;>
    cases readOr c e "offset" c.zero <;> simp

/-- C10: the mimic codec.  `parseJointMimic` succeeds exactly when the `joint`
attribute is present and each present one of `multiplier`, `offset` parses; on
success `joint_name` is the attribute text, `multiplier` is 1 when absent and
`offset` is 0 when absent, and a present one gives its parsed value.
`exportJointMimic` appends a `mimic` element exactly when `joint_name` is
non-empty, and that element carries the three attributes offset, multiplier and
joint. -/
theorem C10_mimic_codec (c : Collab D P) :
    (∀ (jm : JointMimic D) (e : XMLElement),
      ((parseJointMimic c jm e).1 = true ↔
        e.Attribute "joint" ≠ none ∧
        ∀ a ∈ ["multiplier", "offset"], ∀ s, e.Attribute a = some s → c.strToDouble s ≠ none)) ∧
    (∀ (jm : JointMimic D) (e : XMLElement), (parseJointMimic c jm e).1 = true →
      e.Attribute "joint" = some (parseJointMimic c jm e).2.joint_name ∧
      (e.Attribute "multiplier" = none → (parseJointMimic c jm e).2.multiplier = c.one) ∧
      (∀ s, e.Attribute "multiplier" = some s →
        c.strToDouble s = some (parseJointMimic c jm e).2.multiplier) ∧
      (e.Attribute "offset" = none → (parseJointMimic c jm e).2.offset = c.zero) ∧
      (∀ s, e.Attribute "offset" = some s →
        c.strToDouble s = some (parseJointMimic c jm e).2.offset)) ∧
    (∀ (jm : JointMimic D) (xml : XMLElement),
      (jm.joint_name = "" → exportJointMimic c jm xml = (true, xml)) ∧
      (jm.joint_name ≠ "" →
        exportJointMimic c jm xml =
          (true, xml.LinkEndChild (XMLElement.mk "mimic"
            [("offset", c.values2str jm.offset), ("multiplier", c.values2str jm.multiplier),
             ("joint", jm.joint_name)] [])))) := by
  refine ⟨?_, ?_, ?_⟩
  · intro jm e
    rw [parseJointMimic_fst_eq_true_iff, readOr_isSome_iff, readOr_isSome_iff]
    simp only [List.mem_cons, List.mem_singleton, List.mem_nil_iff, or_false, forall_eq_or_imp,
      forall_eq, Option.isSome_iff_ne_none]
  · intro jm e h
    have h2 : parseJointMimic c jm e = (true, (parseJointMimic c jm e).2) := by
      rw [← h]
    obtain ⟨h0, h1, h2⟩ := (parseJointMimic_eq_true_iff c jm _ e).1 h2
    rw [readOr_eq_some_iff] at h1 h2
    refine ⟨h0, ?_, ?_, ?_, ?_⟩
    · intro hn
      rcases h1 with ⟨_, hv⟩ | ⟨s, hs, _⟩
      · exact hv
      · rw [hn] at hs; cases hs
    · intro s hs
      rcases h1 with ⟨hn, _⟩ | ⟨s2, hs2, hv⟩
      · rw [hn] at hs; cases hs
      · rw [hs] at hs2; cases hs2; exact hv
    · intro hn
      rcases h2 with ⟨_, hv⟩ | ⟨s, hs, _⟩
      · exact hv
      · rw [hn] at hs; cases hs
    · intro s hs
      rcases h2 with ⟨hn, _⟩ | ⟨s2, hs2, hv⟩
      · rw [hn] at hs; cases hs
      · rw [hs] at hs2; cases hs2; exact hv
  · intro jm xml
    unfold exportJointMimic
    constructor
    · intro h
      simp [h]
    · intro h
      simp [h, NewElement, XMLElement.SetAttribute, XMLElement.setAttr, XMLElement.attrs,
        XMLElement.Name, XMLElement.children]

/-- Witness for C10: `<mimic joint="j0"/>` decodes to joint_name `j0`,
multiplier 1, offset 0; `<mimic multiplier="2"/>` fails; encoding the decoded
record under `<robot/>` appends `<mimic offset="0" multiplier="1" joint="j0"/>`. -/
theorem C10_mimic_codec_witness :
    (parseJointMimic Concrete.collab Concrete.collab.mimicClear Examples.mimicJ0).1 = true ∧
    (Examples.mimicJ0.Attribute "joint" =
        some (parseJointMimic Concrete.collab Concrete.collab.mimicClear
          Examples.mimicJ0).2.joint_name ∧
      (parseJointMimic Concrete.collab Concrete.collab.mimicClear
          Examples.mimicJ0).2.multiplier = 1 ∧
      (parseJointMimic Concrete.collab Concrete.collab.mimicClear
          Examples.mimicJ0).2.offset = 0) ∧
    ¬ (parseJointMimic Concrete.collab Concrete.collab.mimicClear
        Examples.mimicNoJoint).1 = true ∧
    exportJointMimic Concrete.collab (JointMimic.mk 0 1 "j0") Examples.robot =
      (true, XMLElement.mk "robot" [] [XMLElement.mk "mimic"
        [("offset", "0"), ("multiplier", "1"), ("joint", "j0")] []]) :=
  ⟨((C10_mimic_codec Concrete.collab).1 Concrete.collab.mimicClear Examples.mimicJ0).2
      (by decide),
    ⟨((C10_mimic_codec Concrete.collab).2.1 Concrete.collab.mimicClear Examples.mimicJ0
        (by decide)).1,
      ((C10_mimic_codec Concrete.collab).2.1 Concrete.collab.mimicClear Examples.mimicJ0
        (by decide)).2.1 (by decide),
      ((C10_mimic_codec Concrete.collab).2.1 Concrete.collab.mimicClear Examples.mimicJ0
        (by decide)).2.2.2.1 (by decide)⟩,
    fun h => (((C10_mimic_codec Concrete.collab).1 Concrete.collab.mimicClear
      Examples.mimicNoJoint).1 h).1 (by decide),
    ((C10_mimic_codec Concrete.collab).2.2 (JointMimic.mk 0 1 "j0") Examples.robot).2
      (by decide)⟩

end SubCodecs

/-! ## The axis block -/

section Axis

variable {D P : Type}

theorem andThen_congr_right {σ : Type} (r : Bool × σ) (f g : σ → Bool × σ)
    (h : ∀ s, r = (true, s) → f s = g s) : andThen r f = andThen r g := by
  obtain ⟨b, t⟩ := r
  cases b
  · simp [andThen]
  · simp only [andThen, if_true]
    exact h t rfl

theorem Attribute_congr (e e' : XMLElement) (h : e'.attrs = e.attrs) (a : String) :
    e'.Attribute a = e.Attribute a := by
  simp [XMLElement.Attribute, h]

/-- Children with another tag than `skip` are found at the same place after
the children tagged `skip` are dropped. -/
theorem find_filter_tag (l : List XMLElement) (skip t : String) (ht : t ≠ skip) :
    (l.filter (fun x => x.Name != skip)).find? (fun x => x.Name == t) =
      l.find? (fun x => x.Name == t) := by
  induction l with
  | nil => rfl
  | cons x xs ih =>
    by_cases hx : x.Name = skip
    · have hne : (x.Name == t) = false := by
        simpa using fun h => ht (h.symm.trans hx)
      have hf : (x.Name != skip) = false := by simpa using hx
      rw [List.filter_cons, hf, List.find?_cons, hne]
      simpa using ih
    · have hf : (x.Name != skip) = true := by simpa using hx
      rw [List.filter_cons, hf]
      simp only [if_true, List.find?_cons]
      rw [ih]

theorem FirstChildElement_congr (e e' : XMLElement) (skip t : String) (ht : t ≠ skip)
    (h : e'.children.filter (fun x => x.Name != skip) =
      e.children.filter (fun x => x.Name != skip)) :
    e'.FirstChildElement t = e.FirstChildElement t := by
  unfold XMLElement.FirstChildElement
  rw [← find_filter_tag e'.children skip t ht, ← find_filter_tag e.children skip t ht, h]

theorem getAxis_of_fixed_or_floating (c : Collab D P) (s : Joint D P) (e : XMLElement)
    (h : s.type = JointType.FIXED ∨ s.type = JointType.FLOATING) :
    parseJoint.getAxis c s e = (true, s) := by
  unfold parseJoint.getAxis
  rcases h with h | h <;> simp [h]

theorem getType_type (s0 s : Joint D P) (e : XMLElement)
    (h : parseJoint.getType s0 e = (true, s)) : typeOfAttr e = some s.type := by
  obtain ⟨ty, hty, rfl⟩ := (getType_eq_true_iff s0 s e).1 h
  exact hty

/-- For a fixed or floating joint, `parseJoint` returns the same flag and the same
joint on two elements that have the same attributes and the same children apart
from `axis` children. -/
theorem parseJoint_congr_axis (c : Collab D P) (j : Joint D P) (e e' : XMLElement)
    (hattrs : e'.attrs = e.attrs)
    (hkids : e'.children.filter (fun x => x.Name != "axis") =
      e.children.filter (fun x => x.Name != "axis"))
    (hty : typeOfAttr e = some JointType.FIXED ∨ typeOfAttr e = some JointType.FLOATING) :
    parseJoint c j e' = parseJoint c j e := by
  have hA : ∀ a, e'.Attribute a = e.Attribute a := Attribute_congr e e' hattrs
  have hC : ∀ t, t ≠ "axis" → e'.FirstChildElement t = e.FirstChildElement t :=
    fun t ht => FirstChildElement_congr e e' "axis" t ht hkids
  have h1 : ∀ s : Joint D P, parseJoint.getName s e' = parseJoint.getName s e := by
    intro s; simp [parseJoint.getName, hA]
  have h2 : ∀ s, parseJoint.getOrigin c s e' = parseJoint.getOrigin c s e := by
    intro s; simp [parseJoint.getOrigin, hC "origin" (by decide)]
  have h3 : ∀ s : Joint D P, parseJoint.getParent s e' = parseJoint.getParent s e := by
    intro s; simp [parseJoint.getParent, hC "parent" (by decide)]
  have h4 : ∀ s : Joint D P, parseJoint.getChild s e' = parseJoint.getChild s e := by
    intro s; simp [parseJoint.getChild, hC "child" (by decide)]
  have h5 : ∀ s : Joint D P, parseJoint.getType s e' = parseJoint.getType s e := by
    intro s; simp [parseJoint.getType, hA]
  have h7 : ∀ s, parseJoint.getLimit c s e' = parseJoint.getLimit c s e := by
    intro s; simp [parseJoint.getLimit, hC "limit" (by decide)]
  have h8 : ∀ s, parseJoint.getSafety c s e' = parseJoint.getSafety c s e := by
    intro s; simp [parseJoint.getSafety, hC "safety_controller" (by decide)]
  have h9 : ∀ s, parseJoint.getCalibration c s e' = parseJoint.getCalibration c s e := by
    intro s; simp [parseJoint.getCalibration, hC "calibration" (by decide)]
  have h10 : ∀ s, parseJoint.getMimic c s e' = parseJoint.getMimic c s e := by
    intro s; simp [parseJoint.getMimic, hC "mimic" (by decide)]
  have h11 : ∀ s, parseJoint.getDynamics c s e' = parseJoint.getDynamics c s e := by
    intro s; simp [parseJoint.getDynamics, hC "dynamics" (by decide)]
  have hR : ∀ s,
      andThen (andThen (andThen (andThen (parseJoint.getName (Joint.clear c j) e)
        (fun j => parseJoint.getOrigin c j e)) (fun j => parseJoint.getParent j e))
        (fun j => parseJoint.getChild j e)) (fun j => parseJoint.getType j e) = (true, s) →
      parseJoint.getAxis c s e' = parseJoint.getAxis c s e := by
    intro s hs
    obtain ⟨s1, _, h⟩ := (andThen_eq_true_iff _ _ _).1 hs
    have hst := getType_type _ _ _ h
    have hs2 : s.type = JointType.FIXED ∨ s.type = JointType.FLOATING := by
      rcases hty with h | h
      · rw [h] at hst
        exact Or.inl (Option.some.inj hst).symm
      · rw [h] at hst
        exact Or.inr (Option.some.inj hst).symm
    rw [getAxis_of_fixed_or_floating c s e' hs2, getAxis_of_fixed_or_floating c s e hs2]
  unfold parseJoint
  simp only [h1, h2, h3, h4, h5, h7, h8, h9, h10, h11]
  rw [andThen_congr_right _ _ _ hR]

/-- C5: axis gating.  A successfully decoded element of type revolute,
continuous, prismatic or planar without an `axis` child has axis (1,0,0).  For an
element of type fixed or floating, the flag and the joint on return (its axis
included) are the same for every element with the same attributes and the same
children apart from `axis` children, so neither the presence of an `axis` child
nor its `xyz` text, well-formed or not, has any effect. -/
theorem C5_axis_gating (c : Collab D P) (j : Joint D P) :
    (∀ e j', parseJoint c j e = (true, j') →
      j'.type ∈ [JointType.REVOLUTE, JointType.CONTINUOUS, JointType.PRISMATIC,
                 JointType.PLANAR] →
      e.FirstChildElement "axis" = none → j'.axis = Vector3.mk c.one c.zero c.zero) ∧
    (∀ e e' s, e.Attribute "type" = some s → s = "fixed" ∨ s = "floating" →
      e'.attrs = e.attrs →
      e'.children.filter (fun x => x.Name != "axis") =
        e.children.filter (fun x => x.Name != "axis") →
      parseJoint c j e' = parseJoint c j e) := by
  constructor
  · intro e j' h hty hax
    obtain ⟨n, ty, _, _, _, rfl⟩ := (parseJoint_eq_true_iff c j j' e).1 h
    simp only [decoded] at hty ⊢
    simp only [List.mem_cons, List.mem_singleton, List.mem_nil_iff, or_false] at hty
    rcases hty with rfl | rfl | rfl | rfl <;> simp [axisOf, hax]
  · intro e e' s hs hff hattrs hkids
    apply parseJoint_congr_axis c j e e' hattrs hkids
    rcases hff with rfl | rfl
    · left; simp [typeOfAttr, hs, typeSpellings, List.lookup_cons]
    · right; simp [typeOfAttr, hs, typeSpellings, List.lookup_cons]

/-- Witness for C5: `<joint name="j1" type="continuous"/>` decodes with axis
(1,0,0); `<joint name="j1" type="fixed"><axis xyz="up"/></joint>` decodes exactly
as `<joint name="j1" type="fixed"/>` does. -/
theorem C5_axis_gating_witness :
    (parseJoint Concrete.collab Concrete.joint0 Examples.continuousBare).2.axis
        = Vector3.mk 1 0 0 ∧
    parseJoint Concrete.collab Concrete.joint0 Examples.fixedBadAxis =
      parseJoint Concrete.collab Concrete.joint0 Examples.fixedBare :=
  ⟨(C5_axis_gating Concrete.collab Concrete.joint0).1 Examples.continuousBare
      (parseJoint Concrete.collab Concrete.joint0 Examples.continuousBare).2
      (by decide) (by decide) rfl,
    (C5_axis_gating Concrete.collab Concrete.joint0).2 Examples.fixedBare Examples.fixedBadAxis
      "fixed" (by decide) (by decide) rfl rfl⟩

/-- C6: the axis of a successfully decoded element whose type is not fixed and
not floating.  With an `axis` child carrying `xyz`, the axis is the vector
parsed from that text, and text the vector parser rejects fails the decode.
Without an `axis` child the axis is (1,0,0).  With an `axis` child that has no
`xyz` attribute no assignment is made: the axis is the vector that
`joint.clear()` left, `Vector3::clear()`, and not (1,0,0). -/
theorem C6_axis_of_decoded (c : Collab D P) (j : Joint D P) (e : XMLElement) :
    (∀ j', parseJoint c j e = (true, j') →
      j'.type ≠ JointType.FIXED → j'.type ≠ JointType.FLOATING →
      (∀ a t, e.FirstChildElement "axis" = some a → a.Attribute "xyz" = some t →
        c.vecInit t = some j'.axis) ∧
      (e.FirstChildElement "axis" = none → j'.axis = Vector3.mk c.one c.zero c.zero) ∧
      (∀ a, e.FirstChildElement "axis" = some a → a.Attribute "xyz" = none →
        j'.axis = c.vecClear)) ∧
    (∀ a t s, e.FirstChildElement "axis" = some a → a.Attribute "xyz" = some t →
      c.vecInit t = none → e.Attribute "type" = some s → s ≠ "fixed" → s ≠ "floating" →
      (parseJoint c j e).1 = false) := by
  constructor
  · intro j' h hfix hflo
    obtain ⟨n, ty, _, _, hv, rfl⟩ := (parseJoint_eq_true_iff c j j' e).1 h
    simp only [decoded] at hfix hflo ⊢
    simp only [otherwiseValid, Bool.and_eq_true] at hv
    obtain ⟨⟨⟨⟨⟨⟨_, hax⟩, _⟩, _⟩, _⟩, _⟩, _⟩ := hv
    have hnot : ¬ (ty = JointType.FLOATING ∨ ty = JointType.FIXED) := by tauto
    refine ⟨?_, ?_, ?_⟩
    · intro a t ha ht
      simp only [axisOk, if_neg hnot, ha, ht] at hax
      simp only [axisOf, if_neg hnot, ha, ht]
      cases hp : c.vecInit t with
      | none => simp [hp] at hax
      | some v => rfl
    · intro ha
      simp [axisOf, hnot, ha]
    · intro a ha ht
      simp [axisOf, hnot, ha, ht]
  · intro a t s ha ht hp hs hfix hflo
    cases hb : (parseJoint c j e).1 with
    | false => rfl
    | true =>
      obtain ⟨n, ty, _, hty, hv⟩ := (parseJoint_fst_eq_true_iff c j e).1 hb
      obtain ⟨s2, hs2, hmem⟩ := (typeOfAttr_eq_some_iff e ty).1 hty
      rw [hs] at hs2
      cases hs2
      simp only [otherwiseValid, Bool.and_eq_true] at hv
      obtain ⟨⟨⟨⟨⟨⟨_, hax⟩, _⟩, _⟩, _⟩, _⟩, _⟩ := hv
      have hnot : ¬ (ty = JointType.FLOATING ∨ ty = JointType.FIXED) := by
        simp only [typeSpellings, List.mem_cons, Prod.mk.injEq, List.mem_singleton,
          List.mem_nil_iff, or_false] at hmem
        rcases hmem with ⟨h, rfl⟩ | ⟨h, rfl⟩ | ⟨h, rfl⟩ | ⟨h, rfl⟩ | ⟨h, rfl⟩ | ⟨h, rfl⟩ <;>
          simp_all
      simp [axisOk, hnot, ha, ht, hp] at hax

/-- C6 at `<joint name="j1" type="continuous"><axis/></joint>` with the concrete
collaborators: the decode succeeds and the axis is (0,0,0), the cleared vector,
which differs from (1,0,0); with `xyz="0 0 1"` the axis is (0,0,1). -/
theorem C6_axis_of_decoded_witness :
    (parseJoint Concrete.collab Concrete.joint0 Examples.continuousAxisNoXyz).1 = true ∧
    (parseJoint Concrete.collab Concrete.joint0 Examples.continuousAxisNoXyz).2.axis
      = Vector3.mk 0 0 0 ∧
    (parseJoint Concrete.collab Concrete.joint0 Examples.continuousAxisNoXyz).2.axis
      ≠ Vector3.mk Concrete.collab.one Concrete.collab.zero Concrete.collab.zero ∧
    Concrete.collab.vecInit "0 0 1" =
      some (parseJoint Concrete.collab Concrete.joint0 Examples.continuousAxisZ).2.axis :=
  ⟨by decide,
    ((C6_axis_of_decoded Concrete.collab Concrete.joint0 Examples.continuousAxisNoXyz).1
      (parseJoint Concrete.collab Concrete.joint0 Examples.continuousAxisNoXyz).2
      (by decide) (by decide) (by decide)).2.2 (XMLElement.mk "axis" [] []) rfl (by decide),
    by decide,
    ((C6_axis_of_decoded Concrete.collab Concrete.joint0 Examples.continuousAxisZ).1
      (parseJoint Concrete.collab Concrete.joint0 Examples.continuousAxisZ).2
      (by decide) (by decide) (by decide)).1 (XMLElement.mk "axis" [("xyz", "0 0 1")] [])
      "0 0 1" rfl (by decide)⟩

end Axis

/-! ## The encoder -/

section Encoder

variable {D P : Type}

theorem exportJointDynamics_eq (c : Collab D P) (jd : JointDynamics D) (x : XMLElement) :
    exportJointDynamics c jd x = (true, x.LinkEndChild (dynamicsElement c jd)) := by
  simp [exportJointDynamics, dynamicsElement, NewElement, XMLElement.SetAttribute,
    XMLElement.setAttr, XMLElement.attrs, XMLElement.Name, XMLElement.children]

theorem exportJointLimits_eq (c : Collab D P) (jl : JointLimits D) (x : XMLElement) :
    exportJointLimits c jl x = (true, x.LinkEndChild (limitElement c jl)) := by
  simp [exportJointLimits, limitElement, NewElement, XMLElement.SetAttribute,
    XMLElement.setAttr, XMLElement.attrs, XMLElement.Name, XMLElement.children]

theorem exportJointSafety_eq (c : Collab D P) (js : JointSafety D) (x : XMLElement) :
    exportJointSafety c js x = (true, x.LinkEndChild (safetyElement c js)) := by
  simp [exportJointSafety, safetyElement, NewElement, XMLElement.SetAttribute,
    XMLElement.setAttr, XMLElement.attrs, XMLElement.Name, XMLElement.children]

theorem exportJointCalibration_eq (c : Collab D P) (jc : JointCalibration D) (x : XMLElement) :
    exportJointCalibration c jc x =
      (true, match calibrationElement c jc with
             | some el => x.LinkEndChild el
             | none => x) := by
  obtain ⟨rising, falling⟩ := jc
  cases rising <;> cases falling <;>
    simp [exportJointCalibration, calibrationElement, NewElement, XMLElement.SetAttribute,
      XMLElement.setAttr, XMLElement.attrs, XMLElement.Name, XMLElement.children]

theorem exportJointMimic_eq (c : Collab D P) (jm : JointMimic D) (x : XMLElement) :
    exportJointMimic c jm x =
      (true, match mimicElement c jm with
             | some el => x.LinkEndChild el
             | none => x) := by
  by_cases h : jm.joint_name = "" <;>
    simp [exportJointMimic, mimicElement, h, NewElement, XMLElement.SetAttribute,
      XMLElement.setAttr, XMLElement.attrs, XMLElement.Name, XMLElement.children]

theorem LinkEndChild_mk (n : String) (a : List (String × String)) (k : List XMLElement)
    (x : XMLElement) :
    (XMLElement.mk n a k).LinkEndChild x = XMLElement.mk n a (k ++ [x]) := rfl

/-- What `exportJoint.rest` does to the element built so far: it appends the
emitted children and leaves tag and attributes alone. -/
theorem exportJoint_rest_eq (c : Collab D P) (joint : Joint D P) (n : String)
    (a : List (String × String)) (k : List XMLElement) :
    exportJoint.rest c joint (XMLElement.mk n a k) =
      XMLElement.mk n a (k ++ emittedChildren c joint) := by
  obtain ⟨name, type, axis, cl, pl, pose, dyn, lim, saf, cal, mim⟩ := joint
  unfold exportJoint.rest emittedChildren
  simp only [exportJointDynamics_eq, exportJointLimits_eq, exportJointSafety_eq,
    exportJointCalibration_eq, exportJointMimic_eq]
  have hax : (NewElement "axis").SetAttribute "xyz" (c.vec2str axis) = axisElement c axis := rfl
  have hpa : (NewElement "parent").SetAttribute "link" pl = linkElement "parent" pl := rfl
  have hch : (NewElement "child").SetAttribute "link" cl = linkElement "child" cl := rfl
  simp only [hax, hpa, hch, LinkEndChild_mk]
  cases dyn <;> cases lim <;> cases saf <;> cases mim <;> cases cal <;>
    simp [LinkEndChild_mk, Option.toList] <;>
    (repeat' split) <;> simp_all [LinkEndChild_mk]

/-- The element `exportJoint` builds for a joint of one of the six kinds: the
two attributes and the emitted children; `exportPose` takes no part. -/
theorem exportJoint_element_eq (c : Collab D P) (joint : Joint D P) (sp : String)
    (h : spellingOf joint.type = some sp) :
    exportJoint.element c joint =
      XMLElement.mk "joint" [("name", joint.name), ("type", sp)] (emittedChildren c joint) := by
  unfold exportJoint.element
  have hn : (NewElement "joint").SetAttribute "name" joint.name =
      XMLElement.mk "joint" [("name", joint.name)] [] := rfl
  have hs : ∀ t : String, (XMLElement.mk "joint" [("name", joint.name)] []).SetAttribute "type" t =
      XMLElement.mk "joint" [("name", joint.name), ("type", t)] [] := by
    intro t
    simp [XMLElement.SetAttribute, XMLElement.setAttr, XMLElement.attrs, XMLElement.Name,
      XMLElement.children]
  simp only [hn, hs]
  cases hty : joint.type <;> rw [hty] at h <;> simp [spellingOf] at h <;> subst h <;>
    simp [exportJoint_rest_eq]

/-- C4: what `exportJoint` does with the origin pose.  The `else` that closes
the type chain governs the `exportPose` call, so for a joint of any of the six
kinds the pose encoder is not invoked: the result does not depend on
`exportPose`, and the emitted element consists of the `name` and `type`
attributes and the emitted children only.  The pose encoder is invoked exactly
when the type is `UNKNOWN`. -/
theorem C4_origin_export (c : Collab D P) (joint : Joint D P) (xml : XMLElement) :
    (joint.type ≠ JointType.UNKNOWN →
      (∀ f, exportJoint { c with exportPose := f } joint xml = exportJoint c joint xml) ∧
      ∃ sp, spellingOf joint.type = some sp ∧
        exportJoint c joint xml =
          (true, xml.LinkEndChild
            (XMLElement.mk "joint" [("name", joint.name), ("type", sp)]
              (emittedChildren c joint)))) ∧
    (joint.type = JointType.UNKNOWN →
      exportJoint c joint xml =
        (true, xml.LinkEndChild
          (exportJoint.rest c joint
            (c.exportPose joint.parent_to_joint_origin_transform
              (XMLElement.mk "joint" [("name", joint.name)] []))))) := by
  constructor
  · intro hty
    have hsp : ∃ sp, spellingOf joint.type = some sp := by
      cases h : joint.type <;> simp [spellingOf]
      exact absurd h hty
    obtain ⟨sp, hsp⟩ := hsp
    refine ⟨?_, sp, hsp, ?_⟩
    · intro f
      unfold exportJoint
      rw [exportJoint_element_eq c joint sp hsp,
        exportJoint_element_eq { c with exportPose := f } joint sp hsp]
      rfl
    · unfold exportJoint
      rw [exportJoint_element_eq c joint sp hsp]
  · intro hty
    unfold exportJoint exportJoint.element
    simp [hty]
    rfl

/-- C4 at the joint decoded from
`<joint name="j1" type="fixed"><origin xyz="1 2 3"/></joint>`, exported under
`<robot/>`: the result is the same with a pose encoder that does nothing, the
emitted joint element has no `origin` child, the encoder without the `else`
emits one, so the two results differ, and decoding the emitted element gives
the identity pose instead of the decoded one. -/
theorem C4_origin_export_witness :
    (exportJoint { Concrete.collab with exportPose := fun _ x => x }
        Examples.jointFixedWithOrigin Examples.robot =
      exportJoint Concrete.collab Examples.jointFixedWithOrigin Examples.robot) ∧
    Examples.jointFixedWithOrigin.parent_to_joint_origin_transform =
      (Vector3.mk 1 2 3, Vector3.mk 0 0 0) ∧
    exportJoint Concrete.collab Examples.jointFixedWithOrigin Examples.robot =
      (true, XMLElement.mk "robot" []
        [XMLElement.mk "joint" [("name", "j1"), ("type", "fixed")]
          [XMLElement.mk "axis" [("xyz", "0 0 0")] [],
           XMLElement.mk "parent" [("link", "")] [],
           XMLElement.mk "child" [("link", "")] []]]) ∧
    exportJointNoElse Concrete.collab Examples.jointFixedWithOrigin Examples.robot =
      (true, XMLElement.mk "robot" []
        [XMLElement.mk "joint" [("name", "j1"), ("type", "fixed")]
          [XMLElement.mk "origin" [("xyz", "1 2 3"), ("rpy", "0 0 0")] [],
           XMLElement.mk "axis" [("xyz", "0 0 0")] [],
           XMLElement.mk "parent" [("link", "")] [],
           XMLElement.mk "child" [("link", "")] []]]) ∧
    exportJoint Concrete.collab Examples.jointFixedWithOrigin Examples.robot ≠
      exportJointNoElse Concrete.collab Examples.jointFixedWithOrigin Examples.robot ∧
    (parseJoint Concrete.collab Concrete.joint0
        (exportJoint.element Concrete.collab
          Examples.jointFixedWithOrigin)).2.parent_to_joint_origin_transform =
      (Vector3.mk 0 0 0, Vector3.mk 0 0 0) :=
  ⟨((C4_origin_export Concrete.collab Examples.jointFixedWithOrigin
      Examples.robot).1 (by decide)).1 (fun _ x => x),
    by decide, rfl, rfl,
    fun h => absurd
      (congrArg (fun r => r.2.children.map (fun x => x.children.length)) h) (by decide),
    by decide⟩

end Encoder

/-! ## Decoding what the encoder emits -/

section RoundTrip

variable {D P : Type}

theorem parseJointDynamics_dynamicsElement (c : Collab D P) (x jd : JointDynamics D)
    (h1 : c.strToDouble (c.values2str jd.damping) = some jd.damping)
    (h2 : c.strToDouble (c.values2str jd.friction) = some jd.friction) :
    parseJointDynamics c x (dynamicsElement c jd) = (true, jd) := by
  simp [parseJointDynamics, readOr, dynamicsElement, XMLElement.Attribute, XMLElement.attrs,
    List.find?_cons, h1, h2]

theorem parseJointLimits_limitElement (c : Collab D P) (x jl : JointLimits D)
    (h1 : c.strToDouble (c.values2str jl.effort) = some jl.effort)
    (h2 : c.strToDouble (c.values2str jl.velocity) = some jl.velocity)
    (h3 : c.strToDouble (c.values2str jl.lower) = some jl.lower)
    (h4 : c.strToDouble (c.values2str jl.upper) = some jl.upper) :
    parseJointLimits c x (limitElement c jl) = (true, jl) := by
  simp [parseJointLimits, readOr, readReq, limitElement, XMLElement.Attribute,
    XMLElement.attrs, List.find?_cons, h1, h2, h3, h4]

theorem parseJointSafety_safetyElement (c : Collab D P) (x js : JointSafety D)
    (h1 : c.strToDouble (c.values2str js.k_position) = some js.k_position)
    (h2 : c.strToDouble (c.values2str js.k_velocity) = some js.k_velocity)
    (h3 : c.strToDouble (c.values2str js.soft_lower_limit) = some js.soft_lower_limit)
    (h4 : c.strToDouble (c.values2str js.soft_upper_limit) = some js.soft_upper_limit) :
    parseJointSafety c x (safetyElement c js) = (true, js) := by
  simp [parseJointSafety, readOr, readReq, safetyElement, XMLElement.Attribute,
    XMLElement.attrs, List.find?_cons, h1, h2, h3, h4]

theorem parseJointCalibration_calibrationElement (c : Collab D P) (x jc : JointCalibration D)
    (el : XMLElement) (hel : calibrationElement c jc = some el)
    (h1 : ∀ d, jc.falling = some d → c.strToDouble (c.values2str d) = some d)
    (h2 : ∀ d, jc.rising = some d → c.strToDouble (c.values2str d) = some d) :
    parseJointCalibration c x el = (true, jc) := by
  obtain ⟨rising, falling⟩ := jc
  cases rising with
  | none =>
    cases falling with
    | none => simp [calibrationElement] at hel
    | some f =>
      simp [calibrationElement] at hel
      subst hel
      simp [parseJointCalibration, readPtr, XMLElement.Attribute, XMLElement.attrs,
        List.find?_cons, h1 f rfl]
  | some r =>
    cases falling with
    | none =>
      simp [calibrationElement] at hel
      subst hel
      simp [parseJointCalibration, readPtr, XMLElement.Attribute, XMLElement.attrs,
        List.find?_cons, h2 r rfl]
    | some f =>
      simp [calibrationElement] at hel
      subst hel
      simp [parseJointCalibration, readPtr, XMLElement.Attribute, XMLElement.attrs,
        List.find?_cons, h1 f rfl, h2 r rfl]

theorem parseJointMimic_mimicElement (c : Collab D P) (x jm : JointMimic D)
    (el : XMLElement) (hel : mimicElement c jm = some el)
    (h1 : c.strToDouble (c.values2str jm.offset) = some jm.offset)
    (h2 : c.strToDouble (c.values2str jm.multiplier) = some jm.multiplier) :
    parseJointMimic c x el = (true, jm) := by
  unfold mimicElement at hel
  split at hel
  · cases hel
    simp [parseJointMimic, readOr, XMLElement.Attribute, XMLElement.attrs, List.find?_cons,
      h1, h2]
  · cases hel

theorem calibrationElement_name (c : Collab D P) (jc : JointCalibration D) (el : XMLElement)
    (hel : calibrationElement c jc = some el) : el.Name = "calibration" := by
  unfold calibrationElement at hel
  split at hel
  · cases hel; rfl
  · cases hel

theorem mimicElement_name (c : Collab D P) (jm : JointMimic D) (el : XMLElement)
    (hel : mimicElement c jm = some el) : el.Name = "mimic" := by
  unfold mimicElement at hel
  split at hel
  · cases hel; rfl
  · cases hel

/-- First child by tag in a child list of the shape the encoder emits. -/
theorem find_in_emitted (a p ch : XMLElement) (od ol os oc om : Option XMLElement)
    (ha : a.Name = "axis") (hp : p.Name = "parent") (hch : ch.Name = "child")
    (hd : ∀ x, od = some x → x.Name = "dynamics") (hl : ∀ x, ol = some x → x.Name = "limit")
    (hs : ∀ x, os = some x → x.Name = "safety_controller")
    (hc : ∀ x, oc = some x → x.Name = "calibration") (hm : ∀ x, om = some x → x.Name = "mimic")
    (n : String) (as : List (String × String)) :
    (XMLElement.mk n as ([a, p, ch] ++ od.toList ++ ol.toList ++ os.toList ++ oc.toList ++
        om.toList)).FirstChildElement "origin" = none ∧
    (XMLElement.mk n as ([a, p, ch] ++ od.toList ++ ol.toList ++ os.toList ++ oc.toList ++
        om.toList)).FirstChildElement "axis" = some a ∧
    (XMLElement.mk n as ([a, p, ch] ++ od.toList ++ ol.toList ++ os.toList ++ oc.toList ++
        om.toList)).FirstChildElement "parent" = some p ∧
    (XMLElement.mk n as ([a, p, ch] ++ od.toList ++ ol.toList ++ os.toList ++ oc.toList ++
        om.toList)).FirstChildElement "child" = some ch ∧
    (XMLElement.mk n as ([a, p, ch] ++ od.toList ++ ol.toList ++ os.toList ++ oc.toList ++
        om.toList)).FirstChildElement "dynamics" = od ∧
    (XMLElement.mk n as ([a, p, ch] ++ od.toList ++ ol.toList ++ os.toList ++ oc.toList ++
        om.toList)).FirstChildElement "limit" = ol ∧
    (XMLElement.mk n as ([a, p, ch] ++ od.toList ++ ol.toList ++ os.toList ++ oc.toList ++
        om.toList)).FirstChildElement "safety_controller" = os ∧
    (XMLElement.mk n as ([a, p, ch] ++ od.toList ++ ol.toList ++ os.toList ++ oc.toList ++
        om.toList)).FirstChildElement "calibration" = oc ∧
    (XMLElement.mk n as ([a, p, ch] ++ od.toList ++ ol.toList ++ os.toList ++ oc.toList ++
        om.toList)).FirstChildElement "mimic" = om := by
  rcases od with _ | d <;> rcases ol with _ | l <;> rcases os with _ | s <;>
    rcases oc with _ | k <;> rcases om with _ | m <;>
    simp_all [XMLElement.FirstChildElement, XMLElement.children, List.find?_cons, Option.toList]

theorem numbers_dynamics (j : Joint D P) (jd : JointDynamics D) (h : j.dynamics = some jd)
    (f : D → Prop) (hnum : ∀ d ∈ j.numbers, f d) : f jd.damping ∧ f jd.friction := by
  constructor <;> apply hnum <;> simp [Joint.numbers, h]

theorem numbers_limits (j : Joint D P) (jl : JointLimits D) (h : j.limits = some jl)
    (f : D → Prop) (hnum : ∀ d ∈ j.numbers, f d) :
    f jl.effort ∧ f jl.velocity ∧ f jl.lower ∧ f jl.upper := by
  refine ⟨?_, ?_, ?_, ?_⟩ <;> apply hnum <;> simp [Joint.numbers, h]

theorem numbers_safety (j : Joint D P) (js : JointSafety D) (h : j.safety = some js)
    (f : D → Prop) (hnum : ∀ d ∈ j.numbers, f d) :
    f js.k_position ∧ f js.k_velocity ∧ f js.soft_lower_limit ∧ f js.soft_upper_limit := by
  refine ⟨?_, ?_, ?_, ?_⟩ <;> apply hnum <;> simp [Joint.numbers, h]

theorem numbers_calibration (j : Joint D P) (jc : JointCalibration D)
    (h : j.calibration = some jc) (f : D → Prop) (hnum : ∀ d ∈ j.numbers, f d) :
    (∀ d, jc.falling = some d → f d) ∧ (∀ d, jc.rising = some d → f d) := by
  constructor <;> intro d hd <;> apply hnum <;> simp [Joint.numbers, h, hd]

theorem numbers_mimic (j : Joint D P) (jm : JointMimic D) (h : j.mimic = some jm)
    (f : D → Prop) (hnum : ∀ d ∈ j.numbers, f d) : f jm.offset ∧ f jm.multiplier := by
  constructor <;> apply hnum <;> simp [Joint.numbers, h]

/-- Decoding the element `exportJoint` emits for a joint of one of the six
kinds that has limits when it is revolute or prismatic, provided the numbers it
holds and its axis survive formatting and parsing. -/
theorem parseJoint_exported (c : Collab D P) (j1 j : Joint D P) (sp : String)
    (hsp : spellingOf j.type = some sp)
    (hlim : j.type = JointType.REVOLUTE ∨ j.type = JointType.PRISMATIC → j.limits ≠ none)
    (hnum : ∀ d ∈ j.numbers, c.strToDouble (c.values2str d) = some d)
    (haxis : j.type ≠ JointType.FIXED → j.type ≠ JointType.FLOATING →
      c.vecInit (c.vec2str j.axis) ≠ none) :
    ∃ j', parseJoint c j1 (exportJoint.element c j) = (true, j') ∧
      j'.type = j.type ∧ j'.name = j.name ∧
      j'.parent_link_name = j.parent_link_name ∧ j'.child_link_name = j.child_link_name ∧
      j'.dynamics = j.dynamics ∧ j'.limits = j.limits ∧ j'.safety = j.safety ∧
      j'.calibration = j.calibration.bind
        (fun jc => if jc.falling.isSome ∨ jc.rising.isSome then some jc else none) ∧
      j'.mimic = j.mimic.bind (fun jm => if jm.joint_name ≠ "" then some jm else none) := by
  rw [exportJoint_element_eq c j sp hsp]
  have hname : (XMLElement.mk "joint" [("name", j.name), ("type", sp)]
      (emittedChildren c j)).Attribute "name" = some j.name := by
    simp [XMLElement.Attribute, XMLElement.attrs, List.find?_cons]
  have htype : typeOfAttr (XMLElement.mk "joint" [("name", j.name), ("type", sp)]
      (emittedChildren c j)) = some j.type := by
    cases hty : j.type <;> rw [hty] at hsp <;> simp [spellingOf] at hsp <;> subst hsp <;>
      simp [typeOfAttr, XMLElement.Attribute, XMLElement.attrs, List.find?_cons, typeSpellings,
        List.lookup_cons]
  have hkids := find_in_emitted (axisElement c j.axis)
    (linkElement "parent" j.parent_link_name) (linkElement "child" j.child_link_name)
    (j.dynamics.map (dynamicsElement c)) (j.limits.map (limitElement c))
    (j.safety.map (safetyElement c)) (j.calibration.bind (calibrationElement c))
    (j.mimic.bind (mimicElement c)) rfl rfl rfl
    (by cases j.dynamics <;> simp; rfl)
    (by cases j.limits <;> simp; rfl)
    (by cases j.safety <;> simp; rfl)
    (by
      cases j.calibration with
      | none => simp
      | some jc => intro x hx; exact calibrationElement_name c jc x hx)
    (by
      cases j.mimic with
      | none => simp
      | some jm => intro x hx; exact mimicElement_name c jm x hx)
    "joint" [("name", j.name), ("type", sp)]
  obtain ⟨E, hE⟩ : ∃ E, E = XMLElement.mk "joint" [("name", j.name), ("type", sp)]
      (emittedChildren c j) := ⟨_, rfl⟩
  rw [← hE] at hname htype ⊢
  have ko : E.FirstChildElement "origin" = none := hE ▸ hkids.1
  have ka : E.FirstChildElement "axis" = some (axisElement c j.axis) := hE ▸ hkids.2.1
  have kp : E.FirstChildElement "parent" = some (linkElement "parent" j.parent_link_name) :=
    hE ▸ hkids.2.2.1
  have kc : E.FirstChildElement "child" = some (linkElement "child" j.child_link_name) :=
    hE ▸ hkids.2.2.2.1
  have kd : E.FirstChildElement "dynamics" = j.dynamics.map (dynamicsElement c) :=
    hE ▸ hkids.2.2.2.2.1
  have kl : E.FirstChildElement "limit" = j.limits.map (limitElement c) :=
    hE ▸ hkids.2.2.2.2.2.1
  have ks : E.FirstChildElement "safety_controller" = j.safety.map (safetyElement c) :=
    hE ▸ hkids.2.2.2.2.2.2.1
  have kk : E.FirstChildElement "calibration" = j.calibration.bind (calibrationElement c) :=
    hE ▸ hkids.2.2.2.2.2.2.2.1
  have km : E.FirstChildElement "mimic" = j.mimic.bind (mimicElement c) :=
    hE ▸ hkids.2.2.2.2.2.2.2.2
  clear hkids
  -- the five sub-structures decode back
  have hdyn : ∀ jd, j.dynamics = some jd →
      parseJointDynamics c c.dynamicsClear (dynamicsElement c jd) = (true, jd) := by
    intro jd h
    obtain ⟨h1, h2⟩ := numbers_dynamics j jd h _ hnum
    exact parseJointDynamics_dynamicsElement c _ jd h1 h2
  have hlimits : ∀ jl, j.limits = some jl →
      parseJointLimits c c.limitsClear (limitElement c jl) = (true, jl) := by
    intro jl h
    obtain ⟨h1, h2, h3, h4⟩ := numbers_limits j jl h _ hnum
    exact parseJointLimits_limitElement c _ jl h1 h2 h3 h4
  have hsafety : ∀ js, j.safety = some js →
      parseJointSafety c c.safetyClear (safetyElement c js) = (true, js) := by
    intro js h
    obtain ⟨h1, h2, h3, h4⟩ := numbers_safety j js h _ hnum
    exact parseJointSafety_safetyElement c _ js h1 h2 h3 h4
  have hcal : ∀ jc el, j.calibration = some jc → calibrationElement c jc = some el →
      parseJointCalibration c c.calibrationClear el = (true, jc) := by
    intro jc el h hel
    obtain ⟨h1, h2⟩ := numbers_calibration j jc h _ hnum
    exact parseJointCalibration_calibrationElement c _ jc el hel h1 h2
  have hmim : ∀ jm el, j.mimic = some jm → mimicElement c jm = some el →
      parseJointMimic c c.mimicClear el = (true, jm) := by
    intro jm el h hel
    obtain ⟨h1, h2⟩ := numbers_mimic j jm h _ hnum
    exact parseJointMimic_mimicElement c _ jm el hel h1 h2
  have hvalid : otherwiseValid c j.type E = true := by
    simp only [otherwiseValid, Bool.and_eq_true]
    refine ⟨⟨⟨⟨⟨⟨?_, ?_⟩, ?_⟩, ?_⟩, ?_⟩, ?_⟩, ?_⟩
    · simp [originOk, ko]
    · unfold axisOk
      by_cases hff : j.type = JointType.FLOATING ∨ j.type = JointType.FIXED
      · simp [hff]
      · have hv := haxis (fun h => hff (Or.inr h)) (fun h => hff (Or.inl h))
        have hx : (axisElement c j.axis).Attribute "xyz" = some (c.vec2str j.axis) := by
          simp [axisElement, XMLElement.Attribute, XMLElement.attrs, List.find?_cons]
        simp only [if_neg hff, ka, hx]
        exact Option.isSome_iff_ne_none.2 hv
    · unfold limitOk
      rw [kl]
      cases hl : j.limits with
      | none =>
        have h1 : j.type ≠ JointType.REVOLUTE := fun h => hlim (Or.inl h) hl
        have h2 : j.type ≠ JointType.PRISMATIC := fun h => hlim (Or.inr h) hl
        simp [h1, h2]
      | some jl => simp [hlimits jl hl]
    · unfold safetyOk
      rw [ks]
      cases hs : j.safety with
      | none => simp
      | some js => simp [hsafety js hs]
    · unfold calibrationOk
      rw [kk]
      cases hc : j.calibration with
      | none => simp
      | some jc =>
        cases hel : calibrationElement c jc with
        | none => simp [hel]
        | some el => simp [hel, hcal jc el hc hel]
    · unfold mimicOk
      rw [km]
      cases hm : j.mimic with
      | none => simp
      | some jm =>
        cases hel : mimicElement c jm with
        | none => simp [hel]
        | some el => simp [hel, hmim jm el hm hel]
    · unfold dynamicsOk
      rw [kd]
      cases hd : j.dynamics with
      | none => simp
      | some jd => simp [hdyn jd hd]
  refine ⟨_, (parseJoint_eq_true_iff c j1 _ _).2 ⟨j.name, j.type, hname, htype, hvalid, rfl⟩,
    rfl, rfl, ?_, ?_, ?_, ?_, ?_, ?_, ?_⟩
  · simp [decoded, linkOf, kp, linkElement, XMLElement.Attribute, XMLElement.attrs,
      List.find?_cons]
  · simp [decoded, linkOf, kc, linkElement, XMLElement.Attribute, XMLElement.attrs,
      List.find?_cons]
  · simp only [decoded, dynamicsOf, kd]
    cases hd : j.dynamics with
    | none => simp
    | some jd => simp [hdyn jd hd]
  · simp only [decoded, limitsOf, kl]
    cases hl : j.limits with
    | none => simp
    | some jl => simp [hlimits jl hl]
  · simp only [decoded, safetyOf, ks]
    cases hs : j.safety with
    | none => simp
    | some js => simp [hsafety js hs]
  · simp only [decoded, calibrationOf, kk]
    cases hc : j.calibration with
    | none => simp
    | some jc =>
      cases hel : calibrationElement c jc with
      | none =>
        have hg : ¬ (jc.falling.isSome ∨ jc.rising.isSome) := by
          intro hg
          simp [calibrationElement, hg] at hel
        simp [hel, hg]
      | some el =>
        have hg : jc.falling.isSome ∨ jc.rising.isSome := by
          by_contra hg
          simp [calibrationElement, hg] at hel
        simp [hel, hcal jc el hc hel, hg]
  · simp only [decoded, mimicOf, km]
    cases hm : j.mimic with
    | none => simp
    | some jm =>
      cases hel : mimicElement c jm with
      | none =>
        have hg : jm.joint_name = "" := by
          by_contra hg
          simp [mimicElement, hg] at hel
        simp [hel, hg]
      | some el =>
        have hg : jm.joint_name ≠ "" := by
          intro hg
          simp [mimicElement, hg] at hel
        simp [hel, hmim jm el hm hel, hg]

theorem spellingOf_of_mem (s : String) (ty : JointType) (h : (s, ty) ∈ typeSpellings) :
    spellingOf ty = some s := by
  simp only [typeSpellings, List.mem_cons, Prod.mk.injEq, List.mem_singleton,
    List.mem_nil_iff, or_false] at h
  rcases h with ⟨rfl, rfl⟩ | ⟨rfl, rfl⟩ | ⟨rfl, rfl⟩ | ⟨rfl, rfl⟩ | ⟨rfl, rfl⟩ | ⟨rfl, rfl⟩ <;> rfl

/-- C3 (amended): round trip.  If `parseJoint` succeeds on `X` with joint `j`,
the numbers held by `j` survive formatting and parsing, and (for a type other
than fixed and floating) the formatted axis is accepted by the vector parser,
then `exportJoint` appends one element, `parseJoint` succeeds on it, and the
result has the same type, name, parent and child link names, dynamics, limits
and safety as `j`; its calibration is that of `j` when `j` has a calibration
with `rising` or `falling` set and is unset otherwise, and its mimic is that of
`j` when `j` has a mimic with a non-empty joint name and is unset otherwise. -/
theorem C3_round_trip (c : Collab D P) (j0 j1 j : Joint D P) (X xml : XMLElement)
    (hdec : parseJoint c j0 X = (true, j))
    (hnum : ∀ d ∈ j.numbers, c.strToDouble (c.values2str d) = some d)
    (haxis : j.type ≠ JointType.FIXED → j.type ≠ JointType.FLOATING →
      c.vecInit (c.vec2str j.axis) ≠ none) :
    ∃ el j', exportJoint c j xml = (true, xml.LinkEndChild el) ∧
      parseJoint c j1 el = (true, j') ∧
      j'.type = j.type ∧ j'.name = j.name ∧
      j'.parent_link_name = j.parent_link_name ∧ j'.child_link_name = j.child_link_name ∧
      j'.dynamics = j.dynamics ∧ j'.limits = j.limits ∧ j'.safety = j.safety ∧
      j'.calibration = j.calibration.bind
        (fun jc => if jc.falling.isSome ∨ jc.rising.isSome then some jc else none) ∧
      j'.mimic = j.mimic.bind (fun jm => if jm.joint_name ≠ "" then some jm else none) := by
  obtain ⟨n, ty, _, hty, hv, hj⟩ := (parseJoint_eq_true_iff c j0 j X).1 hdec
  obtain ⟨s, _, hmem⟩ := (typeOfAttr_eq_some_iff X ty).1 hty
  have hjt : j.type = ty := by rw [hj]; rfl
  have hsp : spellingOf j.type = some s := by rw [hjt]; exact spellingOf_of_mem s ty hmem
  have hlim : j.type = JointType.REVOLUTE ∨ j.type = JointType.PRISMATIC → j.limits ≠ none := by
    intro hrp
    simp only [otherwiseValid, Bool.and_eq_true] at hv
    obtain ⟨⟨⟨⟨⟨⟨_, _⟩, hl⟩, _⟩, _⟩, _⟩, _⟩ := hv
    have hjl : j.limits = limitsOf c X := by rw [hj]; rfl
    rw [hjl]
    unfold limitsOf
    unfold limitOk at hl
    cases hf : X.FirstChildElement "limit" with
    | some l => simp
    | none =>
      rw [hf] at hl
      rw [hjt] at hrp
      rcases hrp with h | h <;> simp [h] at hl
  obtain ⟨j', hp, hrest⟩ := parseJoint_exported c j1 j s hsp hlim hnum haxis
  exact ⟨exportJoint.element c j, j', rfl, hp, hrest⟩

/-- Witness for C3 on the element `revoluteFull` (parent, child, limit,
dynamics, calibration with `rising`, mimic of `j0`). -/
theorem C3_round_trip_witness :
    parseJoint Concrete.collab Concrete.joint0 Examples.revoluteFull =
      (true, Examples.jointRevoluteFull) ∧
    ∃ el j', exportJoint Concrete.collab Examples.jointRevoluteFull Examples.robot =
        (true, Examples.robot.LinkEndChild el) ∧
      parseJoint Concrete.collab Concrete.joint0 el = (true, j') ∧
      j'.type = Examples.jointRevoluteFull.type ∧ j'.name = Examples.jointRevoluteFull.name ∧
      j'.parent_link_name = Examples.jointRevoluteFull.parent_link_name ∧
      j'.child_link_name = Examples.jointRevoluteFull.child_link_name ∧
      j'.dynamics = Examples.jointRevoluteFull.dynamics ∧
      j'.limits = Examples.jointRevoluteFull.limits ∧
      j'.safety = Examples.jointRevoluteFull.safety ∧
      j'.calibration = Examples.jointRevoluteFull.calibration.bind
        (fun jc => if jc.falling.isSome ∨ jc.rising.isSome then some jc else none) ∧
      j'.mimic = Examples.jointRevoluteFull.mimic.bind
        (fun jm => if jm.joint_name ≠ "" then some jm else none) :=
  ⟨by decide,
    C3_round_trip Concrete.collab Concrete.joint0 Concrete.joint0 Examples.jointRevoluteFull
      Examples.revoluteFull Examples.robot (by decide) (by decide) (by decide)⟩

/-- C3 as stated fails at
`<joint name="j1" type="fixed"><calibration/><mimic joint=""/></joint>`: the
decode succeeds with a calibration (nothing set) and a mimic (empty joint
name), the numbers involved survive formatting and parsing, `exportJoint` emits
neither a `calibration` nor a `mimic` element, the emitted element decodes, and
in the result calibration and mimic are both unset. -/
theorem C3_round_trip_counterexample :
    parseJoint Concrete.collab Concrete.joint0 Examples.fixedEmptyCalibrationMimic =
      (true, Examples.jointEmptyCalibrationMimic) ∧
    (∀ d ∈ Examples.jointEmptyCalibrationMimic.numbers,
      Concrete.collab.strToDouble (Concrete.collab.values2str d) = some d) ∧
    Examples.jointEmptyCalibrationMimic.calibration = some (JointCalibration.mk none none) ∧
    Examples.jointEmptyCalibrationMimic.mimic = some (JointMimic.mk 0 1 "") ∧
    exportJoint Concrete.collab Examples.jointEmptyCalibrationMimic Examples.robot =
      (true, XMLElement.mk "robot" []
        [XMLElement.mk "joint" [("name", "j1"), ("type", "fixed")]
          [XMLElement.mk "axis" [("xyz", "0 0 0")] [],
           XMLElement.mk "parent" [("link", "")] [],
           XMLElement.mk "child" [("link", "")] []]]) ∧
    (parseJoint Concrete.collab Concrete.joint0
      (exportJoint.element Concrete.collab Examples.jointEmptyCalibrationMimic)).1 = true ∧
    (parseJoint Concrete.collab Concrete.joint0
      (exportJoint.element Concrete.collab Examples.jointEmptyCalibrationMimic)).2.calibration
      ≠ Examples.jointEmptyCalibrationMimic.calibration ∧
    (parseJoint Concrete.collab Concrete.joint0
      (exportJoint.element Concrete.collab Examples.jointEmptyCalibrationMimic)).2.mimic
      ≠ Examples.jointEmptyCalibrationMimic.mimic :=
  ⟨by decide, by decide, by decide, by decide, rfl, by decide, by decide, by decide⟩

end RoundTrip

/-! ## The safety codec, links, origin and the success condition -/

section Success

variable {D P : Type}

/-- The result of `parseJointSafety` in terms of the four attribute reads. -/
theorem parseJointSafety_eq_true_iff (c : Collab D P) (js r : JointSafety D) (e : XMLElement) :
    parseJointSafety c js e = (true, r) ↔
      readOr c e "soft_lower_limit" c.zero = some r.soft_lower_limit ∧
      readOr c e "soft_upper_limit" c.zero = some r.soft_upper_limit ∧
      readOr c e "k_position" c.zero = some r.k_position ∧
      readReq c e "k_velocity" = some r.k_velocity := by
  unfold parseJointSafety
  cases r
  cases readOr c e "soft_lower_limit" c.zero <;> cases readOr c e "soft_upper_limit" c.zero <;>
    cases readOr c e "k_position" c.zero <;> cases readReq c e "k_velocity" <;> simp
  tauto

theorem parseJointSafety_fst_eq_true_iff (c : Collab D P) (js : JointSafety D) (e : XMLElement) :
    (parseJointSafety c js e).1 = true ↔
      (readOr c e "soft_lower_limit" c.zero).isSome ∧
      (readOr c e "soft_upper_limit" c.zero).isSome ∧
      (readOr c e "k_position" c.zero).isSome ∧ (readReq c e "k_velocity").isSome := by
  unfold parseJointSafety
  cases readOr c e "soft_lower_limit" c.zero <;> cases readOr c e "soft_upper_limit" c.zero <;>
    cases readOr c e "k_position" c.zero <;> cases readReq c e "k_velocity" <;> simp

theorem readOr_default (c : Collab D P) (e : XMLElement) (a : String) (dflt v : D)
    (h : readOr c e a dflt = some v) (hn : e.Attribute a = none) : v = dflt := by
  rcases (readOr_eq_some_iff c e a dflt v).1 h with ⟨_, hv⟩ | ⟨s, hs, _⟩
  · exact hv
  · rw [hn] at hs; cases hs

theorem readOr_present (c : Collab D P) (e : XMLElement) (a s : String) (dflt v : D)
    (h : readOr c e a dflt = some v) (hs : e.Attribute a = some s) :
    c.strToDouble s = some v := by
  rcases (readOr_eq_some_iff c e a dflt v).1 h with ⟨hn, _⟩ | ⟨s2, hs2, hv⟩
  · rw [hn] at hs; cases hs
  · rw [hs] at hs2; cases hs2; exact hv

theorem readReq_present (c : Collab D P) (e : XMLElement) (a s : String) (v : D)
    (h : readReq c e a = some v) (hs : e.Attribute a = some s) :
    c.strToDouble s = some v := by
  obtain ⟨s2, hs2, hv⟩ := (readReq_eq_some_iff c e a v).1 h
  rw [hs] at hs2; cases hs2; exact hv

/-- C11: `parseJointSafety` succeeds exactly when `k_velocity` is present and
every present attribute among soft_lower_limit, soft_upper_limit, k_position,
k_velocity parses; on success each absent one of soft_lower_limit,
soft_upper_limit, k_position is 0 and each present attribute gives its parsed
value. -/
theorem C11_safety_decode (c : Collab D P) (js : JointSafety D) (e : XMLElement) :
    ((parseJointSafety c js e).1 = true ↔
      e.Attribute "k_velocity" ≠ none ∧
      ∀ a ∈ ["soft_lower_limit", "soft_upper_limit", "k_position", "k_velocity"],
        ∀ s, e.Attribute a = some s → c.strToDouble s ≠ none) ∧
    ((parseJointSafety c js e).1 = true →
      (e.Attribute "soft_lower_limit" = none →
        (parseJointSafety c js e).2.soft_lower_limit = c.zero) ∧
      (e.Attribute "soft_upper_limit" = none →
        (parseJointSafety c js e).2.soft_upper_limit = c.zero) ∧
      (e.Attribute "k_position" = none → (parseJointSafety c js e).2.k_position = c.zero) ∧
      (∀ s, e.Attribute "soft_lower_limit" = some s →
        c.strToDouble s = some (parseJointSafety c js e).2.soft_lower_limit) ∧
      (∀ s, e.Attribute "soft_upper_limit" = some s →
        c.strToDouble s = some (parseJointSafety c js e).2.soft_upper_limit) ∧
      (∀ s, e.Attribute "k_position" = some s →
        c.strToDouble s = some (parseJointSafety c js e).2.k_position) ∧
      (∀ s, e.Attribute "k_velocity" = some s →
        c.strToDouble s = some (parseJointSafety c js e).2.k_velocity)) := by
  constructor
  · rw [parseJointSafety_fst_eq_true_iff, readOr_isSome_iff, readOr_isSome_iff,
      readOr_isSome_iff, readReq_isSome_iff]
    simp only [List.mem_cons, List.mem_singleton, List.mem_nil_iff, or_false, forall_eq_or_imp,
      forall_eq]
    tauto
  · intro h
    have h2 : parseJointSafety c js e = (true, (parseJointSafety c js e).2) := by
      rw [← h]
    obtain ⟨h1, h2, h3, h4⟩ := (parseJointSafety_eq_true_iff c js _ e).1 h2
    exact ⟨readOr_default c e _ _ _ h1, readOr_default c e _ _ _ h2,
      readOr_default c e _ _ _ h3, fun s hs => readOr_present c e _ s _ _ h1 hs,
      fun s hs => readOr_present c e _ s _ _ h2 hs,
      fun s hs => readOr_present c e _ s _ _ h3 hs,
      fun s hs => readReq_present c e _ s _ h4 hs⟩

/-- Witness for C11 on `<safety_controller k_velocity="2"/>` and
`<safety_controller k_position="1"/>`. -/
theorem C11_safety_decode_witness :
    (parseJointSafety Concrete.collab Concrete.collab.safetyClear Examples.safetyKv2).1 = true ∧
    (parseJointSafety Concrete.collab Concrete.collab.safetyClear
      Examples.safetyKv2).2.k_position = 0 ∧
    Concrete.collab.strToDouble "2" =
      some (parseJointSafety Concrete.collab Concrete.collab.safetyClear
        Examples.safetyKv2).2.k_velocity ∧
    ¬ (parseJointSafety Concrete.collab Concrete.collab.safetyClear
      Examples.safetyNoKv).1 = true :=
  ⟨(C11_safety_decode Concrete.collab Concrete.collab.safetyClear Examples.safetyKv2).1.2
      (by decide),
    ((C11_safety_decode Concrete.collab Concrete.collab.safetyClear Examples.safetyKv2).2
      (by decide)).2.2.1 (by decide),
    ((C11_safety_decode Concrete.collab Concrete.collab.safetyClear Examples.safetyKv2).2
      (by decide)).2.2.2.2.2.2 "2" (by decide),
    fun h => ((C11_safety_decode Concrete.collab Concrete.collab.safetyClear
      Examples.safetyNoKv).1.1 h).1 (by decide)⟩

/-- Dropping children that a predicate rejects does not move the first child
tagged `t`, as long as the predicate keeps every child tagged `t`. -/
theorem find_filter_of_keep (l : List XMLElement) (q : XMLElement → Bool) (t : String)
    (hq : ∀ x : XMLElement, x.Name = t → q x = true) :
    (l.filter q).find? (fun x => x.Name == t) = l.find? (fun x => x.Name == t) := by
  induction l with
  | nil => rfl
  | cons x xs ih =>
    cases hx : q x with
    | true =>
      rw [List.filter_cons, hx]
      simp only [if_true, List.find?_cons]
      rw [ih]
    | false =>
      have hne : (x.Name == t) = false := by
        cases hb : (x.Name == t) with
        | false => rfl
        | true =>
          have := hq x (by simpa using hb)
          rw [hx] at this
          cases this
      rw [List.filter_cons, hx, List.find?_cons, hne]
      simpa using ih

theorem otherwiseValid_congr (c : Collab D P) (ty : JointType) (e e' : XMLElement)
    (h : ∀ t ∈ ["origin", "axis", "limit", "safety_controller", "calibration", "mimic",
      "dynamics"], e'.FirstChildElement t = e.FirstChildElement t) :
    otherwiseValid c ty e' = otherwiseValid c ty e := by
  simp only [otherwiseValid, originOk, axisOk, limitOk, safetyOk, calibrationOk, mimicOk,
    dynamicsOk, h "origin" (by decide), h "axis" (by decide), h "limit" (by decide),
    h "safety_controller" (by decide), h "calibration" (by decide), h "mimic" (by decide),
    h "dynamics" (by decide)]

/-- The flag of `parseJoint` depends only on the `name` and `type` attributes
and on the first child of the seven tags other than `parent` and `child`. -/
theorem parseJoint_fst_congr (c : Collab D P) (j : Joint D P) (e e' : XMLElement)
    (hn : e'.Attribute "name" = e.Attribute "name")
    (ht : e'.Attribute "type" = e.Attribute "type")
    (h : ∀ t ∈ ["origin", "axis", "limit", "safety_controller", "calibration", "mimic",
      "dynamics"], e'.FirstChildElement t = e.FirstChildElement t) :
    (parseJoint c j e').1 = (parseJoint c j e).1 := by
  rw [Bool.eq_iff_iff, parseJoint_fst_eq_true_iff, parseJoint_fst_eq_true_iff]
  have hty : typeOfAttr e' = typeOfAttr e := by simp [typeOfAttr, ht]
  simp only [hn, hty, otherwiseValid_congr c _ e e' h]

/-- C12: parent and child links.  On a successful decode the parent (resp.
child) link name is empty when the `parent` (resp. `child`) child is absent or
has no `link` attribute, and is the text of `link` otherwise.  The flag of
`parseJoint` is the same on any two elements with the same attributes and the
same children apart from `parent` and `child` children, so these children never
cause a failure. -/
theorem C12_parent_child_links (c : Collab D P) (j : Joint D P) :
    (∀ e j', parseJoint c j e = (true, j') →
      (e.FirstChildElement "parent" = none → j'.parent_link_name = "") ∧
      (∀ p, e.FirstChildElement "parent" = some p → p.Attribute "link" = none →
        j'.parent_link_name = "") ∧
      (∀ p l, e.FirstChildElement "parent" = some p → p.Attribute "link" = some l →
        j'.parent_link_name = l) ∧
      (e.FirstChildElement "child" = none → j'.child_link_name = "") ∧
      (∀ p, e.FirstChildElement "child" = some p → p.Attribute "link" = none →
        j'.child_link_name = "") ∧
      (∀ p l, e.FirstChildElement "child" = some p → p.Attribute "link" = some l →
        j'.child_link_name = l)) ∧
    (∀ e e', e'.attrs = e.attrs →
      e'.children.filter (fun x => x.Name != "parent" && x.Name != "child") =
        e.children.filter (fun x => x.Name != "parent" && x.Name != "child") →
      (parseJoint c j e').1 = (parseJoint c j e).1) := by
  constructor
  · intro e j' h
    obtain ⟨n, ty, _, _, _, rfl⟩ := (parseJoint_eq_true_iff c j j' e).1 h
    simp only [decoded, linkOf]
    refine ⟨?_, ?_, ?_, ?_, ?_, ?_⟩
    · intro h1; simp [h1]
    · intro p h1 h2; simp [h1, h2]
    · intro p l h1 h2; simp [h1, h2]
    · intro h1; simp [h1]
    · intro p h1 h2; simp [h1, h2]
    · intro p l h1 h2; simp [h1, h2]
  · intro e e' hattrs hkids
    have hA : ∀ a, e'.Attribute a = e.Attribute a := Attribute_congr e e' hattrs
    apply parseJoint_fst_congr c j e e' (hA "name") (hA "type")
    intro t ht
    unfold XMLElement.FirstChildElement
    have hkeep : ∀ x : XMLElement, x.Name = t →
        (x.Name != "parent" && x.Name != "child") = true := by
      intro x hx
      simp only [List.mem_cons, List.mem_singleton, List.mem_nil_iff, or_false] at ht
      rcases ht with rfl | rfl | rfl | rfl | rfl | rfl | rfl <;> simp [hx]
    rw [← find_filter_of_keep e'.children _ t hkeep, ← find_filter_of_keep e.children _ t hkeep,
      hkids]

/-- Witness for C12 on
`<joint name="j1" type="fixed"><parent/><child link="b"/></joint>`: it decodes
with parent link name empty and child link name `b`, and with the same flag as
`<joint name="j1" type="fixed"/>`. -/
theorem C12_parent_child_links_witness :
    (parseJoint Concrete.collab Concrete.joint0 Examples.fixedParentNoLink).2.parent_link_name
      = "" ∧
    (parseJoint Concrete.collab Concrete.joint0 Examples.fixedParentNoLink).2.child_link_name
      = "b" ∧
    (parseJoint Concrete.collab Concrete.joint0 Examples.fixedParentNoLink).1 =
      (parseJoint Concrete.collab Concrete.joint0 Examples.fixedBare).1 :=
  ⟨((C12_parent_child_links Concrete.collab Concrete.joint0).1 Examples.fixedParentNoLink
      (parseJoint Concrete.collab Concrete.joint0 Examples.fixedParentNoLink).2
      (by decide)).2.1 (XMLElement.mk "parent" [] []) rfl (by decide),
    ((C12_parent_child_links Concrete.collab Concrete.joint0).1 Examples.fixedParentNoLink
      (parseJoint Concrete.collab Concrete.joint0 Examples.fixedParentNoLink).2
      (by decide)).2.2.2.2.2 (XMLElement.mk "child" [("link", "b")] []) "b" rfl (by decide),
    (C12_parent_child_links Concrete.collab Concrete.joint0).2 Examples.fixedBare
      Examples.fixedParentNoLink rfl rfl⟩

theorem originOk_iff (c : Collab D P) (e : XMLElement) :
    originOk c e = true ↔
      ∀ o, e.FirstChildElement "origin" = some o →
        (c.parsePoseInternal c.poseClear o).1 = true := by
  unfold originOk
  cases e.FirstChildElement "origin" <;> simp

theorem axisOk_iff (c : Collab D P) (ty : JointType) (e : XMLElement) :
    axisOk c ty e = true ↔
      (ty ≠ JointType.FIXED → ty ≠ JointType.FLOATING →
        ∀ a t, e.FirstChildElement "axis" = some a → a.Attribute "xyz" = some t →
          c.vecInit t ≠ none) := by
  unfold axisOk
  by_cases hff : ty = JointType.FLOATING ∨ ty = JointType.FIXED
  · rw [if_pos hff]
    simp only [true_iff]
    intro h1 h2
    rcases hff with h | h
    · exact absurd h h2
    · exact absurd h h1
  · rw [if_neg hff]
    have h1 : ty ≠ JointType.FIXED := fun h => hff (Or.inr h)
    have h2 : ty ≠ JointType.FLOATING := fun h => hff (Or.inl h)
    cases e.FirstChildElement "axis" with
    | none => simp
    | some a =>
      dsimp only
      cases hx : a.Attribute "xyz" with
      | none =>
        simp only [true_iff]
        intro _ _ a2 t ha ht
        cases ha
        rw [hx] at ht
        cases ht
      | some t =>
        simp only [Option.isSome_iff_ne_none]
        constructor
        · intro hv _ _ a2 t2 ha ht
          cases ha
          rw [hx] at ht
          cases ht
          exact hv
        · intro h
          exact h h1 h2 a t rfl hx

theorem limitOk_iff (c : Collab D P) (ty : JointType) (e : XMLElement) :
    limitOk c ty e = true ↔
      (∀ l, e.FirstChildElement "limit" = some l →
        (parseJointLimits c c.limitsClear l).1 = true) ∧
      (ty = JointType.REVOLUTE ∨ ty = JointType.PRISMATIC →
        e.FirstChildElement "limit" ≠ none) := by
  unfold limitOk
  cases e.FirstChildElement "limit" with
  | none => simp
  | some l => simp

theorem safetyOk_iff (c : Collab D P) (e : XMLElement) :
    safetyOk c e = true ↔
      ∀ x, e.FirstChildElement "safety_controller" = some x →
        (parseJointSafety c c.safetyClear x).1 = true := by
  unfold safetyOk
  cases e.FirstChildElement "safety_controller" <;> simp

theorem calibrationOk_iff (c : Collab D P) (e : XMLElement) :
    calibrationOk c e = true ↔
      ∀ x, e.FirstChildElement "calibration" = some x →
        (parseJointCalibration c c.calibrationClear x).1 = true := by
  unfold calibrationOk
  cases e.FirstChildElement "calibration" <;> simp

theorem mimicOk_iff (c : Collab D P) (e : XMLElement) :
    mimicOk c e = true ↔
      ∀ x, e.FirstChildElement "mimic" = some x →
        (parseJointMimic c c.mimicClear x).1 = true := by
  unfold mimicOk
  cases e.FirstChildElement "mimic" <;> simp

theorem dynamicsOk_iff (c : Collab D P) (e : XMLElement) :
    dynamicsOk c e = true ↔
      ∀ x, e.FirstChildElement "dynamics" = some x →
        (parseJointDynamics c c.dynamicsClear x).1 = true := by
  unfold dynamicsOk
  cases e.FirstChildElement "dynamics" <;> simp

/-- C13: the complete success condition of `parseJoint`.  The decode succeeds
exactly when (1) `name` is present, (2) the `origin` child is absent or the pose
parser accepts it, (3) `type` is one of the six spellings, (4) for a type other
than fixed and floating an `axis` child with `xyz` holds text the vector parser
accepts, (5) the `limit` child decodes if present and is present for revolute
and prismatic, (6) each of `safety_controller`, `calibration`, `mimic`,
`dynamics` that is present decodes.  On success each of these four is unset
when its child is absent and holds the decoded record when it is present. -/
theorem C13_success_condition (c : Collab D P) (j : Joint D P) (e : XMLElement) :
    ((parseJoint c j e).1 = true ↔
      e.Attribute "name" ≠ none ∧
      (∀ o, e.FirstChildElement "origin" = some o →
        (c.parsePoseInternal c.poseClear o).1 = true) ∧
      (∃ s ty, e.Attribute "type" = some s ∧ (s, ty) ∈ typeSpellings ∧
        (ty ≠ JointType.FIXED → ty ≠ JointType.FLOATING →
          ∀ a t, e.FirstChildElement "axis" = some a → a.Attribute "xyz" = some t →
            c.vecInit t ≠ none) ∧
        (∀ l, e.FirstChildElement "limit" = some l →
          (parseJointLimits c c.limitsClear l).1 = true) ∧
        (ty = JointType.REVOLUTE ∨ ty = JointType.PRISMATIC →
          e.FirstChildElement "limit" ≠ none)) ∧
      (∀ x, e.FirstChildElement "safety_controller" = some x →
        (parseJointSafety c c.safetyClear x).1 = true) ∧
      (∀ x, e.FirstChildElement "calibration" = some x →
        (parseJointCalibration c c.calibrationClear x).1 = true) ∧
      (∀ x, e.FirstChildElement "mimic" = some x →
        (parseJointMimic c c.mimicClear x).1 = true) ∧
      (∀ x, e.FirstChildElement "dynamics" = some x →
        (parseJointDynamics c c.dynamicsClear x).1 = true)) ∧
    ((parseJoint c j e).1 = true →
      (e.FirstChildElement "safety_controller" = none → (parseJoint c j e).2.safety = none) ∧
      (e.FirstChildElement "calibration" = none → (parseJoint c j e).2.calibration = none) ∧
      (e.FirstChildElement "mimic" = none → (parseJoint c j e).2.mimic = none) ∧
      (e.FirstChildElement "dynamics" = none → (parseJoint c j e).2.dynamics = none) ∧
      (∀ x, e.FirstChildElement "safety_controller" = some x →
        (parseJoint c j e).2.safety = some (parseJointSafety c c.safetyClear x).2) ∧
      (∀ x, e.FirstChildElement "calibration" = some x →
        (parseJoint c j e).2.calibration =
          some (parseJointCalibration c c.calibrationClear x).2) ∧
      (∀ x, e.FirstChildElement "mimic" = some x →
        (parseJoint c j e).2.mimic = some (parseJointMimic c c.mimicClear x).2) ∧
      (∀ x, e.FirstChildElement "dynamics" = some x →
        (parseJoint c j e).2.dynamics = some (parseJointDynamics c c.dynamicsClear x).2)) := by
  constructor
  · rw [parseJoint_fst_eq_true_iff]
    constructor
    · rintro ⟨n, ty, hn, hty, hv⟩
      obtain ⟨s, hs, hmem⟩ := (typeOfAttr_eq_some_iff e ty).1 hty
      simp only [otherwiseValid, Bool.and_eq_true] at hv
      obtain ⟨⟨⟨⟨⟨⟨ho, ha⟩, hl⟩, hsf⟩, hk⟩, hm⟩, hd⟩ := hv
      refine ⟨by rw [hn]; simp, (originOk_iff c e).1 ho,
        ⟨s, ty, hs, hmem, (axisOk_iff c ty e).1 ha, ((limitOk_iff c ty e).1 hl).1,
          ((limitOk_iff c ty e).1 hl).2⟩,
        (safetyOk_iff c e).1 hsf, (calibrationOk_iff c e).1 hk, (mimicOk_iff c e).1 hm,
        (dynamicsOk_iff c e).1 hd⟩
    · rintro ⟨hn, ho, ⟨s, ty, hs, hmem, ha, hl1, hl2⟩, hsf, hk, hm, hd⟩
      obtain ⟨n, hn⟩ := Option.ne_none_iff_exists'.1 hn
      refine ⟨n, ty, hn, (typeOfAttr_eq_some_iff e ty).2 ⟨s, hs, hmem⟩, ?_⟩
      exact otherwiseValid_of_parts c ty e ((originOk_iff c e).2 ho) ((axisOk_iff c ty e).2 ha)
        ((limitOk_iff c ty e).2 ⟨hl1, hl2⟩) ((safetyOk_iff c e).2 hsf)
        ((calibrationOk_iff c e).2 hk) ((mimicOk_iff c e).2 hm) ((dynamicsOk_iff c e).2 hd)
  · intro h
    have h2 : parseJoint c j e = (true, (parseJoint c j e).2) := by
      rw [← h]
    obtain ⟨n, ty, _, _, _, hj⟩ := (parseJoint_eq_true_iff c j _ e).1 h2
    rw [hj]
    simp only [decoded, safetyOf, calibrationOf, mimicOf, dynamicsOf]
    refine ⟨?_, ?_, ?_, ?_, ?_, ?_, ?_, ?_⟩ <;> intros <;> simp [*]

/-- Witness for C13: `<joint name="j1" type="revolute"><limit .../></joint>`
meets the condition and decodes, with the four other sub-structures unset;
`<joint name="j1" type="fixed"><dynamics/></joint>` does not decode. -/
theorem C13_success_condition_witness :
    (parseJoint Concrete.collab Concrete.joint0 Examples.revoluteWithLimit).1 = true ∧
    (parseJoint Concrete.collab Concrete.joint0 Examples.revoluteWithLimit).2.safety = none ∧
    ¬ (parseJoint Concrete.collab Concrete.joint0 Examples.fixedEmptyDynamics).1 = true :=
  ⟨(C13_success_condition Concrete.collab Concrete.joint0 Examples.revoluteWithLimit).1.2
      ⟨by decide, by decide,
        ⟨"revolute", JointType.REVOLUTE, by decide, by decide,
          fun _ _ a _ ha => Option.noConfusion (show (none : Option XMLElement) = some a from ha),
          by decide,
          fun _ h => Option.noConfusion (show some Examples.limit0_1_10_2 = none from h)⟩,
        by decide, by decide, by decide, by decide⟩,
    ((C13_success_condition Concrete.collab Concrete.joint0 Examples.revoluteWithLimit).2
      (by decide)).1 rfl,
    fun h => absurd
      (((C13_success_condition Concrete.collab Concrete.joint0
        Examples.fixedEmptyDynamics).1.1 h).2.2.2.2.2.2 Examples.dynamicsEmpty rfl)
      (by decide)⟩

/-- C15: the origin.  On a successful decode the origin transform is the
cleared (identity) pose when there is no `origin` child, and is what the pose
parser returned, having accepted the child, when there is one.  When the `name`
attribute is present and the pose parser rejects the `origin` child,
`parseJoint` returns `false` at once: the joint on return is the cleared joint
with only the name set, so the origin is the cleared pose and the type is still
`UNKNOWN`, whatever the `type` attribute is. -/
theorem C15_origin (c : Collab D P) (j : Joint D P) (e : XMLElement) :
    (∀ j', parseJoint c j e = (true, j') →
      (e.FirstChildElement "origin" = none →
        j'.parent_to_joint_origin_transform = c.poseClear) ∧
      (∀ o, e.FirstChildElement "origin" = some o →
        (c.parsePoseInternal c.poseClear o).1 = true ∧
        j'.parent_to_joint_origin_transform = (c.parsePoseInternal c.poseClear o).2)) ∧
    (∀ n o, e.Attribute "name" = some n → e.FirstChildElement "origin" = some o →
      (c.parsePoseInternal c.poseClear o).1 = false →
      parseJoint c j e = (false, { Joint.clear c j with name := n })) := by
  constructor
  · intro j' h
    obtain ⟨n, ty, _, _, hv, rfl⟩ := (parseJoint_eq_true_iff c j j' e).1 h
    simp only [otherwiseValid, Bool.and_eq_true] at hv
    obtain ⟨⟨⟨⟨⟨⟨ho, _⟩, _⟩, _⟩, _⟩, _⟩, _⟩ := hv
    simp only [decoded, originOf]
    constructor
    · intro h1; simp [h1]
    · intro o h1
      exact ⟨(originOk_iff c e).1 ho o h1, by simp [h1]⟩
  · intro n o hn ho hfail
    simp [parseJoint, andThen, parseJoint.getName, hn, parseJoint.getOrigin, ho, hfail,
      Joint.clear]

/-- Witness for C15: `<joint name="j1" type="fixed"><origin xyz="1 2 3"/></joint>`
decodes with position (1,2,3); with `xyz="up"` the decode fails and leaves the
cleared joint with the name set. -/
theorem C15_origin_witness :
    ((Concrete.collab.parsePoseInternal Concrete.collab.poseClear
        (XMLElement.mk "origin" [("xyz", "1 2 3")] [])).1 = true ∧
      (parseJoint Concrete.collab Concrete.joint0
          Examples.fixedWithOrigin).2.parent_to_joint_origin_transform =
        (Concrete.collab.parsePoseInternal Concrete.collab.poseClear
          (XMLElement.mk "origin" [("xyz", "1 2 3")] [])).2) ∧
    parseJoint Concrete.collab Concrete.joint0 Examples.fixedBadOrigin =
      (false, { Joint.clear Concrete.collab Concrete.joint0 with name := "j1" }) :=
  ⟨((C15_origin Concrete.collab Concrete.joint0 Examples.fixedWithOrigin).1
      (parseJoint Concrete.collab Concrete.joint0 Examples.fixedWithOrigin).2 (by decide)).2
      (XMLElement.mk "origin" [("xyz", "1 2 3")] []) rfl,
    (C15_origin Concrete.collab Concrete.joint0 Examples.fixedBadOrigin).2 "j1"
      (XMLElement.mk "origin" [("xyz", "up")] []) (by decide) rfl (by decide)⟩

end Success

/-! ## The joint on return, on every path -/

section Outcome

variable {D P : Type}

theorem andThen_true {σ : Type} (s : σ) (f : σ → Bool × σ) : andThen (true, s) f = f s := rfl

theorem andThen_false {σ : Type} (s : σ) (f : σ → Bool × σ) :
    andThen (false, s) f = (false, s) := rfl

theorem getOrigin_eq (c : Collab D P) (j : Joint D P) (e : XMLElement)
    (hj : j.parent_to_joint_origin_transform = c.poseClear) :
    parseJoint.getOrigin c j e =
      if originOk c e = true then
        (true, { j with parent_to_joint_origin_transform := originOf c e })
      else (false, j) := by
  cases j
  simp only at hj
  subst hj
  unfold parseJoint.getOrigin originOk originOf
  cases e.FirstChildElement "origin" with
  | none => simp
  | some o =>
    dsimp only
    cases h : (c.parsePoseInternal c.poseClear o).1 <;> simp [h]

theorem getParent_eq (j : Joint D P) (e : XMLElement) (hj : j.parent_link_name = "") :
    parseJoint.getParent j e = (true, { j with parent_link_name := linkOf e "parent" }) :=
  (getParent_eq_true_iff j _ e hj).2 rfl

theorem getChild_eq (j : Joint D P) (e : XMLElement) (hj : j.child_link_name = "") :
    parseJoint.getChild j e = (true, { j with child_link_name := linkOf e "child" }) :=
  (getChild_eq_true_iff j _ e hj).2 rfl

theorem getType_eq (j : Joint D P) (e : XMLElement) :
    parseJoint.getType j e =
      match typeOfAttr e with
      | some ty => (true, { j with type := ty })
      | none => (false, j) := by
  cases hty : typeOfAttr e with
  | some ty => exact (getType_eq_true_iff j _ e).2 ⟨ty, hty, rfl⟩
  | none =>
    dsimp only
    unfold parseJoint.getType
    cases ht : e.Attribute "type" with
    | none => rfl
    | some t =>
      have hl : typeSpellings.lookup t = none := by simpa [typeOfAttr, ht] using hty
      have hne : ∀ ty, (t, ty) ∉ typeSpellings := by
        intro ty hm
        rw [← lookup_typeSpellings_eq_some_iff, hl] at hm
        cases hm
      have h1 : t ≠ "planar" := fun h => hne JointType.PLANAR (by simp [h, typeSpellings])
      have h2 : t ≠ "floating" := fun h => hne JointType.FLOATING (by simp [h, typeSpellings])
      have h3 : t ≠ "revolute" := fun h => hne JointType.REVOLUTE (by simp [h, typeSpellings])
      have h4 : t ≠ "continuous" :=
        fun h => hne JointType.CONTINUOUS (by simp [h, typeSpellings])
      have h5 : t ≠ "prismatic" := fun h => hne JointType.PRISMATIC (by simp [h, typeSpellings])
      have h6 : t ≠ "fixed" := fun h => hne JointType.FIXED (by simp [h, typeSpellings])
      simp [h1, h2, h3, h4, h5, h6]

theorem getAxis_eq (c : Collab D P) (j : Joint D P) (e : XMLElement)
    (hj : j.axis = c.vecClear) :
    parseJoint.getAxis c j e =
      if axisOk c j.type e = true then (true, { j with axis := axisOf c j.type e })
      else (false, j) := by
  cases hb : axisOk c j.type e with
  | true => exact (getAxis_eq_true_iff c j _ e hj).2 ⟨hb, rfl⟩
  | false =>
    cases j
    simp only at hj hb
    subst hj
    unfold axisOk at hb
    unfold parseJoint.getAxis
    dsimp only
    rename_i ty _ _ _ _ _ _ _ _
    by_cases ht : ty = JointType.FLOATING ∨ ty = JointType.FIXED
    · simp [ht] at hb
    · have ht2 : ty ≠ JointType.FLOATING ∧ ty ≠ JointType.FIXED := by tauto
      rw [if_neg ht] at hb
      rw [if_pos ht2]
      cases ha : e.FirstChildElement "axis" with
      | none => simp [ha] at hb
      | some a =>
        rw [ha] at hb
        dsimp only at hb ⊢
        cases hx : a.Attribute "xyz" with
        | none => simp [hx] at hb
        | some t =>
          rw [hx] at hb
          dsimp only at hb ⊢
          cases hv : c.vecInit t with
          | none => simp
          | some v => simp [hv] at hb

theorem getLimit_eq (c : Collab D P) (j : Joint D P) (e : XMLElement) (hj : j.limits = none) :
    parseJoint.getLimit c j e =
      if limitOk c j.type e = true then (true, { j with limits := limitsOf c e })
      else (false, j) := by
  cases hb : limitOk c j.type e with
  | true => exact (getLimit_eq_true_iff c j _ e hj).2 ⟨hb, rfl⟩
  | false =>
    cases j
    simp only at hj hb
    subst hj
    unfold limitOk at hb
    unfold parseJoint.getLimit
    dsimp only
    cases hl : e.FirstChildElement "limit" with
    | none =>
      rw [hl] at hb
      dsimp only at hb ⊢
      rename_i ty _ _ _ _ _ _ _ _
      by_cases h1 : ty = JointType.REVOLUTE
      · simp [h1]
      · by_cases h2 : ty = JointType.PRISMATIC
        · simp [h2]
        · simp [h1, h2] at hb
    | some l =>
      rw [hl] at hb
      dsimp only at hb ⊢
      simp [hb]

theorem getSafety_eq (c : Collab D P) (j : Joint D P) (e : XMLElement) (hj : j.safety = none) :
    parseJoint.getSafety c j e =
      if safetyOk c e = true then (true, { j with safety := safetyOf c e })
      else (false, j) := by
  cases hb : safetyOk c e with
  | true => exact (getSafety_eq_true_iff c j _ e hj).2 ⟨hb, rfl⟩
  | false =>
    cases j
    simp only at hj
    subst hj
    unfold safetyOk at hb
    unfold parseJoint.getSafety
    cases hl : e.FirstChildElement "safety_controller" with
    | none => simp [hl] at hb
    | some l =>
      rw [hl] at hb
      dsimp only at hb ⊢
      simp [hb]

theorem getCalibration_eq (c : Collab D P) (j : Joint D P) (e : XMLElement)
    (hj : j.calibration = none) :
    parseJoint.getCalibration c j e =
      if calibrationOk c e = true then (true, { j with calibration := calibrationOf c e })
      else (false, j) := by
  cases hb : calibrationOk c e with
  | true => exact (getCalibration_eq_true_iff c j _ e hj).2 ⟨hb, rfl⟩
  | false =>
    cases j
    simp only at hj
    subst hj
    unfold calibrationOk at hb
    unfold parseJoint.getCalibration
    cases hl : e.FirstChildElement "calibration" with
    | none => simp [hl] at hb
    | some l =>
      rw [hl] at hb
      dsimp only at hb ⊢
      simp [hb]

theorem getMimic_eq (c : Collab D P) (j : Joint D P) (e : XMLElement) (hj : j.mimic = none) :
    parseJoint.getMimic c j e =
      if mimicOk c e = true then (true, { j with mimic := mimicOf c e })
      else (false, j) := by
  cases hb : mimicOk c e with
  | true => exact (getMimic_eq_true_iff c j _ e hj).2 ⟨hb, rfl⟩
  | false =>
    cases j
    simp only at hj
    subst hj
    unfold mimicOk at hb
    unfold parseJoint.getMimic
    cases hl : e.FirstChildElement "mimic" with
    | none => simp [hl] at hb
    | some l =>
      rw [hl] at hb
      dsimp only at hb ⊢
      simp [hb]

theorem getDynamics_eq (c : Collab D P) (j : Joint D P) (e : XMLElement)
    (hj : j.dynamics = none) :
    parseJoint.getDynamics c j e =
      if dynamicsOk c e = true then (true, { j with dynamics := dynamicsOf c e })
      else (false, j) := by
  cases hb : dynamicsOk c e with
  | true => exact (getDynamics_eq_true_iff c j _ e hj).2 ⟨hb, rfl⟩
  | false =>
    cases j
    simp only at hj
    subst hj
    unfold dynamicsOk at hb
    unfold parseJoint.getDynamics
    cases hl : e.FirstChildElement "dynamics" with
    | none => simp [hl] at hb
    | some l =>
      rw [hl] at hb
      dsimp only at hb ⊢
      simp [hb]

/-- `parseJoint` returns what the closed form says, on every path. -/
theorem parseJoint_eq_outcome (c : Collab D P) (j : Joint D P) (e : XMLElement) :
    parseJoint c j e = parseJointOutcome c j e := by
  unfold parseJoint parseJointOutcome
  cases hn : e.Attribute "name" with
  | none => simp [parseJoint.getName, hn, andThen]
  | some n =>
    have h1 : parseJoint.getName (Joint.clear c j) e = (true, { Joint.clear c j with name := n }) :=
      (getName_eq_true_iff _ _ e).2 ⟨n, hn, rfl⟩
    rw [h1, andThen_true, getOrigin_eq c _ e rfl]
    cases ho : originOk c e with
    | false => simp [andThen]
    | true =>
      simp only [if_true, andThen_true]
      rw [getParent_eq _ e rfl, andThen_true, getChild_eq _ e rfl, andThen_true, getType_eq]
      cases hty : typeOfAttr e with
      | none => simp [andThen]
      | some ty =>
        simp only [andThen_true]
        rw [getAxis_eq c _ e rfl]
        cases ha : axisOk c ty e with
        | false => simp [andThen, ha]
        | true =>
          simp only [ha, if_true, andThen_true]
          rw [getLimit_eq c _ e rfl]
          cases hl : limitOk c ty e with
          | false => simp [andThen, hl]
          | true =>
            simp only [hl, if_true, andThen_true]
            rw [getSafety_eq c _ e rfl]
            cases hs : safetyOk c e with
            | false => simp [andThen]
            | true =>
              simp only [if_true, andThen_true]
              rw [getCalibration_eq c _ e rfl]
              cases hk : calibrationOk c e with
              | false => simp [andThen]
              | true =>
                simp only [if_true, andThen_true]
                rw [getMimic_eq c _ e rfl]
                cases hm : mimicOk c e with
                | false => simp [andThen]
                | true =>
                  simp only [if_true, andThen_true]
                  rw [getDynamics_eq c _ e rfl]
                  cases hd : dynamicsOk c e <;> simp

theorem linkOf_of_link (e p : XMLElement) (tag l : String)
    (h1 : e.FirstChildElement tag = some p) (h2 : p.Attribute "link" = some l) :
    linkOf e tag = l := by
  simp [linkOf, h1, h2]

theorem typeOfAttr_of_spelling (e : XMLElement) (s : String) (ty : JointType)
    (hs : e.Attribute "type" = some s) (hmem : (s, ty) ∈ typeSpellings) :
    typeOfAttr e = some ty :=
  (typeOfAttr_eq_some_iff e ty).2 ⟨s, hs, hmem⟩

theorem outcome_early_fields (c : Collab D P) (j : Joint D P) (e : XMLElement) (n : String)
    (hn : e.Attribute "name" = some n) (hok : originOk c e = true) :
    (parseJointOutcome c j e).2.name = n ∧
    (parseJointOutcome c j e).2.parent_link_name = linkOf e "parent" ∧
    (parseJointOutcome c j e).2.child_link_name = linkOf e "child" ∧
    (∀ ty, typeOfAttr e = some ty → (parseJointOutcome c j e).2.type = ty) := by
  unfold parseJointOutcome
  simp only [hn, hok]
  cases hty : typeOfAttr e with
  | none => simp
  | some ty =>
    dsimp only
    cases ha : axisOk c ty e <;> cases hl : limitOk c ty e <;> cases hs : safetyOk c e <;>
      cases hk : calibrationOk c e <;> cases hm : mimicOk c e <;>
      cases hd : dynamicsOk c e <;> simp

/-- C16: no rollback on failure.  Let the `name` attribute be present and the
origin block pass, so that any failure is at a later block.  Whatever flag
`parseJoint` returns, and so whichever of the type, axis, limit, safety,
calibration, mimic and dynamics blocks returns `false`, the joint on return
holds the name, the parent and child link names read from present `link`
attributes, and, when the `type` attribute is one of the six spellings, the
resolved type.  In particular: if the `type` attribute is absent or is none of
the six spellings, `parseJoint` returns `false` with the name and link names
populated; if the type is revolute or prismatic, the axis block passes and
there is no `limit` child, `parseJoint` returns `false` with the name, the link
names and the type populated. -/
theorem C16_no_rollback (c : Collab D P) (j : Joint D P) (e : XMLElement) (n : String)
    (hn : e.Attribute "name" = some n)
    (ho : ∀ o, e.FirstChildElement "origin" = some o →
      (c.parsePoseInternal c.poseClear o).1 = true) :
    (∀ flag j', parseJoint c j e = (flag, j') →
      j'.name = n ∧
      (∀ p l, e.FirstChildElement "parent" = some p → p.Attribute "link" = some l →
        j'.parent_link_name = l) ∧
      (∀ p l, e.FirstChildElement "child" = some p → p.Attribute "link" = some l →
        j'.child_link_name = l) ∧
      (∀ s ty, e.Attribute "type" = some s → (s, ty) ∈ typeSpellings → j'.type = ty)) ∧
    ((e.Attribute "type" = none ∨
        ∃ s, e.Attribute "type" = some s ∧ s ∉ typeSpellings.map Prod.fst) →
      (parseJoint c j e).1 = false ∧ (parseJoint c j e).2.name = n ∧
      (∀ p l, e.FirstChildElement "parent" = some p → p.Attribute "link" = some l →
        (parseJoint c j e).2.parent_link_name = l) ∧
      (∀ p l, e.FirstChildElement "child" = some p → p.Attribute "link" = some l →
        (parseJoint c j e).2.child_link_name = l)) ∧
    (∀ s ty, e.Attribute "type" = some s →
      (s, ty) ∈ [("revolute", JointType.REVOLUTE), ("prismatic", JointType.PRISMATIC)] →
      (∀ a t, e.FirstChildElement "axis" = some a → a.Attribute "xyz" = some t →
        c.vecInit t ≠ none) →
      e.FirstChildElement "limit" = none →
      (parseJoint c j e).1 = false ∧ (parseJoint c j e).2.name = n ∧
      (parseJoint c j e).2.type = ty ∧
      (∀ p l, e.FirstChildElement "parent" = some p → p.Attribute "link" = some l →
        (parseJoint c j e).2.parent_link_name = l) ∧
      (∀ p l, e.FirstChildElement "child" = some p → p.Attribute "link" = some l →
        (parseJoint c j e).2.child_link_name = l)) := by
  have hok : originOk c e = true := (originOk_iff c e).2 ho
  refine ⟨?_, ?_, ?_⟩
  · intro flag j' h
    obtain ⟨h1, h2, h3, h4⟩ := outcome_early_fields c j e n hn hok
    rw [← parseJoint_eq_outcome, h] at h1 h2 h3 h4
    refine ⟨h1, ?_, ?_, ?_⟩
    · intro p l hp hl
      rw [h2, linkOf_of_link e p "parent" l hp hl]
    · intro p l hp hl
      rw [h3, linkOf_of_link e p "child" l hp hl]
    · intro s ty hs hmem
      exact h4 ty (typeOfAttr_of_spelling e s ty hs hmem)
  · intro hty
    have hnone : typeOfAttr e = none := by
      rcases hty with h | ⟨s, hs, hnot⟩
      · exact typeOfAttr_eq_none_of_absent e h
      · exact typeOfAttr_eq_none_of_other e s hs hnot
    rw [parseJoint_eq_outcome]
    simp only [parseJointOutcome, hn, hok, hnone]
    refine ⟨by simp, by simp, ?_, ?_⟩
    · intro p l h1 h2
      simp [linkOf_of_link e p "parent" l h1 h2]
    · intro p l h1 h2
      simp [linkOf_of_link e p "child" l h1 h2]
  · intro s ty hs hmem hax hlim
    have hmem2 : (s, ty) ∈ typeSpellings := by
      simp only [List.mem_cons, Prod.mk.injEq, List.mem_singleton, List.mem_nil_iff,
        or_false] at hmem
      rcases hmem with ⟨rfl, rfl⟩ | ⟨rfl, rfl⟩ <;> simp [typeSpellings]
    have hty : typeOfAttr e = some ty := typeOfAttr_of_spelling e s ty hs hmem2
    have haok : axisOk c ty e = true := (axisOk_iff c ty e).2 (fun _ _ => hax)
    have hlok : limitOk c ty e = false := by
      simp only [List.mem_cons, Prod.mk.injEq, List.mem_singleton, List.mem_nil_iff,
        or_false] at hmem
      rcases hmem with ⟨_, rfl⟩ | ⟨_, rfl⟩ <;> simp [limitOk, hlim]
    rw [parseJoint_eq_outcome]
    simp only [parseJointOutcome, hn, hok, hty, haok, hlok]
    refine ⟨by simp, by simp, by simp, ?_, ?_⟩
    · intro p l h1 h2
      simp [linkOf_of_link e p "parent" l h1 h2]
    · intro p l h1 h2
      simp [linkOf_of_link e p "child" l h1 h2]

/-- Witness for C16.  `<joint name="j1" type="fixed"><parent link="a"/>
<child link="b"/><dynamics/></joint>` fails at the dynamics block and
`<joint name="j1" type="continuous"><parent link="a"/><child link="b"/>
<axis xyz="up"/></joint>` at the axis block;
`<joint name="j1"><parent link="a"/><child link="b"/></joint>` fails for lack of
a type and the same element with `type="revolute"` for lack of a limit.  In all
four the joint on return has name `j1`, parent link `a` and child link `b`. -/
theorem C16_no_rollback_witness :
    ((parseJoint Concrete.collab Concrete.joint0 Examples.fixedLinksBadDynamics).1 = false ∧
      (parseJoint Concrete.collab Concrete.joint0 Examples.fixedLinksBadDynamics).2.name
        = "j1" ∧
      (parseJoint Concrete.collab Concrete.joint0
        Examples.fixedLinksBadDynamics).2.parent_link_name = "a" ∧
      (parseJoint Concrete.collab Concrete.joint0
        Examples.fixedLinksBadDynamics).2.child_link_name = "b" ∧
      (parseJoint Concrete.collab Concrete.joint0 Examples.fixedLinksBadDynamics).2.type
        = JointType.FIXED) ∧
    ((parseJoint Concrete.collab Concrete.joint0 Examples.continuousLinksBadAxis).1 = false ∧
      (parseJoint Concrete.collab Concrete.joint0 Examples.continuousLinksBadAxis).2.name
        = "j1" ∧
      (parseJoint Concrete.collab Concrete.joint0
        Examples.continuousLinksBadAxis).2.parent_link_name = "a" ∧
      (parseJoint Concrete.collab Concrete.joint0
        Examples.continuousLinksBadAxis).2.child_link_name = "b" ∧
      (parseJoint Concrete.collab Concrete.joint0 Examples.continuousLinksBadAxis).2.type
        = JointType.CONTINUOUS) ∧
    ((parseJoint Concrete.collab Concrete.joint0 Examples.linksNoType).1 = false ∧
      (parseJoint Concrete.collab Concrete.joint0 Examples.linksNoType).2.name = "j1" ∧
      (parseJoint Concrete.collab Concrete.joint0 Examples.linksNoType).2.parent_link_name
        = "a" ∧
      (parseJoint Concrete.collab Concrete.joint0 Examples.linksNoType).2.child_link_name
        = "b") ∧
    ((parseJoint Concrete.collab Concrete.joint0 Examples.revoluteLinksNoLimit).1 = false ∧
      (parseJoint Concrete.collab Concrete.joint0 Examples.revoluteLinksNoLimit).2.name = "j1" ∧
      (parseJoint Concrete.collab Concrete.joint0 Examples.revoluteLinksNoLimit).2.type
        = JointType.REVOLUTE ∧
      (parseJoint Concrete.collab Concrete.joint0
        Examples.revoluteLinksNoLimit).2.parent_link_name = "a" ∧
      (parseJoint Concrete.collab Concrete.joint0
        Examples.revoluteLinksNoLimit).2.child_link_name = "b") :=
  ⟨⟨by decide,
      ((C16_no_rollback Concrete.collab Concrete.joint0 Examples.fixedLinksBadDynamics "j1"
        (by decide) (by decide)).1 false
        (parseJoint Concrete.collab Concrete.joint0 Examples.fixedLinksBadDynamics).2
        (by decide)).1,
      ((C16_no_rollback Concrete.collab Concrete.joint0 Examples.fixedLinksBadDynamics "j1"
        (by decide) (by decide)).1 false
        (parseJoint Concrete.collab Concrete.joint0 Examples.fixedLinksBadDynamics).2
        (by decide)).2.1
        (XMLElement.mk "parent" [("link", "a")] []) "a" rfl (by decide),
      ((C16_no_rollback Concrete.collab Concrete.joint0 Examples.fixedLinksBadDynamics "j1"
        (by decide) (by decide)).1 false
        (parseJoint Concrete.collab Concrete.joint0 Examples.fixedLinksBadDynamics).2
        (by decide)).2.2.1
        (XMLElement.mk "child" [("link", "b")] []) "b" rfl (by decide),
      ((C16_no_rollback Concrete.collab Concrete.joint0 Examples.fixedLinksBadDynamics "j1"
        (by decide) (by decide)).1 false
        (parseJoint Concrete.collab Concrete.joint0 Examples.fixedLinksBadDynamics).2
        (by decide)).2.2.2
        "fixed" JointType.FIXED (by decide) (by decide)⟩,
    ⟨by decide,
      ((C16_no_rollback Concrete.collab Concrete.joint0 Examples.continuousLinksBadAxis "j1"
        (by decide) (by decide)).1 false
        (parseJoint Concrete.collab Concrete.joint0 Examples.continuousLinksBadAxis).2
        (by decide)).1,
      ((C16_no_rollback Concrete.collab Concrete.joint0 Examples.continuousLinksBadAxis "j1"
        (by decide) (by decide)).1 false
        (parseJoint Concrete.collab Concrete.joint0 Examples.continuousLinksBadAxis).2
        (by decide)).2.1
        (XMLElement.mk "parent" [("link", "a")] []) "a" rfl (by decide),
      ((C16_no_rollback Concrete.collab Concrete.joint0 Examples.continuousLinksBadAxis "j1"
        (by decide) (by decide)).1 false
        (parseJoint Concrete.collab Concrete.joint0 Examples.continuousLinksBadAxis).2
        (by decide)).2.2.1
        (XMLElement.mk "child" [("link", "b")] []) "b" rfl (by decide),
      ((C16_no_rollback Concrete.collab Concrete.joint0 Examples.continuousLinksBadAxis "j1"
        (by decide) (by decide)).1 false
        (parseJoint Concrete.collab Concrete.joint0 Examples.continuousLinksBadAxis).2
        (by decide)).2.2.2
        "continuous" JointType.CONTINUOUS (by decide) (by decide)⟩,
    ⟨((C16_no_rollback Concrete.collab Concrete.joint0 Examples.linksNoType "j1"
        (by decide) (by decide)).2.1 (Or.inl (by decide))).1,
      ((C16_no_rollback Concrete.collab Concrete.joint0 Examples.linksNoType "j1"
        (by decide) (by decide)).2.1 (Or.inl (by decide))).2.1,
      ((C16_no_rollback Concrete.collab Concrete.joint0 Examples.linksNoType "j1"
        (by decide) (by decide)).2.1 (Or.inl (by decide))).2.2.1
        (XMLElement.mk "parent" [("link", "a")] []) "a" rfl (by decide),
      ((C16_no_rollback Concrete.collab Concrete.joint0 Examples.linksNoType "j1"
        (by decide) (by decide)).2.1 (Or.inl (by decide))).2.2.2
        (XMLElement.mk "child" [("link", "b")] []) "b" rfl (by decide)⟩,
    ⟨((C16_no_rollback Concrete.collab Concrete.joint0 Examples.revoluteLinksNoLimit "j1"
        (by decide) (by decide)).2.2 "revolute" JointType.REVOLUTE (by decide) (by decide)
        (fun a _ ha => Option.noConfusion (show (none : Option XMLElement) = some a from ha))
        rfl).1,
      ((C16_no_rollback Concrete.collab Concrete.joint0 Examples.revoluteLinksNoLimit "j1"
        (by decide) (by decide)).2.2 "revolute" JointType.REVOLUTE (by decide) (by decide)
        (fun a _ ha => Option.noConfusion (show (none : Option XMLElement) = some a from ha))
        rfl).2.1,
      ((C16_no_rollback Concrete.collab Concrete.joint0 Examples.revoluteLinksNoLimit "j1"
        (by decide) (by decide)).2.2 "revolute" JointType.REVOLUTE (by decide) (by decide)
        (fun a _ ha => Option.noConfusion (show (none : Option XMLElement) = some a from ha))
        rfl).2.2.1,
      ((C16_no_rollback Concrete.collab Concrete.joint0 Examples.revoluteLinksNoLimit "j1"
        (by decide) (by decide)).2.2 "revolute" JointType.REVOLUTE (by decide) (by decide)
        (fun a _ ha => Option.noConfusion (show (none : Option XMLElement) = some a from ha))
        rfl).2.2.2.1
        (XMLElement.mk "parent" [("link", "a")] []) "a" rfl (by decide),
      ((C16_no_rollback Concrete.collab Concrete.joint0 Examples.revoluteLinksNoLimit "j1"
        (by decide) (by decide)).2.2 "revolute" JointType.REVOLUTE (by decide) (by decide)
        (fun a _ ha => Option.noConfusion (show (none : Option XMLElement) = some a from ha))
        rfl).2.2.2.2
        (XMLElement.mk "child" [("link", "b")] []) "b" rfl (by decide)⟩⟩

theorem outcome_limits (c : Collab D P) (j : Joint D P) (e : XMLElement) :
    (parseJointOutcome c j e).2.limits = none ∨
      ((parseJointOutcome c j e).2.limits = limitsOf c e ∧ ∃ ty, limitOk c ty e = true) := by
  unfold parseJointOutcome
  cases e.Attribute "name" <;> cases originOk c e <;> cases typeOfAttr e <;>
    simp [Joint.clear]
  rename_i n ty
  cases ha : axisOk c ty e <;> cases hl : limitOk c ty e <;> cases safetyOk c e <;>
    cases calibrationOk c e <;> cases mimicOk c e <;> cases dynamicsOk c e <;>
    simp <;> exact Or.inr ⟨ty, hl⟩

theorem outcome_safety (c : Collab D P) (j : Joint D P) (e : XMLElement) :
    (parseJointOutcome c j e).2.safety = none ∨
      ((parseJointOutcome c j e).2.safety = safetyOf c e ∧ safetyOk c e = true) := by
  unfold parseJointOutcome
  cases e.Attribute "name" <;> cases originOk c e <;> cases typeOfAttr e <;>
    simp [Joint.clear]
  rename_i n ty
  cases axisOk c ty e <;> cases limitOk c ty e <;> cases safetyOk c e <;>
    cases calibrationOk c e <;> cases mimicOk c e <;> cases dynamicsOk c e <;> simp

theorem outcome_calibration (c : Collab D P) (j : Joint D P) (e : XMLElement) :
    (parseJointOutcome c j e).2.calibration = none ∨
      ((parseJointOutcome c j e).2.calibration = calibrationOf c e ∧
        calibrationOk c e = true) := by
  unfold parseJointOutcome
  cases e.Attribute "name" <;> cases originOk c e <;> cases typeOfAttr e <;>
    simp [Joint.clear]
  rename_i n ty
  cases axisOk c ty e <;> cases limitOk c ty e <;> cases safetyOk c e <;>
    cases calibrationOk c e <;> cases mimicOk c e <;> cases dynamicsOk c e <;> simp

theorem outcome_mimic (c : Collab D P) (j : Joint D P) (e : XMLElement) :
    (parseJointOutcome c j e).2.mimic = none ∨
      ((parseJointOutcome c j e).2.mimic = mimicOf c e ∧ mimicOk c e = true) := by
  unfold parseJointOutcome
  cases e.Attribute "name" <;> cases originOk c e <;> cases typeOfAttr e <;>
    simp [Joint.clear]
  rename_i n ty
  cases axisOk c ty e <;> cases limitOk c ty e <;> cases safetyOk c e <;>
    cases calibrationOk c e <;> cases mimicOk c e <;> cases dynamicsOk c e <;> simp

theorem outcome_dynamics (c : Collab D P) (j : Joint D P) (e : XMLElement) :
    (parseJointOutcome c j e).2.dynamics = none ∨
      ((parseJointOutcome c j e).2.dynamics = dynamicsOf c e ∧ dynamicsOk c e = true) := by
  unfold parseJointOutcome
  cases e.Attribute "name" <;> cases originOk c e <;> cases typeOfAttr e <;>
    simp [Joint.clear]
  rename_i n ty
  cases axisOk c ty e <;> cases limitOk c ty e <;> cases safetyOk c e <;>
    cases calibrationOk c e <;> cases mimicOk c e <;> cases dynamicsOk c e <;> simp

theorem outcome_origin (c : Collab D P) (j : Joint D P) (e : XMLElement) :
    (parseJointOutcome c j e).2.parent_to_joint_origin_transform = c.poseClear ∨
      ((parseJointOutcome c j e).2.parent_to_joint_origin_transform = originOf c e ∧
        originOk c e = true) := by
  unfold parseJointOutcome
  cases e.Attribute "name" <;> cases originOk c e <;> cases typeOfAttr e <;>
    simp [Joint.clear]
  rename_i n ty
  cases axisOk c ty e <;> cases limitOk c ty e <;> cases safetyOk c e <;>
    cases calibrationOk c e <;> cases mimicOk c e <;> cases dynamicsOk c e <;> simp

theorem outcome_axis (c : Collab D P) (j : Joint D P) (e : XMLElement) :
    (parseJointOutcome c j e).2.axis = c.vecClear ∨
      ∃ ty, (parseJointOutcome c j e).2.axis = axisOf c ty e ∧ axisOk c ty e = true := by
  unfold parseJointOutcome
  cases e.Attribute "name" <;> cases originOk c e <;> cases typeOfAttr e <;>
    simp [Joint.clear]
  rename_i n ty
  cases ha : axisOk c ty e <;> cases limitOk c ty e <;> cases safetyOk c e <;>
    cases calibrationOk c e <;> cases mimicOk c e <;> cases dynamicsOk c e <;>
    simp <;> exact Or.inr ⟨ty, rfl, ha⟩

theorem map_snd_eq_some {α : Type} (o : Option XMLElement) (f : XMLElement → Bool × α) (r : α)
    (hok : ∀ x, o = some x → (f x).1 = true) (h : o.map (fun x => (f x).2) = some r) :
    ∃ x, o = some x ∧ f x = (true, r) := by
  cases o with
  | none => simp at h
  | some x =>
    simp only [Option.map_some', Option.some.injEq] at h
    exact ⟨x, rfl, Prod.ext (hok x rfl) h⟩

/-- C19: no half-parsed sub-structure is attached.  After any `parseJoint`
call, successful or not, each of limits, safety, calibration, mimic, dynamics
that is set on the joint is the record of a successful decode of the first
child with the corresponding tag; hence when that child is rejected by its
decoder the sub-structure is unset.  When the pose parser rejects the `origin`
child the origin transform on return is the cleared pose, and when the vector
parser rejects the `xyz` text of the `axis` child the axis on return is the
cleared vector. -/
theorem C19_no_half_parsed (c : Collab D P) (j : Joint D P) (e : XMLElement) :
    (∀ r, (parseJoint c j e).2.limits = some r →
      ∃ x, e.FirstChildElement "limit" = some x ∧
        parseJointLimits c c.limitsClear x = (true, r)) ∧
    (∀ r, (parseJoint c j e).2.safety = some r →
      ∃ x, e.FirstChildElement "safety_controller" = some x ∧
        parseJointSafety c c.safetyClear x = (true, r)) ∧
    (∀ r, (parseJoint c j e).2.calibration = some r →
      ∃ x, e.FirstChildElement "calibration" = some x ∧
        parseJointCalibration c c.calibrationClear x = (true, r)) ∧
    (∀ r, (parseJoint c j e).2.mimic = some r →
      ∃ x, e.FirstChildElement "mimic" = some x ∧
        parseJointMimic c c.mimicClear x = (true, r)) ∧
    (∀ r, (parseJoint c j e).2.dynamics = some r →
      ∃ x, e.FirstChildElement "dynamics" = some x ∧
        parseJointDynamics c c.dynamicsClear x = (true, r)) ∧
    (∀ x, e.FirstChildElement "limit" = some x →
      (parseJointLimits c c.limitsClear x).1 = false → (parseJoint c j e).2.limits = none) ∧
    (∀ x, e.FirstChildElement "safety_controller" = some x →
      (parseJointSafety c c.safetyClear x).1 = false → (parseJoint c j e).2.safety = none) ∧
    (∀ x, e.FirstChildElement "calibration" = some x →
      (parseJointCalibration c c.calibrationClear x).1 = false →
      (parseJoint c j e).2.calibration = none) ∧
    (∀ x, e.FirstChildElement "mimic" = some x →
      (parseJointMimic c c.mimicClear x).1 = false → (parseJoint c j e).2.mimic = none) ∧
    (∀ x, e.FirstChildElement "dynamics" = some x →
      (parseJointDynamics c c.dynamicsClear x).1 = false →
      (parseJoint c j e).2.dynamics = none) ∧
    (∀ o, e.FirstChildElement "origin" = some o →
      (c.parsePoseInternal c.poseClear o).1 = false →
      (parseJoint c j e).2.parent_to_joint_origin_transform = c.poseClear) ∧
    (∀ a t, e.FirstChildElement "axis" = some a → a.Attribute "xyz" = some t →
      c.vecInit t = none → (parseJoint c j e).2.axis = c.vecClear) := by
  rw [parseJoint_eq_outcome]
  have hL : ∀ r, (parseJointOutcome c j e).2.limits = some r →
      ∃ x, e.FirstChildElement "limit" = some x ∧
        parseJointLimits c c.limitsClear x = (true, r) := by
    intro r hr
    rcases outcome_limits c j e with h | ⟨h, ty, hok⟩
    · rw [h] at hr; cases hr
    · rw [h] at hr
      exact map_snd_eq_some _ _ r ((limitOk_iff c ty e).1 hok).1 hr
  have hS : ∀ r, (parseJointOutcome c j e).2.safety = some r →
      ∃ x, e.FirstChildElement "safety_controller" = some x ∧
        parseJointSafety c c.safetyClear x = (true, r) := by
    intro r hr
    rcases outcome_safety c j e with h | ⟨h, hok⟩
    · rw [h] at hr; cases hr
    · rw [h] at hr
      exact map_snd_eq_some _ _ r ((safetyOk_iff c e).1 hok) hr
  have hK : ∀ r, (parseJointOutcome c j e).2.calibration = some r →
      ∃ x, e.FirstChildElement "calibration" = some x ∧
        parseJointCalibration c c.calibrationClear x = (true, r) := by
    intro r hr
    rcases outcome_calibration c j e with h | ⟨h, hok⟩
    · rw [h] at hr; cases hr
    · rw [h] at hr
      exact map_snd_eq_some _ _ r ((calibrationOk_iff c e).1 hok) hr
  have hM : ∀ r, (parseJointOutcome c j e).2.mimic = some r →
      ∃ x, e.FirstChildElement "mimic" = some x ∧
        parseJointMimic c c.mimicClear x = (true, r) := by
    intro r hr
    rcases outcome_mimic c j e with h | ⟨h, hok⟩
    · rw [h] at hr; cases hr
    · rw [h] at hr
      exact map_snd_eq_some _ _ r ((mimicOk_iff c e).1 hok) hr
  have hD : ∀ r, (parseJointOutcome c j e).2.dynamics = some r →
      ∃ x, e.FirstChildElement "dynamics" = some x ∧
        parseJointDynamics c c.dynamicsClear x = (true, r) := by
    intro r hr
    rcases outcome_dynamics c j e with h | ⟨h, hok⟩
    · rw [h] at hr; cases hr
    · rw [h] at hr
      exact map_snd_eq_some _ _ r ((dynamicsOk_iff c e).1 hok) hr
  have unset : ∀ {α : Type} (f : XMLElement → Bool × α) (tag : String) (v : Option α),
      (∀ r, v = some r → ∃ x, e.FirstChildElement tag = some x ∧ f x = (true, r)) →
      ∀ x, e.FirstChildElement tag = some x → (f x).1 = false → v = none := by
    intro α f tag v hv x hx hf
    cases hvv : v with
    | none => rfl
    | some r =>
      obtain ⟨y, hy, hfy⟩ := hv r hvv
      rw [hx] at hy
      cases hy
      rw [hfy] at hf
      cases hf
  refine ⟨hL, hS, hK, hM, hD, unset _ _ _ hL, unset _ _ _ hS, unset _ _ _ hK,
    unset _ _ _ hM, unset _ _ _ hD, ?_, ?_⟩
  · intro o ho hfail
    rcases outcome_origin c j e with h | ⟨_, hok⟩
    · exact h
    · have := (originOk_iff c e).1 hok o ho
      rw [hfail] at this
      cases this
  · intro a t ha ht hv
    rcases outcome_axis c j e with h | ⟨ty, h, hok⟩
    · exact h
    · rw [h]
      by_cases hff : ty = JointType.FLOATING ∨ ty = JointType.FIXED
      · simp [axisOf, hff]
      · have h1 : ty ≠ JointType.FIXED := fun h => hff (Or.inr h)
        have h2 : ty ≠ JointType.FLOATING := fun h => hff (Or.inl h)
        exact absurd hv ((axisOk_iff c ty e).1 hok h1 h2 a t ha ht)

/-- Witness for C19.  On an element whose origin, limit and dynamics children
are all rejected the joint on return has the cleared pose and neither limits
nor dynamics; on an element whose `xyz` text is rejected the axis on return is
the cleared vector; on an element whose limit decodes and whose dynamics child
is rejected the limits on return are the decoded record. -/
theorem C19_no_half_parsed_witness :
    (parseJoint Concrete.collab Concrete.joint0 Examples.continuousAllBad).2.limits = none ∧
    (parseJoint Concrete.collab Concrete.joint0 Examples.continuousAllBad).2.dynamics = none ∧
    (parseJoint Concrete.collab Concrete.joint0
      Examples.continuousAllBad).2.parent_to_joint_origin_transform
      = Concrete.collab.poseClear ∧
    (parseJoint Concrete.collab Concrete.joint0 Examples.continuousBadAxis).2.axis
      = Concrete.collab.vecClear ∧
    ∃ x, Examples.fixedLimitBadDynamics.FirstChildElement "limit" = some x ∧
      parseJointLimits Concrete.collab Concrete.collab.limitsClear x =
        (true, JointLimits.mk 0 0 10 2) :=
  ⟨(C19_no_half_parsed Concrete.collab Concrete.joint0 Examples.continuousAllBad).2.2.2.2.2.1
      Examples.limitNoEffort rfl (by decide),
    (C19_no_half_parsed Concrete.collab Concrete.joint0
      Examples.continuousAllBad).2.2.2.2.2.2.2.2.2.1 Examples.dynamicsEmpty rfl (by decide),
    (C19_no_half_parsed Concrete.collab Concrete.joint0
      Examples.continuousAllBad).2.2.2.2.2.2.2.2.2.2.1
      (XMLElement.mk "origin" [("xyz", "up")] []) rfl (by decide),
    (C19_no_half_parsed Concrete.collab Concrete.joint0
      Examples.continuousBadAxis).2.2.2.2.2.2.2.2.2.2.2
      (XMLElement.mk "axis" [("xyz", "up")] []) "up" rfl (by decide) (by decide),
    (C19_no_half_parsed Concrete.collab Concrete.joint0 Examples.fixedLimitBadDynamics).1
      (JointLimits.mk 0 0 10 2) (by decide)⟩

end Outcome

/-! ## Only the first child of each tag is consulted -/

section FirstOnly

variable {D P : Type}

/-- `parseJoint` depends on the element only through the `name` and `type`
attributes and the first child of each of the nine recognised tags. -/
theorem parseJoint_congr (c : Collab D P) (j : Joint D P) (e e' : XMLElement)
    (hn : e'.Attribute "name" = e.Attribute "name")
    (ht : e'.Attribute "type" = e.Attribute "type")
    (h : ∀ t ∈ recognisedTags, e'.FirstChildElement t = e.FirstChildElement t) :
    parseJoint c j e' = parseJoint c j e := by
  rw [parseJoint_eq_outcome, parseJoint_eq_outcome]
  have hty : typeOfAttr e' = typeOfAttr e := by simp [typeOfAttr, ht]
  simp only [parseJointOutcome, hn, hty, originOk, originOf, linkOf, axisOk, axisOf, limitOk,
    limitsOf, safetyOk, safetyOf, calibrationOk, calibrationOf, mimicOk, mimicOf, dynamicsOk,
    dynamicsOf, h "origin" (by decide), h "parent" (by decide), h "child" (by decide),
    h "axis" (by decide), h "limit" (by decide), h "safety_controller" (by decide),
    h "calibration" (by decide), h "mimic" (by decide), h "dynamics" (by decide)]

theorem find_insert_of_false {α : Type} (pre post : List α) (x : α) (p : α → Bool)
    (hx : p x = false) : (pre ++ x :: post).find? p = (pre ++ post).find? p := by
  simp [List.find?_append, List.find?_cons, hx]

theorem find_insert_after {α : Type} (pre post : List α) (x y : α) (p : α → Bool)
    (hy : y ∈ pre) (hpy : p y = true) :
    (pre ++ x :: post).find? p = (pre ++ post).find? p := by
  have hsome : ∃ z, pre.find? p = some z := by
    cases hf : pre.find? p with
    | some z => exact ⟨z, rfl⟩
    | none =>
      have := List.find?_eq_none.1 hf y hy
      rw [hpy] at this
      exact absurd rfl this
  obtain ⟨z, hz⟩ := hsome
  simp [List.find?_append, hz]

/-- C20: only the first child of each tag is consulted.  The flag and the joint
that `parseJoint` returns are unchanged (1) by inserting a further child
anywhere after an existing child of the same tag, (2) by inserting anywhere a
child whose tag is none of the nine recognised ones, and (3) by inserting
anywhere an attribute whose name is neither `name` nor `type`.  In particular
(4) a later duplicate does not turn a failing decode into a successful one. -/
theorem C20_first_child_only (c : Collab D P) (j : Joint D P) (n : String)
    (as : List (String × String)) :
    (∀ (pre post : List XMLElement) (x y : XMLElement), y ∈ pre → y.Name = x.Name →
      parseJoint c j (XMLElement.mk n as (pre ++ x :: post)) =
        parseJoint c j (XMLElement.mk n as (pre ++ post))) ∧
    (∀ (pre post : List XMLElement) (x : XMLElement), x.Name ∉ recognisedTags →
      parseJoint c j (XMLElement.mk n as (pre ++ x :: post)) =
        parseJoint c j (XMLElement.mk n as (pre ++ post))) ∧
    (∀ (kids : List XMLElement) (pre post : List (String × String)) (a v : String),
      a ≠ "name" → a ≠ "type" →
      parseJoint c j (XMLElement.mk n (pre ++ (a, v) :: post) kids) =
        parseJoint c j (XMLElement.mk n (pre ++ post) kids)) ∧
    (∀ (pre post : List XMLElement) (x y : XMLElement), y ∈ pre → y.Name = x.Name →
      (parseJoint c j (XMLElement.mk n as (pre ++ post))).1 = false →
      (parseJoint c j (XMLElement.mk n as (pre ++ x :: post))).1 = false) := by
  have h1 : ∀ (pre post : List XMLElement) (x y : XMLElement), y ∈ pre → y.Name = x.Name →
      parseJoint c j (XMLElement.mk n as (pre ++ x :: post)) =
        parseJoint c j (XMLElement.mk n as (pre ++ post)) := by
    intro pre post x y hy hname
    refine parseJoint_congr c j (XMLElement.mk n as (pre ++ post))
      (XMLElement.mk n as (pre ++ x :: post)) rfl rfl ?_
    intro t _
    simp only [XMLElement.FirstChildElement, XMLElement.children]
    by_cases hx : x.Name = t
    · exact find_insert_after pre post x y _ hy (by simp [hname, hx])
    · exact find_insert_of_false pre post x _ (by simpa using hx)
  refine ⟨h1, ?_, ?_, ?_⟩
  · intro pre post x hx
    refine parseJoint_congr c j (XMLElement.mk n as (pre ++ post))
      (XMLElement.mk n as (pre ++ x :: post)) rfl rfl ?_
    intro t ht
    simp only [XMLElement.FirstChildElement, XMLElement.children]
    apply find_insert_of_false
    have hne : x.Name ≠ t := fun h => hx (h ▸ ht)
    simpa using hne
  · intro kids pre post a v ha1 ha2
    have hattr : ∀ t, t ≠ a →
        (XMLElement.mk n (pre ++ (a, v) :: post) kids).Attribute t =
          (XMLElement.mk n (pre ++ post) kids).Attribute t := by
      intro t hta
      simp only [XMLElement.Attribute, XMLElement.attrs]
      rw [find_insert_of_false pre post (a, v) _ (by simpa using fun h => hta h.symm)]
    exact parseJoint_congr c j _ _ (hattr "name" (fun h => ha1 h.symm))
      (hattr "type" (fun h => ha2 h.symm)) (fun t _ => rfl)
  · intro pre post x y hy hname hfail
    rw [h1 pre post x y hy hname]
    exact hfail

/-- Witness for C20: the revolute joint whose first `limit` lacks `effort`
fails with or without a well-formed second `limit`, and
`<joint name="j1" id="7" type="revolute"><note/><limit .../></joint>` decodes
exactly as it does without the `note` child and the `id` attribute. -/
theorem C20_first_child_only_witness :
    parseJoint Concrete.collab Concrete.joint0 Examples.revoluteBadLimitThenGood =
      parseJoint Concrete.collab Concrete.joint0 Examples.revoluteBadLimit ∧
    (parseJoint Concrete.collab Concrete.joint0 Examples.revoluteBadLimitThenGood).1 = false ∧
    parseJoint Concrete.collab Concrete.joint0 Examples.revoluteWithExtras =
      parseJoint Concrete.collab Concrete.joint0
        (XMLElement.mk "joint" [("name", "j1"), ("id", "7"), ("type", "revolute")]
          [Examples.limit0_1_10_2]) ∧
    parseJoint Concrete.collab Concrete.joint0
        (XMLElement.mk "joint" [("name", "j1"), ("id", "7"), ("type", "revolute")]
          [Examples.limit0_1_10_2]) =
      parseJoint Concrete.collab Concrete.joint0 Examples.revoluteWithLimit :=
  ⟨(C20_first_child_only Concrete.collab Concrete.joint0 "joint"
      [("name", "j1"), ("type", "revolute")]).1 [Examples.limitNoEffort] []
      Examples.limit0_1_10_2 Examples.limitNoEffort (List.mem_singleton.2 rfl) (by decide),
    (C20_first_child_only Concrete.collab Concrete.joint0 "joint"
      [("name", "j1"), ("type", "revolute")]).2.2.2 [Examples.limitNoEffort] []
      Examples.limit0_1_10_2 Examples.limitNoEffort (List.mem_singleton.2 rfl) (by decide)
      (by decide),
    (C20_first_child_only Concrete.collab Concrete.joint0 "joint"
      [("name", "j1"), ("id", "7"), ("type", "revolute")]).2.1 [] [Examples.limit0_1_10_2]
      (XMLElement.mk "note" [] []) (by decide),
    (C20_first_child_only Concrete.collab Concrete.joint0 "joint"
      [("name", "j1"), ("type", "revolute")]).2.2.1 [Examples.limit0_1_10_2]
      [("name", "j1")] [("type", "revolute")] "id" "7" (by decide) (by decide)⟩

end FirstOnly

/-! ## Shape of the encoder output and symmetry of the sub-codecs -/

section Shape

variable {D P : Type}

/-- C14 (amended): shape of the output of `exportJoint`.  For a joint of one of
the six kinds exactly one element is appended as the last child of the supplied
parent; it is tagged `joint`, carries `name` and the type spelling, and its
children are, after any `origin` children, the `axis` child with the current
axis, the `parent` and `child` children with the stored link names, then in this
order one child for each of dynamics, limits and safety that is present, a
`calibration` child when a calibration is present with `rising` or `falling`
set, and a `mimic` child when a mimic is present with a non-empty joint name
(`emittedChildren`).  For a joint of type `UNKNOWN`, with a pose encoder that
appends one element, the same holds without the `type` attribute. -/
theorem C14_export_shape (c : Collab D P) (joint : Joint D P) (xml : XMLElement) :
    (joint.type ≠ JointType.UNKNOWN →
      ∃ sp pre, spellingOf joint.type = some sp ∧ (∀ x ∈ pre, x.Name = "origin") ∧
        exportJoint c joint xml =
          (true, XMLElement.mk xml.Name xml.attrs
            (xml.children ++
              [XMLElement.mk "joint" [("name", joint.name), ("type", sp)]
                (pre ++ emittedChildren c joint)]))) ∧
    (joint.type = JointType.UNKNOWN →
      ∀ o : P → XMLElement, (∀ p x, c.exportPose p x = x.LinkEndChild (o p)) →
        exportJoint c joint xml =
          (true, XMLElement.mk xml.Name xml.attrs
            (xml.children ++
              [XMLElement.mk "joint" [("name", joint.name)]
                (o joint.parent_to_joint_origin_transform :: emittedChildren c joint)]))) := by
  constructor
  · intro hty
    have hsp : ∃ sp, spellingOf joint.type = some sp := by
      cases h : joint.type <;> simp [spellingOf]
      exact absurd h hty
    obtain ⟨sp, hsp⟩ := hsp
    refine ⟨sp, [], hsp, by simp, ?_⟩
    unfold exportJoint
    rw [exportJoint_element_eq c joint sp hsp]
    rfl
  · intro hty o hpose
    unfold exportJoint exportJoint.element
    have hn : (NewElement "joint").SetAttribute "name" joint.name =
        XMLElement.mk "joint" [("name", joint.name)] [] := rfl
    simp only [hty, hn, hpose, LinkEndChild_mk]
    simp [XMLElement.LinkEndChild, exportJoint_rest_eq, XMLElement.Name, XMLElement.attrs,
      XMLElement.children]

/-- Witness for C14: the joint decoded from `revoluteFull` and the cleared joint
(type `UNKNOWN`), exported under `<robot/>`. -/
theorem C14_export_shape_witness :
    (∃ sp pre, spellingOf Examples.jointRevoluteFull.type = some sp ∧
      (∀ x ∈ pre, x.Name = "origin") ∧
      exportJoint Concrete.collab Examples.jointRevoluteFull Examples.robot =
        (true, XMLElement.mk Examples.robot.Name Examples.robot.attrs
          (Examples.robot.children ++
            [XMLElement.mk "joint" [("name", Examples.jointRevoluteFull.name), ("type", sp)]
              (pre ++ emittedChildren Concrete.collab Examples.jointRevoluteFull)]))) ∧
    emittedChildren Concrete.collab Examples.jointRevoluteFull =
      [XMLElement.mk "axis" [("xyz", "1 0 0")] [],
       XMLElement.mk "parent" [("link", "a")] [],
       XMLElement.mk "child" [("link", "b")] [],
       XMLElement.mk "dynamics" [("damping", "3"), ("friction", "0")] [],
       XMLElement.mk "limit"
         [("effort", "10"), ("velocity", "2"), ("lower", "0"), ("upper", "1")] [],
       XMLElement.mk "calibration" [("rising", "5")] [],
       XMLElement.mk "mimic" [("offset", "0"), ("multiplier", "1"), ("joint", "j0")] []] ∧
    exportJoint Concrete.collab Concrete.joint0 Examples.robot =
      (true, XMLElement.mk Examples.robot.Name Examples.robot.attrs
        (Examples.robot.children ++
          [XMLElement.mk "joint" [("name", Concrete.joint0.name)]
            (Examples.originElement Concrete.joint0.parent_to_joint_origin_transform ::
              emittedChildren Concrete.collab Concrete.joint0)])) :=
  ⟨(C14_export_shape Concrete.collab Examples.jointRevoluteFull Examples.robot).1 (by decide),
    rfl,
    (C14_export_shape Concrete.collab Concrete.joint0 Examples.robot).2 rfl
      Examples.originElement (fun _ _ => rfl)⟩

/-- C14 as stated fails at a fixed joint whose calibration is present with
nothing set: the calibration is present, yet the element appended under
`<robot/>` has only the `axis`, `parent` and `child` children. -/
theorem C14_export_shape_counterexample :
    Examples.jointEmptyCalibration.calibration ≠ none ∧
    exportJoint Concrete.collab Examples.jointEmptyCalibration Examples.robot =
      (true, XMLElement.mk "robot" []
        [XMLElement.mk "joint" [("name", "j1"), ("type", "fixed")]
          [XMLElement.mk "axis" [("xyz", "0 0 0")] [],
           XMLElement.mk "parent" [("link", "")] [],
           XMLElement.mk "child" [("link", "")] []]]) :=
  ⟨by decide, rfl⟩

/-- C17 (amended): symmetry of the sub-codecs, with numbers that survive
formatting and parsing.  For every dynamics, limits and safety record the
encoder appends one element that carries every attribute the decoder reads, and
decoding that element succeeds and returns the record.  The same holds for a
calibration record with `rising` or `falling` set and for a mimic record with a
non-empty joint name; for a calibration with neither set and for a mimic with
an empty joint name the encoder appends nothing. -/
theorem C17_subcodec_symmetry (c : Collab D P) (xml : XMLElement) :
    (∀ r r0 : JointDynamics D,
      c.strToDouble (c.values2str r.damping) = some r.damping →
      c.strToDouble (c.values2str r.friction) = some r.friction →
      ∃ el, exportJointDynamics c r xml = (true, xml.LinkEndChild el) ∧
        parseJointDynamics c r0 el = (true, r) ∧
        ∀ a ∈ ["damping", "friction"], el.Attribute a ≠ none) ∧
    (∀ r r0 : JointLimits D,
      c.strToDouble (c.values2str r.effort) = some r.effort →
      c.strToDouble (c.values2str r.velocity) = some r.velocity →
      c.strToDouble (c.values2str r.lower) = some r.lower →
      c.strToDouble (c.values2str r.upper) = some r.upper →
      ∃ el, exportJointLimits c r xml = (true, xml.LinkEndChild el) ∧
        parseJointLimits c r0 el = (true, r) ∧
        ∀ a ∈ ["lower", "upper", "effort", "velocity"], el.Attribute a ≠ none) ∧
    (∀ r r0 : JointSafety D,
      c.strToDouble (c.values2str r.k_position) = some r.k_position →
      c.strToDouble (c.values2str r.k_velocity) = some r.k_velocity →
      c.strToDouble (c.values2str r.soft_lower_limit) = some r.soft_lower_limit →
      c.strToDouble (c.values2str r.soft_upper_limit) = some r.soft_upper_limit →
      ∃ el, exportJointSafety c r xml = (true, xml.LinkEndChild el) ∧
        parseJointSafety c r0 el = (true, r) ∧
        ∀ a ∈ ["soft_lower_limit", "soft_upper_limit", "k_position", "k_velocity"],
          el.Attribute a ≠ none) ∧
    (∀ r r0 : JointCalibration D, r.falling.isSome ∨ r.rising.isSome →
      (∀ d, r.falling = some d → c.strToDouble (c.values2str d) = some d) →
      (∀ d, r.rising = some d → c.strToDouble (c.values2str d) = some d) →
      ∃ el, exportJointCalibration c r xml = (true, xml.LinkEndChild el) ∧
        parseJointCalibration c r0 el = (true, r)) ∧
    (∀ r r0 : JointMimic D, r.joint_name ≠ "" →
      c.strToDouble (c.values2str r.offset) = some r.offset →
      c.strToDouble (c.values2str r.multiplier) = some r.multiplier →
      ∃ el, exportJointMimic c r xml = (true, xml.LinkEndChild el) ∧
        parseJointMimic c r0 el = (true, r)) ∧
    (∀ r : JointCalibration D, r.falling = none → r.rising = none →
      exportJointCalibration c r xml = (true, xml)) ∧
    (∀ r : JointMimic D, r.joint_name = "" → exportJointMimic c r xml = (true, xml)) := by
  refine ⟨?_, ?_, ?_, ?_, ?_, ?_, ?_⟩
  · intro r r0 h1 h2
    refine ⟨dynamicsElement c r, exportJointDynamics_eq c r xml,
      parseJointDynamics_dynamicsElement c r0 r h1 h2, ?_⟩
    intro a ha
    simp only [List.mem_cons, List.mem_singleton, List.mem_nil_iff, or_false] at ha
    rcases ha with rfl | rfl <;>
      simp [dynamicsElement, XMLElement.Attribute, XMLElement.attrs, List.find?_cons]
  · intro r r0 h1 h2 h3 h4
    refine ⟨limitElement c r, exportJointLimits_eq c r xml,
      parseJointLimits_limitElement c r0 r h1 h2 h3 h4, ?_⟩
    intro a ha
    simp only [List.mem_cons, List.mem_singleton, List.mem_nil_iff, or_false] at ha
    rcases ha with rfl | rfl | rfl | rfl <;>
      simp [limitElement, XMLElement.Attribute, XMLElement.attrs, List.find?_cons]
  · intro r r0 h1 h2 h3 h4
    refine ⟨safetyElement c r, exportJointSafety_eq c r xml,
      parseJointSafety_safetyElement c r0 r h1 h2 h3 h4, ?_⟩
    intro a ha
    simp only [List.mem_cons, List.mem_singleton, List.mem_nil_iff, or_false] at ha
    rcases ha with rfl | rfl | rfl | rfl <;>
      simp [safetyElement, XMLElement.Attribute, XMLElement.attrs, List.find?_cons]
  · intro r r0 hg h1 h2
    have hel : ∃ el, calibrationElement c r = some el := by
      simp [calibrationElement, hg]
    obtain ⟨el, hel⟩ := hel
    refine ⟨el, ?_, parseJointCalibration_calibrationElement c r0 r el hel h1 h2⟩
    rw [exportJointCalibration_eq, hel]
  · intro r r0 hg h1 h2
    have hel : ∃ el, mimicElement c r = some el := by
      simp [mimicElement, hg]
    obtain ⟨el, hel⟩ := hel
    refine ⟨el, ?_, parseJointMimic_mimicElement c r0 r el hel h1 h2⟩
    rw [exportJointMimic_eq, hel]
  · intro r h1 h2
    simp [exportJointCalibration, h1, h2]
  · intro r h
    simp [exportJointMimic, h]

/-- Witness for C17 with the concrete collaborators: the limits record
(0, 1, 10, 2) and the calibration with `rising` 5 are encoded under `<robot/>`
and decoded back; the calibration with nothing set appends nothing. -/
theorem C17_subcodec_symmetry_witness :
    (∃ el, exportJointLimits Concrete.collab (JointLimits.mk 0 1 10 2) Examples.robot =
        (true, Examples.robot.LinkEndChild el) ∧
      parseJointLimits Concrete.collab Concrete.collab.limitsClear el =
        (true, JointLimits.mk 0 1 10 2) ∧
      ∀ a ∈ ["lower", "upper", "effort", "velocity"], el.Attribute a ≠ none) ∧
    (∃ el, exportJointCalibration Concrete.collab (JointCalibration.mk (some 5) none)
        Examples.robot = (true, Examples.robot.LinkEndChild el) ∧
      parseJointCalibration Concrete.collab Concrete.collab.calibrationClear el =
        (true, JointCalibration.mk (some 5) none)) ∧
    exportJointCalibration Concrete.collab (JointCalibration.mk none none) Examples.robot =
      (true, Examples.robot) :=
  ⟨(C17_subcodec_symmetry Concrete.collab Examples.robot).2.1 (JointLimits.mk 0 1 10 2)
      Concrete.collab.limitsClear (by decide) (by decide) (by decide) (by decide),
    (C17_subcodec_symmetry Concrete.collab Examples.robot).2.2.2.1
      (JointCalibration.mk (some 5) none) Concrete.collab.calibrationClear
      (Or.inr (by decide)) (by decide) (by decide),
    (C17_subcodec_symmetry Concrete.collab Examples.robot).2.2.2.2.2.1
      (JointCalibration.mk none none) rfl rfl⟩

/-- C17 as stated fails at the calibration record with neither `rising` nor
`falling` set and at the mimic record with an empty joint name: encoding either
under `<robot/>` appends no element, so there is nothing to decode. -/
theorem C17_subcodec_symmetry_counterexample :
    (¬ ∃ el, exportJointCalibration Concrete.collab (JointCalibration.mk none none)
        Examples.robot = (true, Examples.robot.LinkEndChild el)) ∧
    (¬ ∃ el, exportJointMimic Concrete.collab (JointMimic.mk 0 1 "") Examples.robot =
        (true, Examples.robot.LinkEndChild el)) :=
  ⟨fun ⟨_, h⟩ =>
      (show (0 : Nat) ≠ 1 by decide) (congrArg (fun r => r.2.children.length) h),
    fun ⟨_, h⟩ =>
      (show (0 : Nat) ≠ 1 by decide) (congrArg (fun r => r.2.children.length) h)⟩

end Shape

/-! ## Decodability of the encoder output -/

section Redecode

variable {D P : Type}

end Redecode

end urdf
